import Mathlib

/-!
Verification model of the prometheus-rds-exporter scrape core.

The Go sources are shallowly embedded: Go structs become Lean structures,
Go `float64` sample values become `ℚ` (`Value`), pointer-valued optional
fields become `Option Value`, fallible functions return `Except`, and Go
maps are represented as association lists in insertion order.  All maps in
the modelled code have pairwise distinct keys (proved below where it
matters), so an association list with first-key lookup is extensionally
the Go map; the unspecified iteration order of Go maps is handled by
quantifying over permutations of the key list where a theorem depends on
the order.
-/

namespace RdsExporter

/-- Sample values (Go `float64`).  The claims only involve exactly
representable values, so rationals model the doubles faithfully. -/
abbrev Value := ℚ

/-- First-match lookup in an association list (Go map read,
given pairwise distinct keys). -/
def alookup {α : Type} (k : String) : List (String × α) → Option α
  | [] => none
  | (k', v) :: rest => if k' = k then some v else alookup k rest

/-- Replace the value stored at key `k` (Go write through an existing
map entry). -/
def aset {α : Type} (l : List (String × α)) (k : String) (v : α) : List (String × α) :=
  l.map (fun p => if p.1 = k then (k, v) else p)

/-- `strings.ToLower` on ASCII metric names: lower-case every character.
(Stated structurally over the character list so that it evaluates in the
kernel; extensionally `String.toLower`.) -/
def toLowerStr (s : String) : String := String.mk (s.data.map Char.toLower)

namespace Cloudwatch

/-- Constant `MaxQueriesPerCloudwatchRequest` (hard cap of queries per
`GetMetricData` call). -/
def MaxQueriesPerCloudwatchRequest : Nat := 500

/-- Constant `Minute` (period, in seconds, of each metric query). -/
def Minute : Int := 60

/-- `RdsMetrics`: the 24 optional per-instance series; every field is a
`*float64` in Go, `none` models the nil pointer. -/
structure RdsMetrics where
  CPUUtilization : Option Value := none
  DBLoad : Option Value := none
  DBLoadCPU : Option Value := none
  DBLoadNonCPU : Option Value := none
  DatabaseConnections : Option Value := none
  FreeStorageSpace : Option Value := none
  FreeableMemory : Option Value := none
  MaximumUsedTransactionIDs : Option Value := none
  ReadIOPS : Option Value := none
  ReadThroughput : Option Value := none
  ReplicaLag : Option Value := none
  ReplicationSlotDiskUsage : Option Value := none
  SwapUsage : Option Value := none
  TransactionLogsDiskUsage : Option Value := none
  WriteIOPS : Option Value := none
  WriteThroughput : Option Value := none
  BufferCacheHitRatio : Option Value := none
  Deadlocks : Option Value := none
  Queries : Option Value := none
  EngineUptime : Option Value := none
  SumBinaryLogSize : Option Value := none
  NumBinaryLogFiles : Option Value := none
  AuroraBinlogReplicaLag : Option Value := none
  BinLogDiskUsage : Option Value := none
deriving DecidableEq, Repr, Inhabited

/-- The error wrapped by `RdsMetrics.Update` for an unknown field
(`errUnknownMetric`, wrapped by `fmt.Errorf` which keeps the field name). -/
inductive UpdateError where
  | unknownMetric (field : String)
deriving DecidableEq, Repr

/-- `RdsMetrics.Update`: dispatch a fetched value to the struct field named
by `field`; unknown names yield an error wrapping `errUnknownMetric`.
Cases appear in source order. -/
def RdsMetrics.Update (m : RdsMetrics) (field : String) (value : Value) :
    Except UpdateError RdsMetrics :=
  match field with
  | "DBLoad" => .ok { m with DBLoad := some value }
  | "DBLoadCPU" => .ok { m with DBLoadCPU := some value }
  | "DBLoadNonCPU" => .ok { m with DBLoadNonCPU := some value }
  | "CPUUtilization" => .ok { m with CPUUtilization := some value }
  | "DatabaseConnections" => .ok { m with DatabaseConnections := some value }
  | "FreeStorageSpace" => .ok { m with FreeStorageSpace := some value }
  | "FreeableMemory" => .ok { m with FreeableMemory := some value }
  | "SwapUsage" => .ok { m with SwapUsage := some value }
  | "WriteIOPS" => .ok { m with WriteIOPS := some value }
  | "ReadIOPS" => .ok { m with ReadIOPS := some value }
  | "ReplicaLag" => .ok { m with ReplicaLag := some value }
  | "ReplicationSlotDiskUsage" => .ok { m with ReplicationSlotDiskUsage := some value }
  | "MaximumUsedTransactionIDs" => .ok { m with MaximumUsedTransactionIDs := some value }
  | "ReadThroughput" => .ok { m with ReadThroughput := some value }
  | "WriteThroughput" => .ok { m with WriteThroughput := some value }
  | "TransactionLogsDiskUsage" => .ok { m with TransactionLogsDiskUsage := some value }
  | "BufferCacheHitRatio" => .ok { m with BufferCacheHitRatio := some value }
  | "Deadlocks" => .ok { m with Deadlocks := some value }
  | "Queries" => .ok { m with Queries := some value }
  | "EngineUptime" => .ok { m with EngineUptime := some value }
  | "SumBinaryLogSize" => .ok { m with SumBinaryLogSize := some value }
  | "NumBinaryLogFiles" => .ok { m with NumBinaryLogFiles := some value }
  | "AuroraBinlogReplicaLag" => .ok { m with AuroraBinlogReplicaLag := some value }
  | "BinLogDiskUsage" => .ok { m with BinLogDiskUsage := some value }
  | _ => .error (.unknownMetric field)

/-- `getCloudWatchMetricsName`: the 24 collected metric names, in source
order. -/
def getCloudWatchMetricsName : List String :=
  [ "CPUUtilization", "DBLoad", "DBLoadCPU", "DBLoadNonCPU",
    "DatabaseConnections", "FreeStorageSpace", "FreeableMemory",
    "MaximumUsedTransactionIDs", "ReadIOPS", "ReadThroughput",
    "ReplicaLag", "ReplicationSlotDiskUsage", "SwapUsage",
    "TransactionLogsDiskUsage", "WriteIOPS", "WriteThroughput",
    "BufferCacheHitRatio", "Deadlocks", "Queries", "EngineUptime",
    "SumBinaryLogSize", "NumBinaryLogFiles", "AuroraBinlogReplicaLag",
    "BinLogDiskUsage" ]

/-- One `MetricDataQuery` as built by `generateCloudWatchQueryForInstance`
(string defaults are the Go zero values, used when a map read misses). -/
structure MetricDataQuery where
  Id : String := ""
  MetricNamespace : String := ""
  MetricName : String := ""
  DimensionName : String := ""
  DimensionValue : String := ""
  Stat : String := ""
  Period : Int := 0
deriving DecidableEq, Repr, Inhabited

/-- `CloudWatchMetricRequest`; the defaults are the Go zero value
(returned by `requests[key]` when `key` is absent). -/
structure CloudWatchMetricRequest where
  Dbidentifier : String := ""
  MetricName : String := ""
  Query : MetricDataQuery := {}
deriving DecidableEq, Repr, Inhabited

/-- `generateCloudWatchQueryForInstance`: the query of a single
(instance, metric) pair: statistic "Average", period `Minute`. -/
def generateCloudWatchQueryForInstance (queryID : String) (metricName : String)
    (dbIdentifier : String) : CloudWatchMetricRequest :=
  { Dbidentifier := dbIdentifier
    MetricName := metricName
    Query :=
      { Id := queryID
        MetricNamespace := "AWS/RDS"
        MetricName := metricName
        DimensionName := "DBInstanceIdentifier"
        DimensionValue := dbIdentifier
        Stat := "Average"
        Period := Minute } }

/-- The query id `fmt.Sprintf("%s_%d", strings.ToLower(metricName), i)`. -/
def queryIdFor (metricName : String) (i : Nat) : String :=
  toLowerStr metricName ++ "_" ++ Nat.repr i

/-- `generateCloudWatchQueriesForInstances`: one query per
(identifier index, metric name) pair, keyed by `queryIdFor`.  The Go map
is modelled as the association list in insertion order (its keys are
pairwise distinct, proved below). -/
def generateCloudWatchQueriesForInstances (dbIdentifiers : List String) :
    List (String × CloudWatchMetricRequest) :=
  dbIdentifiers.enum.flatMap fun p =>
    getCloudWatchMetricsName.map fun metricName =>
      (queryIdFor metricName p.1,
        generateCloudWatchQueryForInstance (queryIdFor metricName p.1) metricName p.2)

/-- One entry of `GetMetricDataOutput.MetricDataResults`; `Values := none`
models a nil slice (distinct from an empty one, as in Go). -/
structure MetricDataResult where
  Id : String := ""
  Label : String := ""
  Values : Option (List Value) := none
deriving DecidableEq, Repr, Inhabited

/-- The upstream `GetMetricData` call: from the queries of one chunk to a
result list, or an SDK error.  The fetcher is parameterized by it. -/
abbrev Client := List MetricDataQuery → Except String (List MetricDataResult)

/-- Errors of `updateMetricsWithCloudWatchQueriesResult`: an SDK error or
an `RdsMetrics.Update` failure (both wrapped by `fmt.Errorf` in Go). -/
inductive CwError where
  | apiError (msg : String)
  | updateError (e : UpdateError)
deriving DecidableEq, Repr

/-- The result-processing loop of `updateMetricsWithCloudWatchQueriesResult`:
skip nil values, create the instance entry if missing, dispatch the first
value through `RdsMetrics.Update` when the series is non-empty. -/
def processResults (requests : List (String × CloudWatchMetricRequest)) :
    List (String × RdsMetrics) → List MetricDataResult →
      Except UpdateError (List (String × RdsMetrics))
  | ms, [] => .ok ms
  | ms, r :: rest =>
    match r.Values with
    | none => processResults requests ms rest
    | some vs =>
      let val := (alookup r.Id requests).getD {}
      let ms1 := if (alookup val.Dbidentifier ms).isSome then ms
        else ms ++ [(val.Dbidentifier, {})]
      match vs with
      | [] => processResults requests ms1 rest
      | v :: _ =>
        match ((alookup val.Dbidentifier ms1).getD {}).Update val.MetricName v with
        | .error e => .error e
        | .ok newM => processResults requests (aset ms1 val.Dbidentifier newM) rest

/-- `updateMetricsWithCloudWatchQueriesResult`: issue one `GetMetricData`
call for `chunk` and fold its results into `metrics`. -/
def updateMetricsWithCloudWatchQueriesResult (client : Client)
    (metrics : List (String × RdsMetrics))
    (requests : List (String × CloudWatchMetricRequest)) (chunk : List String) :
    Except CwError (List (String × RdsMetrics)) :=
  let params := chunk.map fun key => ((alookup key requests).getD {}).Query
  match client params with
  | .error e => .error (.apiError e)
  | .ok results =>
    match processResults requests metrics results with
    | .error e => .error (.updateError e)
    | .ok ms => .ok ms

/-- `RdsFetcher.statistics`: `CloudWatchAPICall` is a fresh `float64`
counter per fetcher. -/
structure Statistics where
  CloudWatchAPICall : Value := 0
deriving DecidableEq, Repr, Inhabited

/-- `CloudWatchMetrics`: per-identifier samples (`Instances` map). -/
structure CloudWatchMetrics where
  Instances : List (String × RdsMetrics) := []
deriving DecidableEq, Repr, Inhabited

/-- The chunking loop of `GetRDSInstanceMetrics` over the map's keys:
accumulate keys into `chunk`, flush every full chunk of
`MaxQueriesPerCloudwatchRequest` keys through one upstream call.  The
list `calls` is a ghost record of the chunk of every issued call. -/
def gmLoop (client : Client) (requests : List (String × CloudWatchMetricRequest)) :
    List String → List (String × RdsMetrics) → List String → List (List String) →
      Except CwError (List (String × RdsMetrics) × List String × List (List String))
  | [], metrics, chunk, calls => .ok (metrics, chunk, calls)
  | query :: rest, metrics, chunk, calls =>
    let chunk' := chunk ++ [query]
    if chunk'.length = MaxQueriesPerCloudwatchRequest then
      match updateMetricsWithCloudWatchQueriesResult client metrics requests chunk' with
      | .error e => .error e
      | .ok m2 => gmLoop client requests rest m2 [] (calls ++ [chunk'])
    else gmLoop client requests rest metrics chunk' calls

/-- `RdsFetcher.GetRDSInstanceMetrics`.  `keyOrder` is the order in which
Go's `range` happens to enumerate the query map (any permutation of its
keys).  Returns the per-instance samples, the fetcher statistics (the
source increments `statistics.CloudWatchAPICall` only when the final,
partial chunk is flushed) and the ghost list of issued calls. -/
def GetRDSInstanceMetrics (client : Client) (dbIdentifiers : List String)
    (keyOrder : List String) :
    Except CwError (CloudWatchMetrics × Statistics × List (List String)) :=
  let cloudWatchQueries := generateCloudWatchQueriesForInstances dbIdentifiers
  match gmLoop client cloudWatchQueries keyOrder [] [] [] with
  | .error e => .error e
  | .ok (metrics, chunk, calls) =>
    if chunk = [] then .ok ({ Instances := metrics }, { CloudWatchAPICall := 0 }, calls)
    else
      match updateMetricsWithCloudWatchQueriesResult client metrics cloudWatchQueries chunk with
      | .error e => .error e
      | .ok m2 => .ok ({ Instances := m2 }, { CloudWatchAPICall := 1 }, calls ++ [chunk])

/-- `cloudwatch.UsageMetrics`: account-wide usage counters. -/
structure UsageMetrics where
  AllocatedStorage : Value := 0
  DBInstances : Value := 0
  ManualSnapshots : Value := 0
deriving DecidableEq, Repr, Inhabited

end Cloudwatch

namespace Rds

/-- `rds.RdsInstanceMetrics` (the rds package itself is not part of the
given sources; the fields and their kinds are exactly those read by
`RdsCollector.Collect`).  Pointer fields (`CertificateValidTill`, `Age`,
`LogFilesSize`) are optional; `CertificateValidTill` is kept as its Unix
timestamp, the only form `Collect` reads. -/
structure RdsInstanceMetrics where
  AllocatedStorage : Int := 0
  DbiResourceID : String := ""
  DBInstanceClass : String := ""
  Engine : String := ""
  EngineVersion : String := ""
  StorageType : String := ""
  MultiAZ : Bool := false
  DeletionProtection : Bool := false
  Role : String := ""
  SourceDBInstanceIdentifier : String := ""
  PendingModifiedValues : Bool := false
  PendingMaintenanceAction : String := ""
  PerformanceInsightsEnabled : Bool := false
  CACertificateIdentifier : String := ""
  Arn : String := ""
  MaxAllocatedStorage : Int := 0
  MaxIops : Int := 0
  Status : Int := 0
  StorageThroughput : Int := 0
  BackupRetentionPeriod : Int := 0
  Tags : List (String × String) := []
  CertificateValidTill : Option Int := none
  Age : Option Value := none
  LogFilesSize : Option Int := none
deriving DecidableEq, Repr, Inhabited

/-- `rds.Metrics`: the inventory, identifier to record. -/
structure Metrics where
  Instances : List (String × RdsInstanceMetrics) := []
deriving DecidableEq, Repr, Inhabited

end Rds

namespace Ec2

/-- `ec2.EC2InstanceMetrics`: hardware characteristics of one instance
class. -/
structure EC2InstanceMetrics where
  MaximumIops : Int := 0
  MaximumThroughput : Value := 0
  Memory : Int := 0
  Vcpu : Int := 0
deriving DecidableEq, Repr, Inhabited

/-- `ec2.Metrics`: instance class to record. -/
structure Metrics where
  Instances : List (String × EC2InstanceMetrics) := []
deriving DecidableEq, Repr, Inhabited

end Ec2

namespace ServiceQuotas

/-- `servicequotas.Metrics`: the account-wide quotas. -/
structure Metrics where
  DBinstances : Value := 0
  TotalStorage : Value := 0
  ManualDBInstanceSnapshots : Value := 0
deriving DecidableEq, Repr, Inhabited

end ServiceQuotas

namespace Exporter

/-- A Prometheus metric descriptor as built by `prometheus.NewDesc` in
`NewCollector`: the metric name and the ordered variable label names.
(The constant help strings play no role in any claim and are omitted.) -/
structure Desc where
  name : String
  variableLabels : List String
deriving DecidableEq, Repr

/-- One metric sample sent to the channel by `Collect`
(`prometheus.MustNewConstMetric desc _ value labelValues...`). -/
structure Sample where
  desc : Desc
  value : Value
  labelValues : List String
deriving DecidableEq, Repr

/-- `exporter.Configuration`: the seven collection flags. -/
structure Configuration where
  CollectInstanceMetrics : Bool := false
  CollectInstanceTags : Bool := false
  CollectInstanceTypes : Bool := false
  CollectLogsSize : Bool := false
  CollectMaintenances : Bool := false
  CollectQuotas : Bool := false
  CollectUsages : Bool := false
deriving DecidableEq, Repr, Inhabited

/-- `exporter.Counters`: monotonic per-collector counters. -/
structure Counters where
  CloudwatchAPICalls : Value := 0
  EC2APIcalls : Value := 0
  Errors : Value := 0
  RDSAPIcalls : Value := 0
  ServiceQuotasAPICalls : Value := 0
  UsageAPIcalls : Value := 0
deriving DecidableEq, Repr, Inhabited

/-- `exporter.metrics`: the per-scrape result container, one slot per
fetcher. -/
structure Metrics where
  ServiceQuota : ServiceQuotas.Metrics := {}
  RDS : Rds.Metrics := {}
  EC2 : Ec2.Metrics := {}
  CloudwatchInstances : Cloudwatch.CloudWatchMetrics := {}
  CloudWatchUsage : Cloudwatch.UsageMetrics := {}
deriving DecidableEq, Repr, Inhabited

/-- The mutable collector state (clients and logger omitted; descriptors
are the constants below). -/
structure RdsCollector where
  configuration : Configuration
  awsAccountID : String
  awsRegion : String
  counters : Counters := {}
  metrics : Metrics := {}
deriving DecidableEq, Repr

/-- `exporterUpStatusCode`. -/
def exporterUpStatusCode : Value := 1

/-- `exporterDownStatusCode`. -/
def exporterDownStatusCode : Value := 0

/-- `build.Version` (linker-injected; its value is irrelevant to every
claim). -/
def buildVersion : String := ""

/-- `build.CommitSHA` (linker-injected). -/
def buildCommitSHA : String := ""

/-- `build.Date` (linker-injected). -/
def buildDate : String := ""

/-- `strconv.FormatBool`. -/
def formatBool (b : Bool) : String := if b then "true" else "false"

/-- Variable labels of per-instance metrics. -/
def labelsInstance : List String := ["aws_account_id", "aws_region", "dbidentifier"]

/-- Variable labels of per-instance-class metrics. -/
def labelsClass : List String := ["aws_account_id", "aws_region", "instance_class"]

/-- Variable labels of account-wide metrics. -/
def labelsAccount : List String := ["aws_account_id", "aws_region"]

def exporterBuildInformationDesc : Desc :=
  ⟨"rds_exporter_build_info", ["version", "commit_sha", "build_date", "aws_region"]⟩

def errorsDesc : Desc := ⟨"rds_exporter_errors_total", ["aws_region"]⟩

def allocatedStorageDesc : Desc := ⟨"rds_allocated_storage_bytes", labelsInstance⟩

def informationDesc : Desc :=
  ⟨"rds_instance_info",
    ["aws_account_id", "aws_region", "dbidentifier", "dbi_resource_id",
     "instance_class", "engine", "engine_version", "storage_type", "multi_az",
     "deletion_protection", "role", "source_dbidentifier",
     "pending_modified_values", "pending_maintenance",
     "performance_insights_enabled", "ca_certificate_identifier", "arn"]⟩

def ageDesc : Desc := ⟨"rds_instance_age_seconds", labelsInstance⟩

def maxAllocatedStorageDesc : Desc := ⟨"rds_max_allocated_storage_bytes", labelsInstance⟩

def maxIopsDesc : Desc := ⟨"rds_max_disk_iops_average", labelsInstance⟩

def storageThroughputDesc : Desc := ⟨"rds_max_storage_throughput_bytes", labelsInstance⟩

def readThroughputDesc : Desc := ⟨"rds_read_throughput_bytes", labelsInstance⟩

def writeThroughputDesc : Desc := ⟨"rds_write_throughput_bytes", labelsInstance⟩

def statusDesc : Desc := ⟨"rds_instance_status", labelsInstance⟩

def logFilesSizeDesc : Desc := ⟨"rds_instance_log_files_size_bytes", labelsInstance⟩

def instanceVCPUDesc : Desc := ⟨"rds_instance_vcpu_average", labelsClass⟩

def instanceMemoryDesc : Desc := ⟨"rds_instance_memory_bytes", labelsClass⟩

/-- The static `rds_instance_tags` descriptor built in `NewCollector`
(`Collect` replaces it by a dynamic one whose labels depend on the tags). -/
def instanceTagsDesc : Desc := ⟨"rds_instance_tags", labelsInstance⟩

def cpuUtilisationDesc : Desc := ⟨"rds_cpu_usage_percent_average", labelsInstance⟩

def instanceMaximumThroughputDesc : Desc := ⟨"rds_instance_max_throughput_bytes", labelsClass⟩

def instanceMaximumIopsDesc : Desc := ⟨"rds_instance_max_iops_average", labelsClass⟩

def freeStorageSpaceDesc : Desc := ⟨"rds_free_storage_bytes", labelsInstance⟩

def databaseConnectionsDesc : Desc := ⟨"rds_database_connections_average", labelsInstance⟩

def upDesc : Desc := ⟨"up", ["aws_region"]⟩

def swapUsageDesc : Desc := ⟨"rds_swap_usage_bytes", labelsInstance⟩

def writeIOPSDesc : Desc := ⟨"rds_write_iops_average", labelsInstance⟩

def readIOPSDesc : Desc := ⟨"rds_read_iops_average", labelsInstance⟩

def replicaLagDesc : Desc := ⟨"rds_replica_lag_seconds", labelsInstance⟩

def replicationSlotDiskUsageDesc : Desc :=
  ⟨"rds_replication_slot_disk_usage_bytes", labelsInstance⟩

def maximumUsedTransactionIDsDesc : Desc :=
  ⟨"rds_maximum_used_transaction_ids_average", labelsInstance⟩

def freeableMemoryDesc : Desc := ⟨"rds_freeable_memory_bytes", labelsInstance⟩

def apiCallDesc : Desc := ⟨"rds_api_call_total", ["aws_account_id", "aws_region", "api"]⟩

def backupRetentionPeriodDesc : Desc :=
  ⟨"rds_backup_retention_period_seconds", labelsInstance⟩

def DBLoadDesc : Desc := ⟨"rds_dbload_average", labelsInstance⟩

def dBLoadCPUDesc : Desc := ⟨"rds_dbload_cpu_average", labelsInstance⟩

def dBLoadNonCPUDesc : Desc := ⟨"rds_dbload_noncpu_average", labelsInstance⟩

def transactionLogsDiskUsageDesc : Desc :=
  ⟨"rds_transaction_logs_disk_usage_bytes", labelsInstance⟩

def certificateValidTillDesc : Desc :=
  ⟨"rds_certificate_expiry_timestamp_seconds", labelsInstance⟩

def quotaDBInstancesDesc : Desc := ⟨"rds_quota_max_dbinstances_average", labelsAccount⟩

def quotaTotalStorageDesc : Desc := ⟨"rds_quota_total_storage_bytes", labelsAccount⟩

def quotaMaxDBInstanceSnapshotsDesc : Desc :=
  ⟨"rds_quota_maximum_db_instance_snapshots_average", labelsAccount⟩

def usageAllocatedStorageDesc : Desc := ⟨"rds_usage_allocated_storage_bytes", labelsAccount⟩

def usageDBInstancesDesc : Desc := ⟨"rds_usage_db_instances_average", labelsAccount⟩

def usageManualSnapshotsDesc : Desc := ⟨"rds_usage_manual_snapshots_average", labelsAccount⟩

def BufferCacheHitRatioDesc : Desc := ⟨"rds_buffer_cache_hit_ratio", labelsInstance⟩

def DeadlocksDesc : Desc := ⟨"rds_deadlocks", labelsInstance⟩

def QueriesDesc : Desc := ⟨"rds_queries", labelsInstance⟩

def EngineUptimeDesc : Desc := ⟨"rds_engine_uptime_seconds", labelsInstance⟩

def SumBinaryLogSizeDesc : Desc := ⟨"rds_sum_binary_log_size_bytes", labelsInstance⟩

def NumBinaryLogFilesDesc : Desc := ⟨"rds_num_binary_log_files", labelsInstance⟩

def AuroraBinlogReplicaLagDesc : Desc :=
  ⟨"rds_aurora_binlog_replica_lag_seconds", labelsInstance⟩

def BinLogDiskUsageDesc : Desc := ⟨"rds_binlog_disk_usage_bytes", labelsInstance⟩

/-- `RdsCollector.Describe`: the descriptors sent to the channel, in
source order (`apiCall` is sent twice, and `instanceTags` is never sent). -/
def describeOutput : List Desc :=
  [ DBLoadDesc, ageDesc, allocatedStorageDesc, apiCallDesc, apiCallDesc,
    backupRetentionPeriodDesc, certificateValidTillDesc, cpuUtilisationDesc,
    dBLoadCPUDesc, dBLoadNonCPUDesc, databaseConnectionsDesc, errorsDesc,
    exporterBuildInformationDesc, freeStorageSpaceDesc, freeableMemoryDesc,
    informationDesc, instanceMaximumIopsDesc, instanceMaximumThroughputDesc,
    instanceMemoryDesc, instanceVCPUDesc, logFilesSizeDesc,
    maxAllocatedStorageDesc, maxIopsDesc, maximumUsedTransactionIDsDesc,
    quotaDBInstancesDesc, quotaMaxDBInstanceSnapshotsDesc,
    quotaTotalStorageDesc, readIOPSDesc, readThroughputDesc, replicaLagDesc,
    replicationSlotDiskUsageDesc, statusDesc, storageThroughputDesc,
    swapUsageDesc, transactionLogsDiskUsageDesc, upDesc,
    usageAllocatedStorageDesc, usageDBInstancesDesc, usageManualSnapshotsDesc,
    writeIOPSDesc, writeThroughputDesc, BufferCacheHitRatioDesc,
    DeadlocksDesc, QueriesDesc, EngineUptimeDesc, SumBinaryLogSizeDesc,
    NumBinaryLogFilesDesc, AuroraBinlogReplicaLagDesc, BinLogDiskUsageDesc ]

/-- The 24 per-instance time-series fields, as an enumeration. -/
inductive CwField where
  | databaseConnections | freeStorageSpace | freeableMemory
  | maximumUsedTransactionIDs | readThroughput | replicaLag
  | replicationSlotDiskUsage | swapUsage | readIOPS | writeIOPS
  | writeThroughput | transactionLogsDiskUsage | dbLoad | cpuUtilization
  | dbLoadCPU | dbLoadNonCPU | bufferCacheHitRatio | deadlocks | queries
  | engineUptime | sumBinaryLogSize | numBinaryLogFiles
  | auroraBinlogReplicaLag | binLogDiskUsage
deriving DecidableEq, Repr, Fintype

/-- The order in which `Collect` checks and emits the 24 time-series
fields of one instance (source order of the `if ... != nil` blocks). -/
def cwEmitOrder : List CwField :=
  [ .databaseConnections, .freeStorageSpace, .freeableMemory,
    .maximumUsedTransactionIDs, .readThroughput, .replicaLag,
    .replicationSlotDiskUsage, .swapUsage, .readIOPS, .writeIOPS,
    .writeThroughput, .transactionLogsDiskUsage, .dbLoad, .cpuUtilization,
    .dbLoadCPU, .dbLoadNonCPU, .bufferCacheHitRatio, .deadlocks, .queries,
    .engineUptime, .sumBinaryLogSize, .numBinaryLogFiles,
    .auroraBinlogReplicaLag, .binLogDiskUsage ]

/-- The optional struct field read by `Collect` for each time-series
field. -/
def CwField.get : CwField → Cloudwatch.RdsMetrics → Option Value
  | .databaseConnections, m => m.DatabaseConnections
  | .freeStorageSpace, m => m.FreeStorageSpace
  | .freeableMemory, m => m.FreeableMemory
  | .maximumUsedTransactionIDs, m => m.MaximumUsedTransactionIDs
  | .readThroughput, m => m.ReadThroughput
  | .replicaLag, m => m.ReplicaLag
  | .replicationSlotDiskUsage, m => m.ReplicationSlotDiskUsage
  | .swapUsage, m => m.SwapUsage
  | .readIOPS, m => m.ReadIOPS
  | .writeIOPS, m => m.WriteIOPS
  | .writeThroughput, m => m.WriteThroughput
  | .transactionLogsDiskUsage, m => m.TransactionLogsDiskUsage
  | .dbLoad, m => m.DBLoad
  | .cpuUtilization, m => m.CPUUtilization
  | .dbLoadCPU, m => m.DBLoadCPU
  | .dbLoadNonCPU, m => m.DBLoadNonCPU
  | .bufferCacheHitRatio, m => m.BufferCacheHitRatio
  | .deadlocks, m => m.Deadlocks
  | .queries, m => m.Queries
  | .engineUptime, m => m.EngineUptime
  | .sumBinaryLogSize, m => m.SumBinaryLogSize
  | .numBinaryLogFiles, m => m.NumBinaryLogFiles
  | .auroraBinlogReplicaLag, m => m.AuroraBinlogReplicaLag
  | .binLogDiskUsage, m => m.BinLogDiskUsage

/-- The descriptor `Collect` uses for each time-series field. -/
def CwField.desc : CwField → Desc
  | .databaseConnections => databaseConnectionsDesc
  | .freeStorageSpace => freeStorageSpaceDesc
  | .freeableMemory => freeableMemoryDesc
  | .maximumUsedTransactionIDs => maximumUsedTransactionIDsDesc
  | .readThroughput => readThroughputDesc
  | .replicaLag => replicaLagDesc
  | .replicationSlotDiskUsage => replicationSlotDiskUsageDesc
  | .swapUsage => swapUsageDesc
  | .readIOPS => readIOPSDesc
  | .writeIOPS => writeIOPSDesc
  | .writeThroughput => writeThroughputDesc
  | .transactionLogsDiskUsage => transactionLogsDiskUsageDesc
  | .dbLoad => DBLoadDesc
  | .cpuUtilization => cpuUtilisationDesc
  | .dbLoadCPU => dBLoadCPUDesc
  | .dbLoadNonCPU => dBLoadNonCPUDesc
  | .bufferCacheHitRatio => BufferCacheHitRatioDesc
  | .deadlocks => DeadlocksDesc
  | .queries => QueriesDesc
  | .engineUptime => EngineUptimeDesc
  | .sumBinaryLogSize => SumBinaryLogSizeDesc
  | .numBinaryLogFiles => NumBinaryLogFilesDesc
  | .auroraBinlogReplicaLag => AuroraBinlogReplicaLagDesc
  | .binLogDiskUsage => BinLogDiskUsageDesc

/-- Modelled from the spec: `ClearPrometheusLabel` (called by
`getInstanceTagLabels`; its definition is not among the given sources).
Per the spec's tag labeling policy, it replaces every character outside
`[A-Za-z0-9_]` by an underscore. -/
def ClearPrometheusLabel (s : String) : String :=
  String.mk (s.data.map fun c =>
    if ('A' ≤ c ∧ c ≤ 'Z') ∨ ('a' ≤ c ∧ c ≤ 'z') ∨ ('0' ≤ c ∧ c ≤ '9') ∨ c = '_'
    then c else '_')

/-- Go map assignment on the label map: overwrite the entry if the key
exists, append it otherwise. -/
def mapSet (l : List (String × String)) (k v : String) : List (String × String) :=
  if (alookup k l).isSome then aset l k v else l ++ [(k, v)]

/-- `RdsCollector.getInstanceTagLabels`: the three fixed labels plus one
`tag_`-prefixed, sanitized label per instance tag.  The Go map is
modelled as an association list in insertion order (Go's iteration order
is arbitrary; the claims about this function are order-insensitive). -/
def getInstanceTagLabels (c : RdsCollector) (dbidentifier : String)
    (inst : Rds.RdsInstanceMetrics) : List String × List String :=
  let labels := inst.Tags.foldl
    (fun acc p => mapSet acc ("tag_" ++ ClearPrometheusLabel p.1) p.2)
    [("aws_account_id", c.awsAccountID), ("aws_region", c.awsRegion),
     ("dbidentifier", dbidentifier)]
  (labels.map Prod.fst, labels.map Prod.snd)

/-- Modelled from the spec: `getUniqTypeAndIdentifiers` (exporter package,
not among the given sources): "the ordered list of instance identifiers
(`D`) and the deduplicated set of instance classes (`T`)". -/
def getUniqTypeAndIdentifiers (instances : List (String × Rds.RdsInstanceMetrics)) :
    List String × List String :=
  (instances.map Prod.fst, (instances.map fun p => p.2.DBInstanceClass).dedup)

/-- The results handed to one scrape: one `Except` outcome and one
API-call count per fetcher.  These are the values the five fetchers
return to `fetchMetrics`'s subtasks; modelling them as inputs makes
`Collect` a function of the upstream behaviour. -/
structure ScrapeInputs where
  rdsResult : Except String Rds.Metrics := .ok {}
  rdsApiCalls : Value := 0
  quotasResult : Except String ServiceQuotas.Metrics := .ok {}
  quotasApiCalls : Value := 0
  usageResult : Except String Cloudwatch.UsageMetrics := .ok {}
  usageApiCalls : Value := 0
  ec2Result : Except String Ec2.Metrics := .ok {}
  ec2ApiCalls : Value := 0
  cwResult : Except String Cloudwatch.CloudWatchMetrics := .ok {}
  cwApiCalls : Value := 0
deriving Repr

/-- `RdsCollector.getQuotasMetrics` subtask: on failure count one error;
store the result (the Go zero value on failure) and add the fetcher's
API-call count. -/
def getQuotasMetrics (c : RdsCollector) (result : Except String ServiceQuotas.Metrics)
    (apiCalls : Value) : RdsCollector :=
  let c1 := match result with
    | .error _ => { c with counters := { c.counters with Errors := c.counters.Errors + 1 } }
    | .ok _ => c
  { c1 with
    counters := { c1.counters with
      ServiceQuotasAPICalls := c1.counters.ServiceQuotasAPICalls + apiCalls }
    metrics := { c1.metrics with
      ServiceQuota := match result with | .ok v => v | .error _ => {} } }

/-- `RdsCollector.getUsagesMetrics` subtask. -/
def getUsagesMetrics (c : RdsCollector) (result : Except String Cloudwatch.UsageMetrics)
    (apiCalls : Value) : RdsCollector :=
  let c1 := match result with
    | .error _ => { c with counters := { c.counters with Errors := c.counters.Errors + 1 } }
    | .ok _ => c
  { c1 with
    counters := { c1.counters with
      UsageAPIcalls := c1.counters.UsageAPIcalls + apiCalls }
    metrics := { c1.metrics with
      CloudWatchUsage := match result with | .ok v => v | .error _ => {} } }

/-- `RdsCollector.getEC2Metrics` subtask. -/
def getEC2Metrics (c : RdsCollector) (result : Except String Ec2.Metrics)
    (apiCalls : Value) : RdsCollector :=
  let c1 := match result with
    | .error _ => { c with counters := { c.counters with Errors := c.counters.Errors + 1 } }
    | .ok _ => c
  { c1 with
    counters := { c1.counters with
      EC2APIcalls := c1.counters.EC2APIcalls + apiCalls }
    metrics := { c1.metrics with
      EC2 := match result with | .ok v => v | .error _ => {} } }

/-- `RdsCollector.getCloudwatchMetrics` subtask (on failure
`GetRDSInstanceMetrics` returns the zero `CloudWatchMetrics{}`, which is
stored). -/
def getCloudwatchMetrics (c : RdsCollector)
    (result : Except String Cloudwatch.CloudWatchMetrics) (apiCalls : Value) :
    RdsCollector :=
  let c1 := match result with
    | .error _ => { c with counters := { c.counters with Errors := c.counters.Errors + 1 } }
    | .ok _ => c
  { c1 with
    counters := { c1.counters with
      CloudwatchAPICalls := c1.counters.CloudwatchAPICalls + apiCalls }
    metrics := { c1.metrics with
      CloudwatchInstances := match result with | .ok v => v | .error _ => {} } }

/-- `RdsCollector.fetchMetrics`: launch quota and usage subtasks (gated by
configuration), fetch the inventory synchronously — a failure there
aborts with `false` — then launch the instance-type and time-series
subtasks and join.  The concurrent subtasks write to disjoint slots, so
the sequentialization is extensionally faithful. -/
def fetchMetrics (c : RdsCollector) (inp : ScrapeInputs) : RdsCollector × Bool :=
  let c1 := if c.configuration.CollectQuotas
    then getQuotasMetrics c inp.quotasResult inp.quotasApiCalls else c
  let c2 := if c1.configuration.CollectUsages
    then getUsagesMetrics c1 inp.usageResult inp.usageApiCalls else c1
  match inp.rdsResult with
  | .error _ => (c2, false)
  | .ok rdsMetrics =>
    let c3 := { c2 with
      metrics := { c2.metrics with RDS := rdsMetrics }
      counters := { c2.counters with
        RDSAPIcalls := c2.counters.RDSAPIcalls + inp.rdsApiCalls } }
    let instanceTypes := (getUniqTypeAndIdentifiers rdsMetrics.Instances).2
    let c4 := if c3.configuration.CollectInstanceTypes && !instanceTypes.isEmpty
      then getEC2Metrics c3 inp.ec2Result inp.ec2ApiCalls else c3
    let c5 := if c4.configuration.CollectInstanceMetrics
      then getCloudwatchMetrics c4 inp.cwResult inp.cwApiCalls else c4
    (c5, true)

/-- The samples `Collect` emits for one inventory instance: the seven
unconditional gauges, the tag gauge when `collect-instance-tags` is on,
and the three optional gauges, in source order. -/
def rdsInstanceSamples (c : RdsCollector) (p : String × Rds.RdsInstanceMetrics) :
    List Sample :=
  [ ⟨allocatedStorageDesc, (p.2.AllocatedStorage : Value),
      [c.awsAccountID, c.awsRegion, p.1]⟩,
    ⟨informationDesc, 1,
      [c.awsAccountID, c.awsRegion, p.1, p.2.DbiResourceID, p.2.DBInstanceClass,
       p.2.Engine, p.2.EngineVersion, p.2.StorageType, formatBool p.2.MultiAZ,
       formatBool p.2.DeletionProtection, p.2.Role,
       p.2.SourceDBInstanceIdentifier, formatBool p.2.PendingModifiedValues,
       p.2.PendingMaintenanceAction, formatBool p.2.PerformanceInsightsEnabled,
       p.2.CACertificateIdentifier, p.2.Arn]⟩,
    ⟨maxAllocatedStorageDesc, (p.2.MaxAllocatedStorage : Value),
      [c.awsAccountID, c.awsRegion, p.1]⟩,
    ⟨maxIopsDesc, (p.2.MaxIops : Value), [c.awsAccountID, c.awsRegion, p.1]⟩,
    ⟨statusDesc, (p.2.Status : Value), [c.awsAccountID, c.awsRegion, p.1]⟩,
    ⟨storageThroughputDesc, (p.2.StorageThroughput : Value),
      [c.awsAccountID, c.awsRegion, p.1]⟩,
    ⟨backupRetentionPeriodDesc, (p.2.BackupRetentionPeriod : Value),
      [c.awsAccountID, c.awsRegion, p.1]⟩ ]
  ++ (if c.configuration.CollectInstanceTags then
        [⟨{ name := "rds_instance_tags",
            variableLabels := (getInstanceTagLabels c p.1 p.2).1 }, 0,
          (getInstanceTagLabels c p.1 p.2).2⟩]
      else [])
  ++ (match p.2.CertificateValidTill with
      | some t => [⟨certificateValidTillDesc, (t : Value), [c.awsAccountID, c.awsRegion, p.1]⟩]
      | none => [])
  ++ (match p.2.Age with
      | some a => [⟨ageDesc, a, [c.awsAccountID, c.awsRegion, p.1]⟩]
      | none => [])
  ++ (match p.2.LogFilesSize with
      | some s => [⟨logFilesSizeDesc, (s : Value), [c.awsAccountID, c.awsRegion, p.1]⟩]
      | none => [])

/-- The samples `Collect` emits for one time-series instance entry: one
gauge per present optional field, in source order. -/
def cwInstanceSamples (c : RdsCollector) (p : String × Cloudwatch.RdsMetrics) :
    List Sample :=
  cwEmitOrder.flatMap fun f =>
    match f.get p.2 with
    | some v => [⟨f.desc, v, [c.awsAccountID, c.awsRegion, p.1]⟩]
    | none => []

/-- The RDS block of `Collect`: the "rds" API-call counter and the
per-instance inventory samples. -/
def rdsSegment (c : RdsCollector) : List Sample :=
  ⟨apiCallDesc, c.counters.RDSAPIcalls, [c.awsAccountID, c.awsRegion, "rds"]⟩ ::
    c.metrics.RDS.Instances.flatMap (rdsInstanceSamples c)

/-- The Cloudwatch block of `Collect` (emitted unconditionally). -/
def cwSegment (c : RdsCollector) : List Sample :=
  ⟨apiCallDesc, c.counters.CloudwatchAPICalls, [c.awsAccountID, c.awsRegion, "cloudwatch"]⟩ ::
    c.metrics.CloudwatchInstances.Instances.flatMap (cwInstanceSamples c)

/-- The usage block of `Collect` (gated by `collect-usages`). -/
def usageSegment (c : RdsCollector) : List Sample :=
  if c.configuration.CollectUsages then
    [ ⟨apiCallDesc, c.counters.UsageAPIcalls, [c.awsAccountID, c.awsRegion, "usage"]⟩,
      ⟨usageAllocatedStorageDesc, c.metrics.CloudWatchUsage.AllocatedStorage,
        [c.awsAccountID, c.awsRegion]⟩,
      ⟨usageDBInstancesDesc, c.metrics.CloudWatchUsage.DBInstances,
        [c.awsAccountID, c.awsRegion]⟩,
      ⟨usageManualSnapshotsDesc, c.metrics.CloudWatchUsage.ManualSnapshots,
        [c.awsAccountID, c.awsRegion]⟩ ]
  else []

/-- The EC2 block of `Collect` (emitted unconditionally). -/
def ec2Segment (c : RdsCollector) : List Sample :=
  ⟨apiCallDesc, c.counters.EC2APIcalls, [c.awsAccountID, c.awsRegion, "ec2"]⟩ ::
    c.metrics.EC2.Instances.flatMap fun p =>
      [ ⟨instanceMaximumIopsDesc, (p.2.MaximumIops : Value),
          [c.awsAccountID, c.awsRegion, p.1]⟩,
        ⟨instanceMaximumThroughputDesc, p.2.MaximumThroughput,
          [c.awsAccountID, c.awsRegion, p.1]⟩,
        ⟨instanceMemoryDesc, (p.2.Memory : Value),
          [c.awsAccountID, c.awsRegion, p.1]⟩,
        ⟨instanceVCPUDesc, (p.2.Vcpu : Value),
          [c.awsAccountID, c.awsRegion, p.1]⟩ ]

/-- The service-quota block of `Collect` (gated by `collect-quotas`). -/
def quotaSegment (c : RdsCollector) : List Sample :=
  if c.configuration.CollectQuotas then
    [ ⟨apiCallDesc, c.counters.ServiceQuotasAPICalls,
        [c.awsAccountID, c.awsRegion, "servicequotas"]⟩,
      ⟨quotaDBInstancesDesc, c.metrics.ServiceQuota.DBinstances,
        [c.awsAccountID, c.awsRegion]⟩,
      ⟨quotaTotalStorageDesc, c.metrics.ServiceQuota.TotalStorage,
        [c.awsAccountID, c.awsRegion]⟩,
      ⟨quotaMaxDBInstanceSnapshotsDesc, c.metrics.ServiceQuota.ManualDBInstanceSnapshots,
        [c.awsAccountID, c.awsRegion]⟩ ]
  else []

/-- `RdsCollector.Collect`: build info and the error counter first, then
the synchronous-and-parallel fetch; on inventory failure `up = 0` and
return, otherwise `up = 1` followed by the five blocks.  Returns the
emitted samples and the collector state after the scrape. -/
def Collect (c : RdsCollector) (inp : ScrapeInputs) : List Sample × RdsCollector :=
  let head : List Sample :=
    [ ⟨exporterBuildInformationDesc, 1,
        [buildVersion, buildCommitSHA, buildDate, c.awsRegion]⟩,
      ⟨errorsDesc, c.counters.Errors, [c.awsRegion]⟩ ]
  let fm := fetchMetrics c inp
  if fm.2 then
    (head ++ [⟨upDesc, exporterUpStatusCode, [c.awsRegion]⟩]
      ++ rdsSegment fm.1 ++ cwSegment fm.1 ++ usageSegment fm.1
      ++ ec2Segment fm.1 ++ quotaSegment fm.1, fm.1)
  else
    (head ++ [⟨upDesc, exporterDownStatusCode, [c.awsRegion]⟩], fm.1)

/-- The metric names of the 24 time-series descriptors (used to separate
the Cloudwatch block from the other blocks). -/
def cwDescNames : List String :=
  [ "rds_database_connections_average", "rds_free_storage_bytes",
    "rds_freeable_memory_bytes", "rds_maximum_used_transaction_ids_average",
    "rds_read_throughput_bytes", "rds_replica_lag_seconds",
    "rds_replication_slot_disk_usage_bytes", "rds_swap_usage_bytes",
    "rds_read_iops_average", "rds_write_iops_average",
    "rds_write_throughput_bytes", "rds_transaction_logs_disk_usage_bytes",
    "rds_dbload_average", "rds_cpu_usage_percent_average",
    "rds_dbload_cpu_average", "rds_dbload_noncpu_average",
    "rds_buffer_cache_hit_ratio", "rds_deadlocks", "rds_queries",
    "rds_engine_uptime_seconds", "rds_sum_binary_log_size_bytes",
    "rds_num_binary_log_files", "rds_aurora_binlog_replica_lag_seconds",
    "rds_binlog_disk_usage_bytes" ]

/-- The metric names that can appear in the RDS block of `Collect`. -/
def rdsSegmentNames : List String :=
  [ "rds_api_call_total", "rds_allocated_storage_bytes", "rds_instance_info",
    "rds_max_allocated_storage_bytes", "rds_max_disk_iops_average",
    "rds_instance_status", "rds_max_storage_throughput_bytes",
    "rds_backup_retention_period_seconds", "rds_instance_tags",
    "rds_certificate_expiry_timestamp_seconds", "rds_instance_age_seconds",
    "rds_instance_log_files_size_bytes" ]

/-- The metric names that can appear in the usage block of `Collect`. -/
def usageSegmentNames : List String :=
  [ "rds_api_call_total", "rds_usage_allocated_storage_bytes",
    "rds_usage_db_instances_average", "rds_usage_manual_snapshots_average" ]

/-- The metric names that can appear in the EC2 block of `Collect`. -/
def ec2SegmentNames : List String :=
  [ "rds_api_call_total", "rds_instance_max_iops_average",
    "rds_instance_max_throughput_bytes", "rds_instance_memory_bytes",
    "rds_instance_vcpu_average" ]

/-- The metric names that can appear in the quota block of `Collect`. -/
def quotaSegmentNames : List String :=
  [ "rds_api_call_total", "rds_quota_max_dbinstances_average",
    "rds_quota_total_storage_bytes",
    "rds_quota_maximum_db_instance_snapshots_average" ]

end Exporter

namespace Cloudwatch

/-- Read access to the struct field that `RdsMetrics.Update` writes for a
given metric name (the inverse view of the `switch`; unknown names read
`none`). -/
def fieldValue (field : String) (m : RdsMetrics) : Option Value :=
  match field with
  | "DBLoad" => m.DBLoad
  | "DBLoadCPU" => m.DBLoadCPU
  | "DBLoadNonCPU" => m.DBLoadNonCPU
  | "CPUUtilization" => m.CPUUtilization
  | "DatabaseConnections" => m.DatabaseConnections
  | "FreeStorageSpace" => m.FreeStorageSpace
  | "FreeableMemory" => m.FreeableMemory
  | "SwapUsage" => m.SwapUsage
  | "WriteIOPS" => m.WriteIOPS
  | "ReadIOPS" => m.ReadIOPS
  | "ReplicaLag" => m.ReplicaLag
  | "ReplicationSlotDiskUsage" => m.ReplicationSlotDiskUsage
  | "MaximumUsedTransactionIDs" => m.MaximumUsedTransactionIDs
  | "ReadThroughput" => m.ReadThroughput
  | "WriteThroughput" => m.WriteThroughput
  | "TransactionLogsDiskUsage" => m.TransactionLogsDiskUsage
  | "BufferCacheHitRatio" => m.BufferCacheHitRatio
  | "Deadlocks" => m.Deadlocks
  | "Queries" => m.Queries
  | "EngineUptime" => m.EngineUptime
  | "SumBinaryLogSize" => m.SumBinaryLogSize
  | "NumBinaryLogFiles" => m.NumBinaryLogFiles
  | "AuroraBinlogReplicaLag" => m.AuroraBinlogReplicaLag
  | "BinLogDiskUsage" => m.BinLogDiskUsage
  | _ => none

/-- A mocked upstream that answers every `GetMetricData` call with an
empty result list (used to instantiate call-counting statements). -/
def trivialClient : Client := fun _ => .ok []

end Cloudwatch

/-- Decode a most-significant-first list of decimal digit characters
(specification device for `Nat.repr`). -/
def decodeDigits (l : List Char) : Nat :=
  l.foldl (fun a c => a * 10 + (c.toNat - 48)) 0

/-- Characters allowed in a Prometheus label name body, `[A-Za-z0-9_]`. -/
def isAllowedLabelChar (c : Char) : Bool :=
  ('A' ≤ c && c ≤ 'Z') || ('a' ≤ c && c ≤ 'z') || ('0' ≤ c && c ≤ '9') || c = '_'

/-- Whether a string matches the anchored regular expression
`^tag_[A-Za-z0-9_]+$`. -/
def matchesTagLabel (s : String) : Bool :=
  match s.data with
  | 't' :: 'a' :: 'g' :: '_' :: rest => !rest.isEmpty && rest.all isAllowedLabelChar
  | _ => false

/-! ## Foundation lemmas: association lists and decimal representations -/

theorem alookup_append {α : Type} (l₁ l₂ : List (String × α)) (k : String) :
    alookup k (l₁ ++ l₂)
      = match alookup k l₁ with
        | some v => some v
        | none => alookup k l₂ := by
  induction l₁ with
  | nil => simp [alookup]
  | cons p rest ih =>
    obtain ⟨k', v'⟩ := p
    by_cases he : k' = k
    · simp [alookup, he]
    · simp only [List.cons_append, alookup, he, if_false]
      exact ih

theorem alookup_eq_some_of_mem {α : Type} {l : List (String × α)} {k : String} {v : α}
    (hnd : (l.map Prod.fst).Nodup) (hmem : (k, v) ∈ l) : alookup k l = some v := by
  induction l with
  | nil => cases hmem
  | cons p rest ih =>
    simp only [List.map_cons, List.nodup_cons] at hnd
    rcases List.mem_cons.mp hmem with h | h
    · subst h
      simp [alookup]
    · have hk : p.1 ≠ k := by
        intro he
        exact hnd.1 (he ▸ (List.mem_map.mpr ⟨(k, v), h, rfl⟩))
      obtain ⟨k', v'⟩ := p
      simp only [alookup, hk, if_false]
      exact ih hnd.2 h

theorem mem_of_alookup_eq_some {α : Type} {l : List (String × α)} {k : String} {v : α}
    (h : alookup k l = some v) : (k, v) ∈ l := by
  induction l with
  | nil => simp [alookup] at h
  | cons p rest ih =>
    obtain ⟨k', v'⟩ := p
    by_cases he : k' = k
    · subst he
      have hv : v' = v := by simpa [alookup] using h
      subst hv
      exact List.mem_cons_self _ _
    · simp only [alookup, he, if_false] at h
      exact List.mem_cons_of_mem _ (ih h)

theorem alookup_eq_none {α : Type} {l : List (String × α)} {k : String}
    (h : k ∉ l.map Prod.fst) : alookup k l = none := by
  induction l with
  | nil => rfl
  | cons p rest ih =>
    simp only [List.map_cons, List.mem_cons, not_or] at h
    obtain ⟨k', v'⟩ := p
    have hk : k' ≠ k := fun he => h.1 he.symm
    simp only [alookup, hk, if_false]
    exact ih h.2

theorem toDigitsCore_append (b : Nat) :
    ∀ (fuel n : Nat) (acc : List Char),
      Nat.toDigitsCore b fuel n acc = Nat.toDigitsCore b fuel n [] ++ acc
  | 0, _, _ => by simp [Nat.toDigitsCore]
  | fuel + 1, n, acc => by
    simp only [Nat.toDigitsCore]
    by_cases h : n / b = 0
    · simp [h]
    · simp only [h, if_false]
      rw [toDigitsCore_append b fuel (n / b) (Nat.digitChar (n % b) :: acc),
        toDigitsCore_append b fuel (n / b) [Nat.digitChar (n % b)]]
      simp

theorem toDigitsCore_fuel (n : Nat) : ∀ f₁ f₂ : Nat, n < f₁ → n < f₂ →
    Nat.toDigitsCore 10 f₁ n [] = Nat.toDigitsCore 10 f₂ n [] := by
  induction n using Nat.strong_induction_on with
  | _ n ih =>
    intro f₁ f₂ h₁ h₂
    match f₁, f₂ with
    | g₁ + 1, g₂ + 1 =>
      simp only [Nat.toDigitsCore]
      by_cases h : n / 10 = 0
      · simp [h]
      · simp only [h, if_false]
        rw [toDigitsCore_append 10 g₁, toDigitsCore_append 10 g₂]
        congr 1
        exact ih (n / 10) (by omega) g₁ g₂ (by omega) (by omega)

theorem digitChar_toNat : ∀ n : Nat, n < 10 → (Nat.digitChar n).toNat = 48 + n := by
  decide

theorem decodeDigits_append (l : List Char) (c : Char) :
    decodeDigits (l ++ [c]) = decodeDigits l * 10 + (c.toNat - 48) := by
  simp [decodeDigits, List.foldl_append]

theorem decode_toDigits (n : Nat) : decodeDigits (Nat.toDigits 10 n) = n := by
  induction n using Nat.strong_induction_on with
  | _ n ih =>
    unfold Nat.toDigits
    simp only [Nat.toDigitsCore]
    by_cases h : n / 10 = 0
    · have h10 := digitChar_toNat (n % 10) (by omega)
      simp only [h, if_pos rfl]
      simp [decodeDigits]
      omega
    · simp only [h, if_false]
      rw [toDigitsCore_append]
      have hfuel : Nat.toDigitsCore 10 n (n / 10) [] = Nat.toDigits 10 (n / 10) := by
        unfold Nat.toDigits
        exact toDigitsCore_fuel (n / 10) n (n / 10 + 1) (by omega) (by omega)
      rw [hfuel, decodeDigits_append, ih (n / 10) (by omega)]
      have := digitChar_toNat (n % 10) (by omega)
      omega

theorem repr_data (n : Nat) : (Nat.repr n).data = Nat.toDigits 10 n := rfl

theorem repr_injective {a b : Nat} (h : Nat.repr a = Nat.repr b) : a = b := by
  have hd : Nat.toDigits 10 a = Nat.toDigits 10 b := by
    rw [← repr_data, ← repr_data, h]
  calc a = decodeDigits (Nat.toDigits 10 a) := (decode_toDigits a).symm
    _ = decodeDigits (Nat.toDigits 10 b) := by rw [hd]
    _ = b := decode_toDigits b

theorem toDigitsCore_digits :
    ∀ (fuel n : Nat) (acc : List Char),
      (∀ c ∈ acc, 48 ≤ c.toNat ∧ c.toNat ≤ 57) →
      ∀ c ∈ Nat.toDigitsCore 10 fuel n acc, 48 ≤ c.toNat ∧ c.toNat ≤ 57 := by
  intro fuel
  induction fuel with
  | zero =>
    intro n acc hacc
    simpa [Nat.toDigitsCore] using hacc
  | succ f ih =>
    intro n acc hacc
    simp only [Nat.toDigitsCore]
    have hd : 48 ≤ (Nat.digitChar (n % 10)).toNat ∧ (Nat.digitChar (n % 10)).toNat ≤ 57 := by
      have := digitChar_toNat (n % 10) (by omega)
      omega
    have hacc' : ∀ c ∈ Nat.digitChar (n % 10) :: acc, 48 ≤ c.toNat ∧ c.toNat ≤ 57 := by
      intro c hc
      rcases List.mem_cons.mp hc with h | h
      · exact h ▸ hd
      · exact hacc c h
    by_cases h : n / 10 = 0
    · simpa [h] using hacc'
    · simp only [h, if_false]
      exact ih (n / 10) _ hacc'

theorem underscore_not_mem_repr (n : Nat) : '_' ∉ (Nat.repr n).data := by
  intro hmem
  rw [repr_data] at hmem
  have := toDigitsCore_digits (n + 1) n [] (by simp) '_' hmem
  have h95 : ('_').toNat = 95 := rfl
  omega

theorem append_cons_inj {c : Char} :
    ∀ {l₁ l₂ r₁ r₂ : List Char}, c ∉ l₁ → c ∉ l₂ →
      l₁ ++ c :: r₁ = l₂ ++ c :: r₂ → l₁ = l₂ ∧ r₁ = r₂ := by
  intro l₁
  induction l₁ with
  | nil =>
    intro l₂ r₁ r₂ _ h₂ heq
    cases l₂ with
    | nil => simpa using heq
    | cons x xs =>
      simp only [List.nil_append, List.cons_append, List.cons.injEq] at heq
      exact absurd (heq.1 ▸ List.mem_cons_self x xs) h₂
  | cons x xs ih =>
    intro l₂ r₁ r₂ h₁ h₂ heq
    cases l₂ with
    | nil =>
      simp only [List.cons_append, List.nil_append, List.cons.injEq] at heq
      exact absurd (heq.1 ▸ List.mem_cons_self x xs) h₁
    | cons y ys =>
      simp only [List.cons_append, List.cons.injEq] at heq
      have h₁' : c ∉ xs := fun hm => h₁ (List.mem_cons_of_mem x hm)
      have h₂' : c ∉ ys := fun hm => h₂ (List.mem_cons_of_mem y hm)
      obtain ⟨he, ht⟩ := ih h₁' h₂' heq.2
      exact ⟨by rw [heq.1, he], ht⟩

/-! ## The generated query map: shape, ids, and key uniqueness -/

namespace Cloudwatch

theorem metricsName_nodup : getCloudWatchMetricsName.Nodup := by decide

theorem metricsName_length : getCloudWatchMetricsName.length = 24 := by decide

theorem toLower_no_underscore :
    ∀ m ∈ getCloudWatchMetricsName, '_' ∉ (toLowerStr m).data := by decide

theorem toLower_injOn :
    ∀ m₁ ∈ getCloudWatchMetricsName, ∀ m₂ ∈ getCloudWatchMetricsName,
      toLowerStr m₁ = toLowerStr m₂ → m₁ = m₂ := by decide

theorem queryIdFor_inj {m₁ m₂ : String} {i₁ i₂ : Nat}
    (h₁ : m₁ ∈ getCloudWatchMetricsName) (h₂ : m₂ ∈ getCloudWatchMetricsName)
    (h : queryIdFor m₁ i₁ = queryIdFor m₂ i₂) : m₁ = m₂ ∧ i₁ = i₂ := by
  have hd : (toLowerStr m₁).data ++ '_' :: (Nat.repr i₁).data
      = (toLowerStr m₂).data ++ '_' :: (Nat.repr i₂).data := by
    have h' := congrArg String.data h
    simpa [queryIdFor, String.data_append] using h'
  obtain ⟨hl, hr⟩ :=
    append_cons_inj (toLower_no_underscore m₁ h₁) (toLower_no_underscore m₂ h₂) hd
  refine ⟨toLower_injOn m₁ h₁ m₂ h₂ (String.ext hl), repr_injective (String.ext hr)⟩

theorem length_flatMap_const {α β : Type} (f : α → List β) (k : Nat)
    (h : ∀ a, (f a).length = k) : ∀ l : List α, (l.flatMap f).length = k * l.length := by
  intro l
  induction l with
  | nil => simp
  | cons x xs ih =>
    simp only [List.flatMap_cons, List.length_append, ih, h x, List.length_cons,
      Nat.mul_succ]
    omega

theorem queries_length (D : List String) :
    (generateCloudWatchQueriesForInstances D).length = 24 * D.length := by
  unfold generateCloudWatchQueriesForInstances
  rw [length_flatMap_const _ 24 (fun p => by simp [metricsName_length])]
  simp [List.enum_length]

theorem mem_queries {D : List String} {i : Nat} (hi : i < D.length) {m : String}
    (hm : m ∈ getCloudWatchMetricsName) :
    (queryIdFor m i,
        generateCloudWatchQueryForInstance (queryIdFor m i) m (D.get ⟨i, hi⟩))
      ∈ generateCloudWatchQueriesForInstances D := by
  unfold generateCloudWatchQueriesForInstances
  apply List.mem_flatMap.mpr
  refine ⟨(i, D.get ⟨i, hi⟩), ?_, ?_⟩
  · apply List.mk_mem_enum_iff_getElem?.mpr
    simp [List.getElem?_eq_getElem hi]
  · exact List.mem_map.mpr ⟨m, hm, rfl⟩

theorem queries_keys_nodup (D : List String) :
    ((generateCloudWatchQueriesForInstances D).map Prod.fst).Nodup := by
  unfold generateCloudWatchQueriesForInstances
  rw [List.map_flatMap]
  have hpair : D.enum.Pairwise (fun p q => p.1 ≠ q.1) := by
    have h1 := List.nodup_enum_map_fst D
    rw [List.Nodup, List.pairwise_map] at h1
    exact h1
  apply List.nodup_flatMap.mpr
  constructor
  · intro p _
    simp only [List.map_map]
    apply List.Nodup.map_on ?_ metricsName_nodup
    intro m₁ hm₁ m₂ hm₂ he
    simp only [Function.comp_apply] at he
    exact (queryIdFor_inj hm₁ hm₂ he).1
  · apply hpair.imp
    intro p q hne x hxp hxq
    simp only [List.map_map, List.mem_map, Function.comp_apply] at hxp hxq
    obtain ⟨m₁, hm₁, he₁⟩ := hxp
    obtain ⟨m₂, hm₂, he₂⟩ := hxq
    exact hne (queryIdFor_inj hm₁ hm₂ (he₁.trans he₂.symm)).2

theorem queries_lookup {D : List String} {i : Nat} (hi : i < D.length) {m : String}
    (hm : m ∈ getCloudWatchMetricsName) :
    alookup (queryIdFor m i) (generateCloudWatchQueriesForInstances D)
      = some (generateCloudWatchQueryForInstance (queryIdFor m i) m (D.get ⟨i, hi⟩)) :=
  alookup_eq_some_of_mem (queries_keys_nodup D) (mem_queries hi hm)

/-! ### The chunking loop: call counts and coverage -/

theorem updateMetrics_trivial (metrics : List (String × RdsMetrics))
    (requests : List (String × CloudWatchMetricRequest)) (chunk : List String) :
    updateMetricsWithCloudWatchQueriesResult trivialClient metrics requests chunk
      = .ok metrics := by
  simp [updateMetricsWithCloudWatchQueriesResult, trivialClient, processResults]

theorem gmLoop_spec (client : Client) (requests : List (String × CloudWatchMetricRequest)) :
    ∀ (keys : List String) (metrics : List (String × RdsMetrics))
      (chunk : List String) (calls : List (List String))
      (m' : List (String × RdsMetrics)) (chunk' : List String)
      (calls' : List (List String)),
      chunk.length < 500 →
      gmLoop client requests keys metrics chunk calls = .ok (m', chunk', calls') →
      calls'.flatten ++ chunk' = calls.flatten ++ chunk ++ keys ∧
      (∀ ch ∈ calls', ch ∈ calls ∨ ch.length = 500) ∧
      chunk'.length = (chunk.length + keys.length) % 500 ∧
      calls'.length = calls.length + (chunk.length + keys.length) / 500 := by
  intro keys
  induction keys with
  | nil =>
    intro metrics chunk calls m' chunk' calls' hlt h
    simp only [gmLoop, Except.ok.injEq, Prod.mk.injEq] at h
    obtain ⟨_, h2, h3⟩ := h
    subst h2
    subst h3
    refine ⟨by simp, fun ch hch => Or.inl hch, ?_, ?_⟩
    · simp [Nat.mod_eq_of_lt hlt]
    · simp [Nat.div_eq_of_lt hlt]
  | cons q rest ih =>
    intro metrics chunk calls m' chunk' calls' hlt h
    simp only [gmLoop, MaxQueriesPerCloudwatchRequest] at h
    by_cases hflush : (chunk ++ [q]).length = 500
    · rw [if_pos hflush] at h
      cases hupd : updateMetricsWithCloudWatchQueriesResult client metrics requests
        (chunk ++ [q]) with
      | error e => rw [hupd] at h; cases h
      | ok m2 =>
        rw [hupd] at h
        obtain ⟨hflat, hmem, hclen, hcalls⟩ :=
          ih m2 [] (calls ++ [chunk ++ [q]]) m' chunk' calls' (by norm_num) h
        have hlen : chunk.length + 1 = 500 := by
          simpa using hflush
        refine ⟨?_, ?_, ?_, ?_⟩
        · rw [hflat]
          simp [List.flatten_append]
        · intro ch hch
          rcases hmem ch hch with hin | h500
          · rcases List.mem_append.mp hin with hin' | hin'
            · exact Or.inl hin'
            · right
              have : ch = chunk ++ [q] := by simpa using hin'
              rw [this]
              simpa using hflush
          · exact Or.inr h500
        · rw [hclen]
          simp only [List.length_nil, List.length_cons]
          omega
        · rw [hcalls]
          simp only [List.length_append, List.length_cons, List.length_nil]
          omega
    · rw [if_neg hflush] at h
      have hlen : chunk.length + 1 ≠ 500 := by
        simpa using hflush
      obtain ⟨hflat, hmem, hclen, hcalls⟩ :=
        ih metrics (chunk ++ [q]) calls m' chunk' calls' (by simp; omega) h
      refine ⟨?_, hmem, ?_, ?_⟩
      · rw [hflat]
        simp
      · rw [hclen]
        simp only [List.length_append, List.length_cons, List.length_nil]
        omega
      · rw [hcalls]
        simp only [List.length_append, List.length_cons, List.length_nil]
        omega

theorem gmLoop_trivial_ok (requests : List (String × CloudWatchMetricRequest)) :
    ∀ (keys : List String) (metrics : List (String × RdsMetrics))
      (chunk : List String) (calls : List (List String)),
      ∃ chunk' calls',
        gmLoop trivialClient requests keys metrics chunk calls
          = .ok (metrics, chunk', calls') := by
  intro keys
  induction keys with
  | nil =>
    intro metrics chunk calls
    exact ⟨chunk, calls, rfl⟩
  | cons q rest ih =>
    intro metrics chunk calls
    simp only [gmLoop]
    by_cases hflush : (chunk ++ [q]).length = MaxQueriesPerCloudwatchRequest
    · rw [if_pos hflush, updateMetrics_trivial]
      exact ih metrics [] (calls ++ [chunk ++ [q]])
    · rw [if_neg hflush]
      exact ih metrics (chunk ++ [q]) calls

/-- Call counts and coverage of a successful `GetRDSInstanceMetrics` run:
the issued chunks concatenate exactly to the key order, each is at most
500 queries, their number is `⌈keys.length / 500⌉`, and the statistics
counter ends at 1 exactly when the trailing partial chunk is non-empty. -/
theorem getRDS_run_spec {client : Client} {D keys : List String}
    {m : CloudWatchMetrics} {st : Statistics} {calls : List (List String)}
    (h : GetRDSInstanceMetrics client D keys = .ok (m, st, calls)) :
    calls.flatten = keys ∧
    (∀ ch ∈ calls, ch.length ≤ 500) ∧
    calls.length = (keys.length + 499) / 500 ∧
    st.CloudWatchAPICall = (if keys.length % 500 = 0 then 0 else 1) := by
  unfold GetRDSInstanceMetrics at h
  cases hloop : gmLoop client (generateCloudWatchQueriesForInstances D) keys [] [] [] with
  | error e => simp [hloop] at h
  | ok res =>
    obtain ⟨m0, chunk0, calls0⟩ := res
    simp only [hloop] at h
    obtain ⟨hflat, hmem, hclen, hcalls⟩ :=
      gmLoop_spec client (generateCloudWatchQueriesForInstances D) keys [] [] []
        m0 chunk0 calls0 (by norm_num) hloop
    simp only [List.flatten_nil, List.nil_append, List.length_nil, Nat.zero_add,
      List.length_nil] at hflat hclen hcalls
    by_cases hempty : chunk0 = []
    · rw [if_pos hempty] at h
      simp only [Except.ok.injEq, Prod.mk.injEq] at h
      obtain ⟨_, hst, hc⟩ := h
      subst hc
      have hmod : keys.length % 500 = 0 := by
        rw [← hclen, hempty]
        rfl
      refine ⟨by simpa [hempty] using hflat, ?_, ?_, ?_⟩
      · intro ch hch
        rcases hmem ch hch with hin | h500
        · cases hin
        · omega
      · rw [hcalls]
        omega
      · rw [← hst, hmod]
        simp
    · rw [if_neg hempty] at h
      cases hupd : updateMetricsWithCloudWatchQueriesResult client m0
        (generateCloudWatchQueriesForInstances D) chunk0 with
      | error e => rw [hupd] at h; cases h
      | ok m2 =>
        rw [hupd] at h
        simp only [Except.ok.injEq, Prod.mk.injEq] at h
        obtain ⟨_, hst, hc⟩ := h
        subst hc
        have hmod : keys.length % 500 ≠ 0 := by
          rw [← hclen]
          simpa [List.length_eq_zero] using hempty
        have hlt : chunk0.length < 500 := by
          rw [hclen]
          omega
        refine ⟨?_, ?_, ?_, ?_⟩
        · simpa [List.flatten_append] using hflat
        · intro ch hch
          rcases List.mem_append.mp hch with hin | hin
          · rcases hmem ch hin with h0 | h500
            · cases h0
            · omega
          · have hce : ch = chunk0 := by simpa using hin
            rw [hce]
            omega
        · simp only [List.length_append, List.length_cons, List.length_nil, hcalls]
          omega
        · rw [← hst, if_neg hmod]

theorem getRDS_trivial_ok (D keys : List String) :
    ∃ st calls,
      GetRDSInstanceMetrics trivialClient D keys
        = .ok ({ Instances := [] }, st, calls) := by
  obtain ⟨chunk', calls', hloop⟩ :=
    gmLoop_trivial_ok (generateCloudWatchQueriesForInstances D) keys [] [] []
  unfold GetRDSInstanceMetrics
  simp only [hloop]
  by_cases hempty : chunk' = []
  · rw [if_pos hempty]
    exact ⟨_, _, rfl⟩
  · rw [if_neg hempty, updateMetrics_trivial]
    exact ⟨_, _, rfl⟩

/-! ### `RdsMetrics.Update`: dispatch and frame conditions -/

theorem update_known :
    ∀ f ∈ getCloudWatchMetricsName, ∀ (m : RdsMetrics) (v : Value),
      ∃ m', m.Update f v = .ok m' ∧ fieldValue f m' = some v ∧
        ∀ g ∈ getCloudWatchMetricsName, g ≠ f → fieldValue g m' = fieldValue g m := by
  intro f hf m v
  fin_cases hf <;>
    exact ⟨_, rfl, rfl, by
      intro g hg hne
      fin_cases hg <;> first | rfl | exact absurd rfl hne⟩

theorem update_unknown {f : String} (hf : f ∉ getCloudWatchMetricsName)
    (m : RdsMetrics) (v : Value) :
    m.Update f v = .error (.unknownMetric f) := by
  unfold RdsMetrics.Update
  split <;> first | rfl | (subst_vars; simp [getCloudWatchMetricsName] at hf)

theorem fieldValue_default : ∀ g, fieldValue g ({} : RdsMetrics) = none := by
  intro g
  unfold fieldValue
  split <;> rfl

/-! ### `processResults`: empty series never set a field -/

theorem processResults_no_values (requests : List (String × CloudWatchMetricRequest)) :
    ∀ (results : List MetricDataResult) (ms : List (String × RdsMetrics)),
      (∀ r ∈ results, r.Values = none ∨ r.Values = some []) →
      ∃ ms', processResults requests ms results = .ok ms' ∧
        ∀ dbid f, fieldValue f ((alookup dbid ms').getD {})
          = fieldValue f ((alookup dbid ms).getD {}) := by
  intro results
  induction results with
  | nil =>
    intro ms _
    exact ⟨ms, rfl, fun _ _ => rfl⟩
  | cons r rest ih =>
    intro ms hall
    rcases hall r (List.mem_cons_self r rest) with hv | hv
    · obtain ⟨ms', hrun, hfields⟩ :=
        ih ms (fun x hx => hall x (List.mem_cons_of_mem r hx))
      refine ⟨ms', ?_, hfields⟩
      simp [processResults, hv, hrun]
    · by_cases hpresent :
        (alookup ((alookup r.Id requests).getD {}).Dbidentifier ms).isSome
      · obtain ⟨ms', hrun, hfields⟩ :=
          ih ms (fun x hx => hall x (List.mem_cons_of_mem r hx))
        refine ⟨ms', ?_, hfields⟩
        simp [processResults, hv, hpresent, hrun]
      · obtain ⟨ms', hrun, hfields⟩ :=
          ih (ms ++ [(((alookup r.Id requests).getD {}).Dbidentifier, ({} : RdsMetrics))])
            (fun x hx => hall x (List.mem_cons_of_mem r hx))
        refine ⟨ms', ?_, ?_⟩
        · simp [processResults, hv, hpresent, hrun]
        · intro d f
          rw [hfields d f, alookup_append]
          by_cases hd : ((alookup r.Id requests).getD {}).Dbidentifier = d
          · rw [← hd]
            have hnone :
                alookup ((alookup r.Id requests).getD {}).Dbidentifier ms = none := by
              cases hlk : alookup ((alookup r.Id requests).getD {}).Dbidentifier ms with
              | none => rfl
              | some x => rw [hlk] at hpresent; simp at hpresent
            simp [hnone, alookup]
          · cases hlk : alookup d ms with
            | none => simp [hlk, alookup, hd]
            | some x => simp [hlk]

theorem processResults_single (requests : List (String × CloudWatchMetricRequest))
    (r : MetricDataResult) (v : Value) (vs : List Value)
    (hv : r.Values = some (v :: vs)) (req : CloudWatchMetricRequest)
    (hlook : alookup r.Id requests = some req)
    (hknown : req.MetricName ∈ getCloudWatchMetricsName) :
    ∃ m', processResults requests [] [r] = .ok [(req.Dbidentifier, m')] ∧
      fieldValue req.MetricName m' = some v ∧
      ∀ g ∈ getCloudWatchMetricsName, g ≠ req.MetricName → fieldValue g m' = none := by
  obtain ⟨m', hupd, hset, hframe⟩ := update_known req.MetricName hknown {} v
  refine ⟨m', ?_, hset, ?_⟩
  · simp [processResults, hv, hlook, alookup, hupd, aset]
  · intro g hg hne
    rw [hframe g hg hne, fieldValue_default]

end Cloudwatch

/-! ## Exporter: frame conditions of the four concurrent subtasks -/

namespace Exporter

@[simp] theorem quotas_configuration (c : RdsCollector) (r : Except String ServiceQuotas.Metrics) (a : Value) :
    (getQuotasMetrics c r a).configuration = c.configuration := by cases r <;> rfl

@[simp] theorem quotas_awsAccountID (c : RdsCollector) (r : Except String ServiceQuotas.Metrics) (a : Value) :
    (getQuotasMetrics c r a).awsAccountID = c.awsAccountID := by cases r <;> rfl

@[simp] theorem quotas_awsRegion (c : RdsCollector) (r : Except String ServiceQuotas.Metrics) (a : Value) :
    (getQuotasMetrics c r a).awsRegion = c.awsRegion := by cases r <;> rfl

@[simp] theorem quotas_slot (c : RdsCollector) (r : Except String ServiceQuotas.Metrics) (a : Value) :
    (getQuotasMetrics c r a).metrics.ServiceQuota
      = (match r with | .ok v => v | .error _ => {}) := by cases r <;> rfl

@[simp] theorem quotas_RDS (c : RdsCollector) (r : Except String ServiceQuotas.Metrics) (a : Value) :
    (getQuotasMetrics c r a).metrics.RDS = c.metrics.RDS := by cases r <;> rfl

@[simp] theorem quotas_EC2 (c : RdsCollector) (r : Except String ServiceQuotas.Metrics) (a : Value) :
    (getQuotasMetrics c r a).metrics.EC2 = c.metrics.EC2 := by cases r <;> rfl

@[simp] theorem quotas_CloudwatchInstances (c : RdsCollector) (r : Except String ServiceQuotas.Metrics) (a : Value) :
    (getQuotasMetrics c r a).metrics.CloudwatchInstances = c.metrics.CloudwatchInstances := by cases r <;> rfl

@[simp] theorem quotas_CloudWatchUsage (c : RdsCollector) (r : Except String ServiceQuotas.Metrics) (a : Value) :
    (getQuotasMetrics c r a).metrics.CloudWatchUsage = c.metrics.CloudWatchUsage := by cases r <;> rfl

@[simp] theorem quotas_CloudwatchAPICalls (c : RdsCollector) (r : Except String ServiceQuotas.Metrics) (a : Value) :
    (getQuotasMetrics c r a).counters.CloudwatchAPICalls = c.counters.CloudwatchAPICalls := by cases r <;> rfl

@[simp] theorem quotas_EC2APIcalls (c : RdsCollector) (r : Except String ServiceQuotas.Metrics) (a : Value) :
    (getQuotasMetrics c r a).counters.EC2APIcalls = c.counters.EC2APIcalls := by cases r <;> rfl

@[simp] theorem quotas_RDSAPIcalls (c : RdsCollector) (r : Except String ServiceQuotas.Metrics) (a : Value) :
    (getQuotasMetrics c r a).counters.RDSAPIcalls = c.counters.RDSAPIcalls := by cases r <;> rfl

@[simp] theorem quotas_ownctr (c : RdsCollector) (r : Except String ServiceQuotas.Metrics) (a : Value) :
    (getQuotasMetrics c r a).counters.ServiceQuotasAPICalls = c.counters.ServiceQuotasAPICalls + a := by cases r <;> rfl

@[simp] theorem quotas_UsageAPIcalls (c : RdsCollector) (r : Except String ServiceQuotas.Metrics) (a : Value) :
    (getQuotasMetrics c r a).counters.UsageAPIcalls = c.counters.UsageAPIcalls := by cases r <;> rfl

@[simp] theorem quotas_Errors (c : RdsCollector) (r : Except String ServiceQuotas.Metrics) (a : Value) :
    (getQuotasMetrics c r a).counters.Errors
      = c.counters.Errors + (match r with | .ok _ => 0 | .error _ => 1) := by
  cases r <;> simp [getQuotasMetrics]

@[simp] theorem usages_configuration (c : RdsCollector) (r : Except String Cloudwatch.UsageMetrics) (a : Value) :
    (getUsagesMetrics c r a).configuration = c.configuration := by cases r <;> rfl

@[simp] theorem usages_awsAccountID (c : RdsCollector) (r : Except String Cloudwatch.UsageMetrics) (a : Value) :
    (getUsagesMetrics c r a).awsAccountID = c.awsAccountID := by cases r <;> rfl

@[simp] theorem usages_awsRegion (c : RdsCollector) (r : Except String Cloudwatch.UsageMetrics) (a : Value) :
    (getUsagesMetrics c r a).awsRegion = c.awsRegion := by cases r <;> rfl

@[simp] theorem usages_ServiceQuota (c : RdsCollector) (r : Except String Cloudwatch.UsageMetrics) (a : Value) :
    (getUsagesMetrics c r a).metrics.ServiceQuota = c.metrics.ServiceQuota := by cases r <;> rfl

@[simp] theorem usages_RDS (c : RdsCollector) (r : Except String Cloudwatch.UsageMetrics) (a : Value) :
    (getUsagesMetrics c r a).metrics.RDS = c.metrics.RDS := by cases r <;> rfl

@[simp] theorem usages_EC2 (c : RdsCollector) (r : Except String Cloudwatch.UsageMetrics) (a : Value) :
    (getUsagesMetrics c r a).metrics.EC2 = c.metrics.EC2 := by cases r <;> rfl

@[simp] theorem usages_CloudwatchInstances (c : RdsCollector) (r : Except String Cloudwatch.UsageMetrics) (a : Value) :
    (getUsagesMetrics c r a).metrics.CloudwatchInstances = c.metrics.CloudwatchInstances := by cases r <;> rfl

@[simp] theorem usages_slot (c : RdsCollector) (r : Except String Cloudwatch.UsageMetrics) (a : Value) :
    (getUsagesMetrics c r a).metrics.CloudWatchUsage
      = (match r with | .ok v => v | .error _ => {}) := by cases r <;> rfl

@[simp] theorem usages_CloudwatchAPICalls (c : RdsCollector) (r : Except String Cloudwatch.UsageMetrics) (a : Value) :
    (getUsagesMetrics c r a).counters.CloudwatchAPICalls = c.counters.CloudwatchAPICalls := by cases r <;> rfl

@[simp] theorem usages_EC2APIcalls (c : RdsCollector) (r : Except String Cloudwatch.UsageMetrics) (a : Value) :
    (getUsagesMetrics c r a).counters.EC2APIcalls = c.counters.EC2APIcalls := by cases r <;> rfl

@[simp] theorem usages_RDSAPIcalls (c : RdsCollector) (r : Except String Cloudwatch.UsageMetrics) (a : Value) :
    (getUsagesMetrics c r a).counters.RDSAPIcalls = c.counters.RDSAPIcalls := by cases r <;> rfl

@[simp] theorem usages_ServiceQuotasAPICalls (c : RdsCollector) (r : Except String Cloudwatch.UsageMetrics) (a : Value) :
    (getUsagesMetrics c r a).counters.ServiceQuotasAPICalls = c.counters.ServiceQuotasAPICalls := by cases r <;> rfl

@[simp] theorem usages_ownctr (c : RdsCollector) (r : Except String Cloudwatch.UsageMetrics) (a : Value) :
    (getUsagesMetrics c r a).counters.UsageAPIcalls = c.counters.UsageAPIcalls + a := by cases r <;> rfl

@[simp] theorem usages_Errors (c : RdsCollector) (r : Except String Cloudwatch.UsageMetrics) (a : Value) :
    (getUsagesMetrics c r a).counters.Errors
      = c.counters.Errors + (match r with | .ok _ => 0 | .error _ => 1) := by
  cases r <;> simp [getUsagesMetrics]

@[simp] theorem ec2f_configuration (c : RdsCollector) (r : Except String Ec2.Metrics) (a : Value) :
    (getEC2Metrics c r a).configuration = c.configuration := by cases r <;> rfl

@[simp] theorem ec2f_awsAccountID (c : RdsCollector) (r : Except String Ec2.Metrics) (a : Value) :
    (getEC2Metrics c r a).awsAccountID = c.awsAccountID := by cases r <;> rfl

@[simp] theorem ec2f_awsRegion (c : RdsCollector) (r : Except String Ec2.Metrics) (a : Value) :
    (getEC2Metrics c r a).awsRegion = c.awsRegion := by cases r <;> rfl

@[simp] theorem ec2f_ServiceQuota (c : RdsCollector) (r : Except String Ec2.Metrics) (a : Value) :
    (getEC2Metrics c r a).metrics.ServiceQuota = c.metrics.ServiceQuota := by cases r <;> rfl

@[simp] theorem ec2f_RDS (c : RdsCollector) (r : Except String Ec2.Metrics) (a : Value) :
    (getEC2Metrics c r a).metrics.RDS = c.metrics.RDS := by cases r <;> rfl

@[simp] theorem ec2f_slot (c : RdsCollector) (r : Except String Ec2.Metrics) (a : Value) :
    (getEC2Metrics c r a).metrics.EC2
      = (match r with | .ok v => v | .error _ => {}) := by cases r <;> rfl

@[simp] theorem ec2f_CloudwatchInstances (c : RdsCollector) (r : Except String Ec2.Metrics) (a : Value) :
    (getEC2Metrics c r a).metrics.CloudwatchInstances = c.metrics.CloudwatchInstances := by cases r <;> rfl

@[simp] theorem ec2f_CloudWatchUsage (c : RdsCollector) (r : Except String Ec2.Metrics) (a : Value) :
    (getEC2Metrics c r a).metrics.CloudWatchUsage = c.metrics.CloudWatchUsage := by cases r <;> rfl

@[simp] theorem ec2f_CloudwatchAPICalls (c : RdsCollector) (r : Except String Ec2.Metrics) (a : Value) :
    (getEC2Metrics c r a).counters.CloudwatchAPICalls = c.counters.CloudwatchAPICalls := by cases r <;> rfl

@[simp] theorem ec2f_ownctr (c : RdsCollector) (r : Except String Ec2.Metrics) (a : Value) :
    (getEC2Metrics c r a).counters.EC2APIcalls = c.counters.EC2APIcalls + a := by cases r <;> rfl

@[simp] theorem ec2f_RDSAPIcalls (c : RdsCollector) (r : Except String Ec2.Metrics) (a : Value) :
    (getEC2Metrics c r a).counters.RDSAPIcalls = c.counters.RDSAPIcalls := by cases r <;> rfl

@[simp] theorem ec2f_ServiceQuotasAPICalls (c : RdsCollector) (r : Except String Ec2.Metrics) (a : Value) :
    (getEC2Metrics c r a).counters.ServiceQuotasAPICalls = c.counters.ServiceQuotasAPICalls := by cases r <;> rfl

@[simp] theorem ec2f_UsageAPIcalls (c : RdsCollector) (r : Except String Ec2.Metrics) (a : Value) :
    (getEC2Metrics c r a).counters.UsageAPIcalls = c.counters.UsageAPIcalls := by cases r <;> rfl

@[simp] theorem ec2f_Errors (c : RdsCollector) (r : Except String Ec2.Metrics) (a : Value) :
    (getEC2Metrics c r a).counters.Errors
      = c.counters.Errors + (match r with | .ok _ => 0 | .error _ => 1) := by
  cases r <;> simp [getEC2Metrics]

@[simp] theorem cwf_configuration (c : RdsCollector) (r : Except String Cloudwatch.CloudWatchMetrics) (a : Value) :
    (getCloudwatchMetrics c r a).configuration = c.configuration := by cases r <;> rfl

@[simp] theorem cwf_awsAccountID (c : RdsCollector) (r : Except String Cloudwatch.CloudWatchMetrics) (a : Value) :
    (getCloudwatchMetrics c r a).awsAccountID = c.awsAccountID := by cases r <;> rfl

@[simp] theorem cwf_awsRegion (c : RdsCollector) (r : Except String Cloudwatch.CloudWatchMetrics) (a : Value) :
    (getCloudwatchMetrics c r a).awsRegion = c.awsRegion := by cases r <;> rfl

@[simp] theorem cwf_ServiceQuota (c : RdsCollector) (r : Except String Cloudwatch.CloudWatchMetrics) (a : Value) :
    (getCloudwatchMetrics c r a).metrics.ServiceQuota = c.metrics.ServiceQuota := by cases r <;> rfl

@[simp] theorem cwf_RDS (c : RdsCollector) (r : Except String Cloudwatch.CloudWatchMetrics) (a : Value) :
    (getCloudwatchMetrics c r a).metrics.RDS = c.metrics.RDS := by cases r <;> rfl

@[simp] theorem cwf_EC2 (c : RdsCollector) (r : Except String Cloudwatch.CloudWatchMetrics) (a : Value) :
    (getCloudwatchMetrics c r a).metrics.EC2 = c.metrics.EC2 := by cases r <;> rfl

@[simp] theorem cwf_slot (c : RdsCollector) (r : Except String Cloudwatch.CloudWatchMetrics) (a : Value) :
    (getCloudwatchMetrics c r a).metrics.CloudwatchInstances
      = (match r with | .ok v => v | .error _ => {}) := by cases r <;> rfl

@[simp] theorem cwf_CloudWatchUsage (c : RdsCollector) (r : Except String Cloudwatch.CloudWatchMetrics) (a : Value) :
    (getCloudwatchMetrics c r a).metrics.CloudWatchUsage = c.metrics.CloudWatchUsage := by cases r <;> rfl

@[simp] theorem cwf_ownctr (c : RdsCollector) (r : Except String Cloudwatch.CloudWatchMetrics) (a : Value) :
    (getCloudwatchMetrics c r a).counters.CloudwatchAPICalls = c.counters.CloudwatchAPICalls + a := by cases r <;> rfl

@[simp] theorem cwf_EC2APIcalls (c : RdsCollector) (r : Except String Cloudwatch.CloudWatchMetrics) (a : Value) :
    (getCloudwatchMetrics c r a).counters.EC2APIcalls = c.counters.EC2APIcalls := by cases r <;> rfl

@[simp] theorem cwf_RDSAPIcalls (c : RdsCollector) (r : Except String Cloudwatch.CloudWatchMetrics) (a : Value) :
    (getCloudwatchMetrics c r a).counters.RDSAPIcalls = c.counters.RDSAPIcalls := by cases r <;> rfl

@[simp] theorem cwf_ServiceQuotasAPICalls (c : RdsCollector) (r : Except String Cloudwatch.CloudWatchMetrics) (a : Value) :
    (getCloudwatchMetrics c r a).counters.ServiceQuotasAPICalls = c.counters.ServiceQuotasAPICalls := by cases r <;> rfl

@[simp] theorem cwf_UsageAPIcalls (c : RdsCollector) (r : Except String Cloudwatch.CloudWatchMetrics) (a : Value) :
    (getCloudwatchMetrics c r a).counters.UsageAPIcalls = c.counters.UsageAPIcalls := by cases r <;> rfl

@[simp] theorem cwf_Errors (c : RdsCollector) (r : Except String Cloudwatch.CloudWatchMetrics) (a : Value) :
    (getCloudwatchMetrics c r a).counters.Errors
      = c.counters.Errors + (match r with | .ok _ => 0 | .error _ => 1) := by
  cases r <;> simp [getCloudwatchMetrics]


@[simp] theorem ite_configuration (P : Prop) [Decidable P] (a b : RdsCollector) :
    (if P then a else b).configuration = if P then a.configuration else b.configuration :=
  apply_ite (fun x : RdsCollector => x.configuration) P a b

@[simp] theorem ite_awsAccountID (P : Prop) [Decidable P] (a b : RdsCollector) :
    (if P then a else b).awsAccountID = if P then a.awsAccountID else b.awsAccountID :=
  apply_ite (fun x : RdsCollector => x.awsAccountID) P a b

@[simp] theorem ite_awsRegion (P : Prop) [Decidable P] (a b : RdsCollector) :
    (if P then a else b).awsRegion = if P then a.awsRegion else b.awsRegion :=
  apply_ite (fun x : RdsCollector => x.awsRegion) P a b

@[simp] theorem ite_mServiceQuota (P : Prop) [Decidable P] (a b : RdsCollector) :
    (if P then a else b).metrics.ServiceQuota = if P then a.metrics.ServiceQuota else b.metrics.ServiceQuota :=
  apply_ite (fun x : RdsCollector => x.metrics.ServiceQuota) P a b

@[simp] theorem ite_mRDS (P : Prop) [Decidable P] (a b : RdsCollector) :
    (if P then a else b).metrics.RDS = if P then a.metrics.RDS else b.metrics.RDS :=
  apply_ite (fun x : RdsCollector => x.metrics.RDS) P a b

@[simp] theorem ite_mEC2 (P : Prop) [Decidable P] (a b : RdsCollector) :
    (if P then a else b).metrics.EC2 = if P then a.metrics.EC2 else b.metrics.EC2 :=
  apply_ite (fun x : RdsCollector => x.metrics.EC2) P a b

@[simp] theorem ite_mCWI (P : Prop) [Decidable P] (a b : RdsCollector) :
    (if P then a else b).metrics.CloudwatchInstances = if P then a.metrics.CloudwatchInstances else b.metrics.CloudwatchInstances :=
  apply_ite (fun x : RdsCollector => x.metrics.CloudwatchInstances) P a b

@[simp] theorem ite_mUsage (P : Prop) [Decidable P] (a b : RdsCollector) :
    (if P then a else b).metrics.CloudWatchUsage = if P then a.metrics.CloudWatchUsage else b.metrics.CloudWatchUsage :=
  apply_ite (fun x : RdsCollector => x.metrics.CloudWatchUsage) P a b

@[simp] theorem ite_cErrors (P : Prop) [Decidable P] (a b : RdsCollector) :
    (if P then a else b).counters.Errors = if P then a.counters.Errors else b.counters.Errors :=
  apply_ite (fun x : RdsCollector => x.counters.Errors) P a b

@[simp] theorem ite_cCW (P : Prop) [Decidable P] (a b : RdsCollector) :
    (if P then a else b).counters.CloudwatchAPICalls = if P then a.counters.CloudwatchAPICalls else b.counters.CloudwatchAPICalls :=
  apply_ite (fun x : RdsCollector => x.counters.CloudwatchAPICalls) P a b

@[simp] theorem ite_cEC2 (P : Prop) [Decidable P] (a b : RdsCollector) :
    (if P then a else b).counters.EC2APIcalls = if P then a.counters.EC2APIcalls else b.counters.EC2APIcalls :=
  apply_ite (fun x : RdsCollector => x.counters.EC2APIcalls) P a b

@[simp] theorem ite_cRDS (P : Prop) [Decidable P] (a b : RdsCollector) :
    (if P then a else b).counters.RDSAPIcalls = if P then a.counters.RDSAPIcalls else b.counters.RDSAPIcalls :=
  apply_ite (fun x : RdsCollector => x.counters.RDSAPIcalls) P a b

@[simp] theorem ite_cSQ (P : Prop) [Decidable P] (a b : RdsCollector) :
    (if P then a else b).counters.ServiceQuotasAPICalls = if P then a.counters.ServiceQuotasAPICalls else b.counters.ServiceQuotasAPICalls :=
  apply_ite (fun x : RdsCollector => x.counters.ServiceQuotasAPICalls) P a b

@[simp] theorem ite_cUsage (P : Prop) [Decidable P] (a b : RdsCollector) :
    (if P then a else b).counters.UsageAPIcalls = if P then a.counters.UsageAPIcalls else b.counters.UsageAPIcalls :=
  apply_ite (fun x : RdsCollector => x.counters.UsageAPIcalls) P a b

/-! ### `fetchMetrics`: its effect on every collector component -/

theorem fetchMetrics_configuration (c : RdsCollector) (inp : ScrapeInputs) :
    (fetchMetrics c inp).1.configuration = c.configuration := by
  unfold fetchMetrics
  cases hr : inp.rdsResult <;> simp

theorem fetchMetrics_awsAccountID (c : RdsCollector) (inp : ScrapeInputs) :
    (fetchMetrics c inp).1.awsAccountID = c.awsAccountID := by
  unfold fetchMetrics
  cases hr : inp.rdsResult <;> simp

theorem fetchMetrics_awsRegion (c : RdsCollector) (inp : ScrapeInputs) :
    (fetchMetrics c inp).1.awsRegion = c.awsRegion := by
  unfold fetchMetrics
  cases hr : inp.rdsResult <;> simp

theorem fetchMetrics_snd_ok {c : RdsCollector} {inp : ScrapeInputs} {r : Rds.Metrics}
    (hr : inp.rdsResult = .ok r) : (fetchMetrics c inp).2 = true := by
  unfold fetchMetrics
  simp [hr]

theorem fetchMetrics_snd_error {c : RdsCollector} {inp : ScrapeInputs} {s : String}
    (hr : inp.rdsResult = .error s) : (fetchMetrics c inp).2 = false := by
  unfold fetchMetrics
  simp [hr]

theorem fetchMetrics_RDS {c : RdsCollector} {inp : ScrapeInputs} {r : Rds.Metrics}
    (hr : inp.rdsResult = .ok r) : (fetchMetrics c inp).1.metrics.RDS = r := by
  unfold fetchMetrics
  simp [hr]

theorem fetchMetrics_RDSAPIcalls {c : RdsCollector} {inp : ScrapeInputs} {r : Rds.Metrics}
    (hr : inp.rdsResult = .ok r) :
    (fetchMetrics c inp).1.counters.RDSAPIcalls
      = c.counters.RDSAPIcalls + inp.rdsApiCalls := by
  unfold fetchMetrics
  simp [hr]

theorem fetchMetrics_ServiceQuota_on {c : RdsCollector} (inp : ScrapeInputs)
    (hq : c.configuration.CollectQuotas = true) :
    (fetchMetrics c inp).1.metrics.ServiceQuota
      = (match inp.quotasResult with | .ok v => v | .error _ => {}) := by
  unfold fetchMetrics
  cases hr : inp.rdsResult <;> simp [hq]

theorem fetchMetrics_ServiceQuota_off {c : RdsCollector} (inp : ScrapeInputs)
    (hq : c.configuration.CollectQuotas = false) :
    (fetchMetrics c inp).1.metrics.ServiceQuota = c.metrics.ServiceQuota := by
  unfold fetchMetrics
  cases hr : inp.rdsResult <;> simp [hq]

theorem fetchMetrics_SQAPI_on {c : RdsCollector} (inp : ScrapeInputs)
    (hq : c.configuration.CollectQuotas = true) :
    (fetchMetrics c inp).1.counters.ServiceQuotasAPICalls
      = c.counters.ServiceQuotasAPICalls + inp.quotasApiCalls := by
  unfold fetchMetrics
  cases hr : inp.rdsResult <;> simp [hq]

theorem fetchMetrics_SQAPI_off {c : RdsCollector} (inp : ScrapeInputs)
    (hq : c.configuration.CollectQuotas = false) :
    (fetchMetrics c inp).1.counters.ServiceQuotasAPICalls
      = c.counters.ServiceQuotasAPICalls := by
  unfold fetchMetrics
  cases hr : inp.rdsResult <;> simp [hq]

theorem fetchMetrics_CloudWatchUsage_on {c : RdsCollector} (inp : ScrapeInputs)
    (hu : c.configuration.CollectUsages = true) :
    (fetchMetrics c inp).1.metrics.CloudWatchUsage
      = (match inp.usageResult with | .ok v => v | .error _ => {}) := by
  unfold fetchMetrics
  cases hr : inp.rdsResult <;> simp [hu]

theorem fetchMetrics_CloudWatchUsage_off {c : RdsCollector} (inp : ScrapeInputs)
    (hu : c.configuration.CollectUsages = false) :
    (fetchMetrics c inp).1.metrics.CloudWatchUsage = c.metrics.CloudWatchUsage := by
  unfold fetchMetrics
  cases hr : inp.rdsResult <;> simp [hu]

theorem fetchMetrics_UsageAPI_on {c : RdsCollector} (inp : ScrapeInputs)
    (hu : c.configuration.CollectUsages = true) :
    (fetchMetrics c inp).1.counters.UsageAPIcalls
      = c.counters.UsageAPIcalls + inp.usageApiCalls := by
  unfold fetchMetrics
  cases hr : inp.rdsResult <;> simp [hu]

theorem fetchMetrics_UsageAPI_off {c : RdsCollector} (inp : ScrapeInputs)
    (hu : c.configuration.CollectUsages = false) :
    (fetchMetrics c inp).1.counters.UsageAPIcalls = c.counters.UsageAPIcalls := by
  unfold fetchMetrics
  cases hr : inp.rdsResult <;> simp [hu]

theorem fetchMetrics_EC2_on {c : RdsCollector} {inp : ScrapeInputs} {r : Rds.Metrics}
    (hr : inp.rdsResult = .ok r)
    (ht : c.configuration.CollectInstanceTypes = true)
    (hne : (getUniqTypeAndIdentifiers r.Instances).2.isEmpty = false) :
    (fetchMetrics c inp).1.metrics.EC2
      = (match inp.ec2Result with | .ok v => v | .error _ => {}) := by
  unfold fetchMetrics
  simp [hr, ht, hne]

theorem fetchMetrics_EC2_off_flag {c : RdsCollector} {inp : ScrapeInputs} {r : Rds.Metrics}
    (hr : inp.rdsResult = .ok r)
    (ht : c.configuration.CollectInstanceTypes = false) :
    (fetchMetrics c inp).1.metrics.EC2 = c.metrics.EC2 := by
  unfold fetchMetrics
  simp [hr, ht]

theorem fetchMetrics_EC2_off_empty {c : RdsCollector} {inp : ScrapeInputs} {r : Rds.Metrics}
    (hr : inp.rdsResult = .ok r)
    (hne : (getUniqTypeAndIdentifiers r.Instances).2.isEmpty = true) :
    (fetchMetrics c inp).1.metrics.EC2 = c.metrics.EC2 := by
  unfold fetchMetrics
  simp [hr, hne]

theorem fetchMetrics_EC2API_on {c : RdsCollector} {inp : ScrapeInputs} {r : Rds.Metrics}
    (hr : inp.rdsResult = .ok r)
    (ht : c.configuration.CollectInstanceTypes = true)
    (hne : (getUniqTypeAndIdentifiers r.Instances).2.isEmpty = false) :
    (fetchMetrics c inp).1.counters.EC2APIcalls
      = c.counters.EC2APIcalls + inp.ec2ApiCalls := by
  unfold fetchMetrics
  simp [hr, ht, hne]

theorem fetchMetrics_EC2API_off_flag {c : RdsCollector} {inp : ScrapeInputs} {r : Rds.Metrics}
    (hr : inp.rdsResult = .ok r)
    (ht : c.configuration.CollectInstanceTypes = false) :
    (fetchMetrics c inp).1.counters.EC2APIcalls = c.counters.EC2APIcalls := by
  unfold fetchMetrics
  simp [hr, ht]

theorem fetchMetrics_EC2API_off_empty {c : RdsCollector} {inp : ScrapeInputs} {r : Rds.Metrics}
    (hr : inp.rdsResult = .ok r)
    (hne : (getUniqTypeAndIdentifiers r.Instances).2.isEmpty = true) :
    (fetchMetrics c inp).1.counters.EC2APIcalls = c.counters.EC2APIcalls := by
  unfold fetchMetrics
  simp [hr, hne]

theorem fetchMetrics_CloudwatchInstances_on {c : RdsCollector} {inp : ScrapeInputs}
    {r : Rds.Metrics} (hr : inp.rdsResult = .ok r)
    (hm : c.configuration.CollectInstanceMetrics = true) :
    (fetchMetrics c inp).1.metrics.CloudwatchInstances
      = (match inp.cwResult with | .ok v => v | .error _ => {}) := by
  unfold fetchMetrics
  simp [hr, hm]

theorem fetchMetrics_CloudwatchInstances_off {c : RdsCollector} {inp : ScrapeInputs}
    {r : Rds.Metrics} (hr : inp.rdsResult = .ok r)
    (hm : c.configuration.CollectInstanceMetrics = false) :
    (fetchMetrics c inp).1.metrics.CloudwatchInstances
      = c.metrics.CloudwatchInstances := by
  unfold fetchMetrics
  simp [hr, hm]

theorem fetchMetrics_CWAPI_on {c : RdsCollector} {inp : ScrapeInputs}
    {r : Rds.Metrics} (hr : inp.rdsResult = .ok r)
    (hm : c.configuration.CollectInstanceMetrics = true) :
    (fetchMetrics c inp).1.counters.CloudwatchAPICalls
      = c.counters.CloudwatchAPICalls + inp.cwApiCalls := by
  unfold fetchMetrics
  simp [hr, hm]

theorem fetchMetrics_CWAPI_off {c : RdsCollector} {inp : ScrapeInputs}
    {r : Rds.Metrics} (hr : inp.rdsResult = .ok r)
    (hm : c.configuration.CollectInstanceMetrics = false) :
    (fetchMetrics c inp).1.counters.CloudwatchAPICalls
      = c.counters.CloudwatchAPICalls := by
  unfold fetchMetrics
  simp [hr, hm]

theorem fetchMetrics_Errors {c : RdsCollector} {inp : ScrapeInputs} {r : Rds.Metrics}
    (hr : inp.rdsResult = .ok r) :
    (fetchMetrics c inp).1.counters.Errors
      = c.counters.Errors
        + (if c.configuration.CollectQuotas = true
            then (match inp.quotasResult with | .ok _ => 0 | .error _ => 1) else 0)
        + (if c.configuration.CollectUsages = true
            then (match inp.usageResult with | .ok _ => 0 | .error _ => 1) else 0)
        + (if c.configuration.CollectInstanceTypes = true ∧
              (getUniqTypeAndIdentifiers r.Instances).2.isEmpty = false
            then (match inp.ec2Result with | .ok _ => 0 | .error _ => 1) else 0)
        + (if c.configuration.CollectInstanceMetrics = true
            then (match inp.cwResult with | .ok _ => 0 | .error _ => 1) else 0) := by
  unfold fetchMetrics
  by_cases hq : c.configuration.CollectQuotas = true <;>
  by_cases hu : c.configuration.CollectUsages = true <;>
  by_cases ht : c.configuration.CollectInstanceTypes = true <;>
  by_cases hne : (getUniqTypeAndIdentifiers r.Instances).2.isEmpty = false <;>
  by_cases hm : c.configuration.CollectInstanceMetrics = true <;>
  simp [hr, hq, hu, ht, hne, hm] <;> ring

/-! ### Segment congruence: each block reads a fixed set of components -/

theorem rdsSegment_congr {c c' : RdsCollector}
    (hconf : c.configuration = c'.configuration)
    (ha : c.awsAccountID = c'.awsAccountID) (hr : c.awsRegion = c'.awsRegion)
    (hc : c.counters.RDSAPIcalls = c'.counters.RDSAPIcalls)
    (hm : c.metrics.RDS = c'.metrics.RDS) :
    rdsSegment c = rdsSegment c' := by
  unfold rdsSegment rdsInstanceSamples getInstanceTagLabels
  rw [hconf, ha, hr, hc, hm]

theorem cwSegment_congr {c c' : RdsCollector}
    (ha : c.awsAccountID = c'.awsAccountID) (hr : c.awsRegion = c'.awsRegion)
    (hc : c.counters.CloudwatchAPICalls = c'.counters.CloudwatchAPICalls)
    (hm : c.metrics.CloudwatchInstances = c'.metrics.CloudwatchInstances) :
    cwSegment c = cwSegment c' := by
  unfold cwSegment cwInstanceSamples
  rw [ha, hr, hc, hm]

theorem usageSegment_congr {c c' : RdsCollector}
    (hconf : c.configuration = c'.configuration)
    (ha : c.awsAccountID = c'.awsAccountID) (hr : c.awsRegion = c'.awsRegion)
    (hc : c.counters.UsageAPIcalls = c'.counters.UsageAPIcalls)
    (hm : c.metrics.CloudWatchUsage = c'.metrics.CloudWatchUsage) :
    usageSegment c = usageSegment c' := by
  unfold usageSegment
  rw [hconf, ha, hr, hc, hm]

theorem ec2Segment_congr {c c' : RdsCollector}
    (ha : c.awsAccountID = c'.awsAccountID) (hr : c.awsRegion = c'.awsRegion)
    (hc : c.counters.EC2APIcalls = c'.counters.EC2APIcalls)
    (hm : c.metrics.EC2 = c'.metrics.EC2) :
    ec2Segment c = ec2Segment c' := by
  unfold ec2Segment
  rw [ha, hr, hc, hm]

theorem quotaSegment_congr {c c' : RdsCollector}
    (hconf : c.configuration = c'.configuration)
    (ha : c.awsAccountID = c'.awsAccountID) (hr : c.awsRegion = c'.awsRegion)
    (hc : c.counters.ServiceQuotasAPICalls = c'.counters.ServiceQuotasAPICalls)
    (hm : c.metrics.ServiceQuota = c'.metrics.ServiceQuota) :
    quotaSegment c = quotaSegment c' := by
  unfold quotaSegment
  rw [hconf, ha, hr, hc, hm]

/-! ### `Collect`: output shape -/

theorem collect_fail {c : RdsCollector} {inp : ScrapeInputs} {s : String}
    (hr : inp.rdsResult = .error s) :
    (Collect c inp).1
      = [ ⟨exporterBuildInformationDesc, 1,
            [buildVersion, buildCommitSHA, buildDate, c.awsRegion]⟩,
          ⟨errorsDesc, c.counters.Errors, [c.awsRegion]⟩,
          ⟨upDesc, exporterDownStatusCode, [c.awsRegion]⟩ ] := by
  unfold Collect
  simp [fetchMetrics_snd_error hr]

theorem collect_ok {c : RdsCollector} {inp : ScrapeInputs} {r : Rds.Metrics}
    (hr : inp.rdsResult = .ok r) :
    (Collect c inp).1
      = [ ⟨exporterBuildInformationDesc, 1,
            [buildVersion, buildCommitSHA, buildDate, c.awsRegion]⟩,
          ⟨errorsDesc, c.counters.Errors, [c.awsRegion]⟩,
          ⟨upDesc, exporterUpStatusCode, [c.awsRegion]⟩ ]
        ++ rdsSegment (fetchMetrics c inp).1
        ++ cwSegment (fetchMetrics c inp).1
        ++ usageSegment (fetchMetrics c inp).1
        ++ ec2Segment (fetchMetrics c inp).1
        ++ quotaSegment (fetchMetrics c inp).1 := by
  unfold Collect
  simp [fetchMetrics_snd_ok hr]

/-! ### Membership characterizations of the emitted blocks -/

theorem cwfield_mem_emitOrder : ∀ f : CwField, f ∈ cwEmitOrder := by decide

theorem cwfield_desc_inj : ∀ f g : CwField, f.desc = g.desc → f = g := by decide

theorem cwfield_desc_mem_describe : ∀ f : CwField, f.desc ∈ describeOutput := by decide

theorem cwfield_desc_name_mem : ∀ f : CwField, f.desc.name ∈ cwDescNames := by decide

theorem mem_cwInstanceSamples {c : RdsCollector} {p : String × Cloudwatch.RdsMetrics}
    {s : Sample} (hs : s ∈ cwInstanceSamples c p) :
    ∃ (fld : CwField) (v : Value), fld.get p.2 = some v ∧
      s = ⟨fld.desc, v, [c.awsAccountID, c.awsRegion, p.1]⟩ := by
  unfold cwInstanceSamples at hs
  rcases List.mem_flatMap.mp hs with ⟨fld, _, hf⟩
  cases hget : fld.get p.2 with
  | none => rw [hget] at hf; cases hf
  | some v =>
    rw [hget] at hf
    exact ⟨fld, v, hget, by simpa using hf⟩

theorem cwInstanceSamples_mem {c : RdsCollector} {p : String × Cloudwatch.RdsMetrics}
    {fld : CwField} {v : Value} (hget : fld.get p.2 = some v) :
    (⟨fld.desc, v, [c.awsAccountID, c.awsRegion, p.1]⟩ : Sample)
      ∈ cwInstanceSamples c p := by
  unfold cwInstanceSamples
  refine List.mem_flatMap.mpr ⟨fld, cwfield_mem_emitOrder fld, ?_⟩
  rw [hget]
  exact List.mem_singleton.mpr rfl

theorem mem_rdsInstanceSamples_desc {c : RdsCollector}
    {p : String × Rds.RdsInstanceMetrics} {s : Sample}
    (hs : s ∈ rdsInstanceSamples c p) : s.desc.name ∈ rdsSegmentNames := by
  unfold rdsInstanceSamples at hs
  simp only [List.append_assoc, List.mem_append] at hs
  rcases hs with hs | hs | hs | hs | hs
  · fin_cases hs <;> simp [allocatedStorageDesc, informationDesc, maxAllocatedStorageDesc, maxIopsDesc, statusDesc, storageThroughputDesc, backupRetentionPeriodDesc, certificateValidTillDesc, ageDesc, logFilesSizeDesc, apiCallDesc, rdsSegmentNames]
  · split at hs
    · have h := List.mem_singleton.mp hs
      subst h
      simp [allocatedStorageDesc, informationDesc, maxAllocatedStorageDesc, maxIopsDesc, statusDesc, storageThroughputDesc, backupRetentionPeriodDesc, certificateValidTillDesc, ageDesc, logFilesSizeDesc, apiCallDesc, rdsSegmentNames]
    · cases hs
  · split at hs
    · have h := List.mem_singleton.mp hs
      subst h
      simp [allocatedStorageDesc, informationDesc, maxAllocatedStorageDesc, maxIopsDesc, statusDesc, storageThroughputDesc, backupRetentionPeriodDesc, certificateValidTillDesc, ageDesc, logFilesSizeDesc, apiCallDesc, rdsSegmentNames]
    · cases hs
  · split at hs
    · have h := List.mem_singleton.mp hs
      subst h
      simp [allocatedStorageDesc, informationDesc, maxAllocatedStorageDesc, maxIopsDesc, statusDesc, storageThroughputDesc, backupRetentionPeriodDesc, certificateValidTillDesc, ageDesc, logFilesSizeDesc, apiCallDesc, rdsSegmentNames]
    · cases hs
  · split at hs
    · have h := List.mem_singleton.mp hs
      subst h
      simp [allocatedStorageDesc, informationDesc, maxAllocatedStorageDesc, maxIopsDesc, statusDesc, storageThroughputDesc, backupRetentionPeriodDesc, certificateValidTillDesc, ageDesc, logFilesSizeDesc, apiCallDesc, rdsSegmentNames]
    · cases hs

theorem mem_rdsSegment_name {c : RdsCollector} {s : Sample}
    (hs : s ∈ rdsSegment c) : s.desc.name ∈ rdsSegmentNames := by
  unfold rdsSegment at hs
  rcases List.mem_cons.mp hs with h | h
  · subst h
    simp [allocatedStorageDesc, informationDesc, maxAllocatedStorageDesc, maxIopsDesc, statusDesc, storageThroughputDesc, backupRetentionPeriodDesc, certificateValidTillDesc, ageDesc, logFilesSizeDesc, apiCallDesc, rdsSegmentNames]
  · rcases List.mem_flatMap.mp h with ⟨p, _, hp⟩
    exact mem_rdsInstanceSamples_desc hp

theorem mem_cwSegment_name {c : RdsCollector} {s : Sample}
    (hs : s ∈ cwSegment c) : s.desc.name ∈ "rds_api_call_total" :: cwDescNames := by
  unfold cwSegment at hs
  rcases List.mem_cons.mp hs with h | h
  · subst h
    simp [apiCallDesc]
  · rcases List.mem_flatMap.mp h with ⟨p, _, hp⟩
    obtain ⟨fld, v, _, rfl⟩ := mem_cwInstanceSamples hp
    exact List.mem_cons_of_mem _ (cwfield_desc_name_mem fld)

theorem mem_usageSegment_name {c : RdsCollector} {s : Sample}
    (hs : s ∈ usageSegment c) : s.desc.name ∈ usageSegmentNames := by
  unfold usageSegment at hs
  split at hs
  · fin_cases hs <;>
      simp [apiCallDesc, usageAllocatedStorageDesc, usageDBInstancesDesc,
        usageManualSnapshotsDesc, usageSegmentNames]
  · cases hs

theorem mem_ec2Segment_name {c : RdsCollector} {s : Sample}
    (hs : s ∈ ec2Segment c) : s.desc.name ∈ ec2SegmentNames := by
  unfold ec2Segment at hs
  rcases List.mem_cons.mp hs with h | h
  · subst h
    simp [apiCallDesc, ec2SegmentNames]
  · rcases List.mem_flatMap.mp h with ⟨p, _, hp⟩
    fin_cases hp <;>
      simp [apiCallDesc, instanceMaximumIopsDesc, instanceMaximumThroughputDesc,
        instanceMemoryDesc, instanceVCPUDesc, ec2SegmentNames]

theorem mem_quotaSegment_name {c : RdsCollector} {s : Sample}
    (hs : s ∈ quotaSegment c) : s.desc.name ∈ quotaSegmentNames := by
  unfold quotaSegment at hs
  split at hs
  · fin_cases hs <;>
      simp [apiCallDesc, quotaDBInstancesDesc, quotaTotalStorageDesc,
        quotaMaxDBInstanceSnapshotsDesc, quotaSegmentNames]
  · cases hs

theorem rdsInstanceSamples_age_mem {c : RdsCollector}
    {p : String × Rds.RdsInstanceMetrics} {v : Value} (hage : p.2.Age = some v) :
    (⟨ageDesc, v, [c.awsAccountID, c.awsRegion, p.1]⟩ : Sample)
      ∈ rdsInstanceSamples c p := by
  unfold rdsInstanceSamples
  refine List.mem_append.mpr (Or.inl (List.mem_append.mpr (Or.inr ?_)))
  rw [hage]
  exact List.mem_singleton.mpr rfl

theorem rdsInstanceSamples_age_inv {c : RdsCollector}
    {p : String × Rds.RdsInstanceMetrics} {v : Value} {L : List String}
    (hs : (⟨ageDesc, v, L⟩ : Sample) ∈ rdsInstanceSamples c p) :
    L = [c.awsAccountID, c.awsRegion, p.1] ∧ p.2.Age = some v := by
  unfold rdsInstanceSamples at hs
  simp only [List.append_assoc, List.mem_append] at hs
  rcases hs with hs | hs | hs | hs | hs
  · simp only [List.mem_cons, List.not_mem_nil, or_false] at hs
    rcases hs with h | h | h | h | h | h | h <;>
      simp [allocatedStorageDesc, informationDesc, maxAllocatedStorageDesc,
        maxIopsDesc, statusDesc, storageThroughputDesc, backupRetentionPeriodDesc,
        ageDesc] at h
  · split at hs
    · have h := List.mem_singleton.mp hs
      simp [ageDesc] at h
    · cases hs
  · split at hs
    · have h := List.mem_singleton.mp hs
      simp [ageDesc, certificateValidTillDesc] at h
    · cases hs
  · split at hs
    · rename_i a ha
      have h := List.mem_singleton.mp hs
      simp only [Sample.mk.injEq] at h
      exact ⟨h.2.2, by rw [ha, h.2.1]⟩
    · cases hs
  · split at hs
    · have h := List.mem_singleton.mp hs
      simp [ageDesc, logFilesSizeDesc] at h
    · cases hs

theorem rdsInstanceSamples_cert_mem {c : RdsCollector}
    {p : String × Rds.RdsInstanceMetrics} {t : Int}
    (hcert : p.2.CertificateValidTill = some t) :
    (⟨certificateValidTillDesc, (t : Value), [c.awsAccountID, c.awsRegion, p.1]⟩ : Sample)
      ∈ rdsInstanceSamples c p := by
  unfold rdsInstanceSamples
  refine List.mem_append.mpr
    (Or.inl (List.mem_append.mpr (Or.inl (List.mem_append.mpr (Or.inr ?_)))))
  rw [hcert]
  exact List.mem_singleton.mpr rfl

theorem rdsInstanceSamples_cert_inv {c : RdsCollector}
    {p : String × Rds.RdsInstanceMetrics} {v : Value} {L : List String}
    (hs : (⟨certificateValidTillDesc, v, L⟩ : Sample) ∈ rdsInstanceSamples c p) :
    L = [c.awsAccountID, c.awsRegion, p.1] ∧
      ∃ t, p.2.CertificateValidTill = some t ∧ v = (t : Value) := by
  unfold rdsInstanceSamples at hs
  simp only [List.append_assoc, List.mem_append] at hs
  rcases hs with hs | hs | hs | hs | hs
  · simp only [List.mem_cons, List.not_mem_nil, or_false] at hs
    rcases hs with h | h | h | h | h | h | h <;>
      simp [allocatedStorageDesc, informationDesc, maxAllocatedStorageDesc,
        maxIopsDesc, statusDesc, storageThroughputDesc, backupRetentionPeriodDesc,
        certificateValidTillDesc] at h
  · split at hs
    · have h := List.mem_singleton.mp hs
      simp [certificateValidTillDesc] at h
    · cases hs
  · split at hs
    · rename_i t ht
      have h := List.mem_singleton.mp hs
      simp only [Sample.mk.injEq] at h
      exact ⟨h.2.2, t, ht, h.2.1⟩
    · cases hs
  · split at hs
    · have h := List.mem_singleton.mp hs
      simp [certificateValidTillDesc, ageDesc] at h
    · cases hs
  · split at hs
    · have h := List.mem_singleton.mp hs
      simp [certificateValidTillDesc, logFilesSizeDesc] at h
    · cases hs

theorem rdsInstanceSamples_log_mem {c : RdsCollector}
    {p : String × Rds.RdsInstanceMetrics} {sz : Int}
    (hlog : p.2.LogFilesSize = some sz) :
    (⟨logFilesSizeDesc, (sz : Value), [c.awsAccountID, c.awsRegion, p.1]⟩ : Sample)
      ∈ rdsInstanceSamples c p := by
  unfold rdsInstanceSamples
  refine List.mem_append.mpr (Or.inr ?_)
  rw [hlog]
  exact List.mem_singleton.mpr rfl

theorem rdsInstanceSamples_log_inv {c : RdsCollector}
    {p : String × Rds.RdsInstanceMetrics} {v : Value} {L : List String}
    (hs : (⟨logFilesSizeDesc, v, L⟩ : Sample) ∈ rdsInstanceSamples c p) :
    L = [c.awsAccountID, c.awsRegion, p.1] ∧
      ∃ sz, p.2.LogFilesSize = some sz ∧ v = (sz : Value) := by
  unfold rdsInstanceSamples at hs
  simp only [List.append_assoc, List.mem_append] at hs
  rcases hs with hs | hs | hs | hs | hs
  · simp only [List.mem_cons, List.not_mem_nil, or_false] at hs
    rcases hs with h | h | h | h | h | h | h <;>
      simp [allocatedStorageDesc, informationDesc, maxAllocatedStorageDesc,
        maxIopsDesc, statusDesc, storageThroughputDesc, backupRetentionPeriodDesc,
        logFilesSizeDesc] at h
  · split at hs
    · have h := List.mem_singleton.mp hs
      simp [logFilesSizeDesc] at h
    · cases hs
  · split at hs
    · have h := List.mem_singleton.mp hs
      simp [logFilesSizeDesc, certificateValidTillDesc] at h
    · cases hs
  · split at hs
    · have h := List.mem_singleton.mp hs
      simp [logFilesSizeDesc, ageDesc] at h
    · cases hs
  · split at hs
    · rename_i sz hsz
      have h := List.mem_singleton.mp hs
      simp only [Sample.mk.injEq] at h
      exact ⟨h.2.2, sz, hsz, h.2.1⟩
    · cases hs

/-! ### C9 helpers: the tag-label map built by `getInstanceTagLabels` -/

theorem tag_append_data (x : String) :
    ("tag_" ++ x).data = 't' :: 'a' :: 'g' :: '_' :: x.data := rfl

theorem matchesTagLabel_tag_append (x : String) :
    matchesTagLabel ("tag_" ++ x) = (!x.data.isEmpty && x.data.all isAllowedLabelChar) := rfl

theorem tag_append_ne_fixed (x : String) :
    "tag_" ++ x ≠ "aws_account_id" ∧ "tag_" ++ x ≠ "aws_region" ∧
      "tag_" ++ x ≠ "dbidentifier" := by
  refine ⟨fun h => ?_, fun h => ?_, fun h => ?_⟩ <;>
    · have h4 := congrArg String.data h
      rw [tag_append_data] at h4
      simp at h4

theorem ClearPrometheusLabel_data (k : String) :
    (ClearPrometheusLabel k).data
      = k.data.map (fun c =>
          if ('A' ≤ c ∧ c ≤ 'Z') ∨ ('a' ≤ c ∧ c ≤ 'z') ∨ ('0' ≤ c ∧ c ≤ '9') ∨ c = '_'
          then c else '_') := rfl

theorem ClearPrometheusLabel_ne_nil {k : String} (h : k ≠ "") :
    (ClearPrometheusLabel k).data ≠ [] := by
  intro hc
  apply h
  apply String.ext
  rw [ClearPrometheusLabel_data] at hc
  simpa using hc

theorem ClearPrometheusLabel_allowed (k : String) :
    ∀ ch ∈ (ClearPrometheusLabel k).data, isAllowedLabelChar ch = true := by
  intro ch hch
  rw [ClearPrometheusLabel_data] at hch
  rcases List.mem_map.mp hch with ⟨c, _, rfl⟩
  by_cases hall : ('A' ≤ c ∧ c ≤ 'Z') ∨ ('a' ≤ c ∧ c ≤ 'z') ∨ ('0' ≤ c ∧ c ≤ '9') ∨ c = '_'
  · rw [if_pos hall]
    simp only [isAllowedLabelChar]
    rcases hall with ⟨h1, h2⟩ | ⟨h1, h2⟩ | ⟨h1, h2⟩ | h1 <;> simp [h1] <;> simp [h2]
  · rw [if_neg hall]
    decide

theorem matchesTagLabel_clear {k : String} (h : k ≠ "") :
    matchesTagLabel ("tag_" ++ ClearPrometheusLabel k) = true := by
  rw [matchesTagLabel_tag_append]
  have h1 : (ClearPrometheusLabel k).data.isEmpty = false := by
    cases hd : (ClearPrometheusLabel k).data with
    | nil => exact absurd hd (ClearPrometheusLabel_ne_nil h)
    | cons a l => rfl
  rw [h1]
  simp only [Bool.not_false, Bool.true_and]
  rw [List.all_eq_true]
  exact ClearPrometheusLabel_allowed k

theorem aset_append {α : Type} (l₁ l₂ : List (String × α)) (k : String) (v : α) :
    aset (l₁ ++ l₂) k v = aset l₁ k v ++ aset l₂ k v := by
  simp [aset]

theorem aset_map_fst {α : Type} (l : List (String × α)) (k : String) (v : α) :
    (aset l k v).map Prod.fst = l.map Prod.fst := by
  induction l with
  | nil => rfl
  | cons p rest ih =>
    simp only [aset, List.map_cons] at ih ⊢
    by_cases h : p.1 = k <;> simp [h, ih]

theorem aset_eq_self {α : Type} {l : List (String × α)} {k : String} {v : α}
    (h : ∀ kv ∈ l, kv.1 ≠ k) : aset l k v = l := by
  induction l with
  | nil => rfl
  | cons p rest ih =>
    simp only [aset, List.map_cons]
    rw [if_neg (h p (List.mem_cons_self _ _))]
    have h2 := ih (fun kv hkv => h kv (List.mem_cons_of_mem _ hkv))
    simp only [aset] at h2
    rw [h2]

theorem mapSet_append_fixed {base extra : List (String × String)} {k : String} (v : String)
    (hb : ∀ kv ∈ base, kv.1 ≠ k) :
    mapSet (base ++ extra) k v = base ++ mapSet extra k v := by
  have hbn : alookup k base = none := alookup_eq_none (by
    intro hmem
    rcases List.mem_map.mp hmem with ⟨kv, hkv, hfst⟩
    exact hb kv hkv hfst)
  have h1 : alookup k (base ++ extra) = alookup k extra := by
    rw [alookup_append, hbn]
  unfold mapSet
  rw [h1]
  cases hlk : alookup k extra with
  | some w =>
    simp only [Option.isSome_some, if_true]
    rw [aset_append, aset_eq_self hb]
  | none =>
    simp only [Option.isSome_none, Bool.false_eq_true, if_false, List.append_assoc]

theorem mapSet_mem_fst (l : List (String × String)) (k v : String) :
    k ∈ (mapSet l k v).map Prod.fst := by
  unfold mapSet
  cases hlk : alookup k l with
  | some w =>
    simp only [Option.isSome_some, if_true, aset_map_fst]
    exact List.mem_map.mpr ⟨(k, w), mem_of_alookup_eq_some hlk, rfl⟩
  | none =>
    simp

theorem mapSet_fst_superset {l : List (String × String)} {k v : String} :
    ∀ k' ∈ l.map Prod.fst, k' ∈ (mapSet l k v).map Prod.fst := by
  intro k' hk'
  unfold mapSet
  cases hlk : alookup k l with
  | some w => simpa [aset_map_fst] using hk'
  | none =>
    simp only [Option.isSome_none, Bool.false_eq_true, if_false, List.map_append]
    exact List.mem_append_left _ hk'

theorem mapSet_fst_shape {l : List (String × String)} {k v : String}
    (hl : ∀ q ∈ l, ∃ x, q.1 = "tag_" ++ x) (hk : ∃ x, k = "tag_" ++ x) :
    ∀ q ∈ mapSet l k v, ∃ x, q.1 = "tag_" ++ x := by
  intro q hq
  unfold mapSet at hq
  by_cases hs : (alookup k l).isSome = true
  · rw [if_pos hs] at hq
    unfold aset at hq
    rcases List.mem_map.mp hq with ⟨q', hq', hfq⟩
    by_cases hq1 : q'.1 = k
    · rw [if_pos hq1] at hfq
      rw [← hfq]
      exact hk
    · rw [if_neg hq1] at hfq
      rw [← hfq]
      exact hl q' hq'
  · rw [if_neg hs] at hq
    rcases List.mem_append.mp hq with h | h
    · exact hl q h
    · rw [List.mem_singleton.mp h]
      exact hk

theorem tagfold_structure :
    ∀ (tags base extra : List (String × String)),
      (∀ kv ∈ base, ∀ x : String, kv.1 ≠ "tag_" ++ x) →
      (∀ kv ∈ extra, ∃ x, kv.1 = "tag_" ++ x) →
      ∃ extra' : List (String × String),
        tags.foldl (fun acc q => mapSet acc ("tag_" ++ ClearPrometheusLabel q.1) q.2)
            (base ++ extra)
          = base ++ extra' ∧
        (∀ kv ∈ extra', ∃ x, kv.1 = "tag_" ++ x) ∧
        (∀ k, k ∈ extra.map Prod.fst → k ∈ extra'.map Prod.fst) ∧
        (∀ q ∈ tags, ("tag_" ++ ClearPrometheusLabel q.1) ∈ extra'.map Prod.fst) := by
  intro tags
  induction tags with
  | nil =>
    intro base extra _ hextra
    exact ⟨extra, rfl, hextra, fun k hk => hk, fun q hq => absurd hq (List.not_mem_nil q)⟩
  | cons q tags ih =>
    intro base extra hbase hextra
    simp only [List.foldl_cons]
    rw [mapSet_append_fixed q.2 (fun kv hkv => hbase kv hkv (ClearPrometheusLabel q.1))]
    obtain ⟨extra', h1, h2, h3, h4⟩ :=
      ih base (mapSet extra ("tag_" ++ ClearPrometheusLabel q.1) q.2) hbase
        (mapSet_fst_shape hextra ⟨ClearPrometheusLabel q.1, rfl⟩)
    refine ⟨extra', h1, h2, ?_, ?_⟩
    · intro k hk
      exact h3 k (mapSet_fst_superset k hk)
    · intro q' hq'
      rcases List.mem_cons.mp hq' with h | h
      · rw [h]
        exact h3 _ (mapSet_mem_fst extra _ q.2)
      · exact h4 q' h

theorem getInstanceTagLabels_spec (c : RdsCollector) (dbid : String)
    (inst : Rds.RdsInstanceMetrics) :
    ∃ extra : List (String × String),
      (getInstanceTagLabels c dbid inst).1
        = "aws_account_id" :: "aws_region" :: "dbidentifier" :: extra.map Prod.fst ∧
      (getInstanceTagLabels c dbid inst).2
        = c.awsAccountID :: c.awsRegion :: dbid :: extra.map Prod.snd ∧
      (∀ kv ∈ extra, ∃ x, kv.1 = "tag_" ++ x) ∧
      (∀ q ∈ inst.Tags, ("tag_" ++ ClearPrometheusLabel q.1) ∈ extra.map Prod.fst) := by
  have hbase : ∀ kv ∈ ([("aws_account_id", c.awsAccountID), ("aws_region", c.awsRegion),
      ("dbidentifier", dbid)] : List (String × String)), ∀ x : String,
      kv.1 ≠ "tag_" ++ x := by
    intro kv hkv x h
    fin_cases hkv
    · exact (tag_append_ne_fixed x).1 h.symm
    · exact (tag_append_ne_fixed x).2.1 h.symm
    · exact (tag_append_ne_fixed x).2.2 h.symm
  obtain ⟨extra', h1, h2, _, h4⟩ := tagfold_structure inst.Tags
    [("aws_account_id", c.awsAccountID), ("aws_region", c.awsRegion), ("dbidentifier", dbid)]
    [] hbase (fun kv hkv => absurd hkv (List.not_mem_nil kv))
  rw [List.append_nil] at h1
  have hg0 : getInstanceTagLabels c dbid inst
      = ((inst.Tags.foldl (fun acc q => mapSet acc ("tag_" ++ ClearPrometheusLabel q.1) q.2)
          [("aws_account_id", c.awsAccountID), ("aws_region", c.awsRegion),
           ("dbidentifier", dbid)]).map Prod.fst,
         (inst.Tags.foldl (fun acc q => mapSet acc ("tag_" ++ ClearPrometheusLabel q.1) q.2)
          [("aws_account_id", c.awsAccountID), ("aws_region", c.awsRegion),
           ("dbidentifier", dbid)]).map Prod.snd) := rfl
  refine ⟨extra', ?_, ?_, h2, h4⟩
  · rw [hg0, h1]
    simp
  · rw [hg0, h1]
    simp

theorem getInstanceTagLabels_congr {c c' : RdsCollector}
    (ha : c.awsAccountID = c'.awsAccountID) (hreg : c.awsRegion = c'.awsRegion)
    (dbid : String) (inst : Rds.RdsInstanceMetrics) :
    getInstanceTagLabels c dbid inst = getInstanceTagLabels c' dbid inst := by
  unfold getInstanceTagLabels
  rw [ha, hreg]

theorem rdsInstanceSamples_tags_inv {c : RdsCollector}
    {p : String × Rds.RdsInstanceMetrics} {v : Value} {names vals : List String}
    (hs : (⟨⟨"rds_instance_tags", names⟩, v, vals⟩ : Sample) ∈ rdsInstanceSamples c p) :
    c.configuration.CollectInstanceTags = true ∧
      names = (getInstanceTagLabels c p.1 p.2).1 ∧ v = 0 ∧
      vals = (getInstanceTagLabels c p.1 p.2).2 := by
  unfold rdsInstanceSamples at hs
  simp only [List.append_assoc, List.mem_append] at hs
  rcases hs with hs | hs | hs | hs | hs
  · simp only [List.mem_cons, List.not_mem_nil, or_false] at hs
    rcases hs with h | h | h | h | h | h | h <;>
      simp [allocatedStorageDesc, informationDesc, maxAllocatedStorageDesc,
        maxIopsDesc, statusDesc, storageThroughputDesc, backupRetentionPeriodDesc] at h
  · split at hs
    · rename_i hflag
      have h := List.mem_singleton.mp hs
      simp only [Sample.mk.injEq, Desc.mk.injEq, true_and] at h
      exact ⟨hflag, h.1, h.2.1, h.2.2⟩
    · cases hs
  · split at hs
    · have h := List.mem_singleton.mp hs
      simp [certificateValidTillDesc] at h
    · cases hs
  · split at hs
    · have h := List.mem_singleton.mp hs
      simp [ageDesc] at h
    · cases hs
  · split at hs
    · have h := List.mem_singleton.mp hs
      simp [logFilesSizeDesc] at h
    · cases hs

theorem rdsInstanceSamples_tags_count {c : RdsCollector}
    {p : String × Rds.RdsInstanceMetrics}
    (htag : c.configuration.CollectInstanceTags = true) :
    (rdsInstanceSamples c p).count
      ⟨⟨"rds_instance_tags", (getInstanceTagLabels c p.1 p.2).1⟩, 0,
        (getInstanceTagLabels c p.1 p.2).2⟩ = 1 := by
  unfold rdsInstanceSamples
  rw [htag]
  cases hc : p.2.CertificateValidTill <;> cases ha : p.2.Age <;>
    cases hl : p.2.LogFilesSize <;>
    simp [List.count_append, List.count_cons, allocatedStorageDesc, informationDesc,
      maxAllocatedStorageDesc, maxIopsDesc, statusDesc, storageThroughputDesc,
      backupRetentionPeriodDesc, certificateValidTillDesc, ageDesc, logFilesSizeDesc]

theorem rdsInstanceSamples_tags_count_zero {c : RdsCollector}
    {p q : String × Rds.RdsInstanceMetrics} (hne : q.1 ≠ p.1) :
    (rdsInstanceSamples c q).count
      ⟨⟨"rds_instance_tags", (getInstanceTagLabels c p.1 p.2).1⟩, 0,
        (getInstanceTagLabels c p.1 p.2).2⟩ = 0 := by
  rw [List.count_eq_zero]
  intro hmem
  obtain ⟨_, _, _, hvals⟩ := rdsInstanceSamples_tags_inv hmem
  obtain ⟨e1, _, hv1, _, _⟩ := getInstanceTagLabels_spec c p.1 p.2
  obtain ⟨e2, _, hv2, _, _⟩ := getInstanceTagLabels_spec c q.1 q.2
  rw [hv1, hv2] at hvals
  simp only [List.cons.injEq] at hvals
  exact hne hvals.2.2.1.symm

theorem count_flatMap_one {α β : Type} [DecidableEq α] [DecidableEq β] (f : α → List β) (S : β) :
    ∀ (l : List α) (p : α), p ∈ l → l.count p = 1 → (f p).count S = 1 →
      (∀ q ∈ l, q ≠ p → (f q).count S = 0) →
      (l.flatMap f).count S = 1 := by
  intro l
  induction l with
  | nil => intro p hp; cases hp
  | cons a l ih =>
    intro p hp hone hfp hzero
    rw [List.flatMap_cons, List.count_append]
    by_cases hap : a = p
    · subst hap
      have hnotin : a ∉ l := by
        rw [List.count_cons_self] at hone
        have h0 : l.count a = 0 := by omega
        exact List.count_eq_zero.mp h0
      have hz : (l.flatMap f).count S = 0 := by
        rw [List.count_eq_zero]
        intro hS
        rcases List.mem_flatMap.mp hS with ⟨q, hq, hSq⟩
        have hqa : q ≠ a := fun h => hnotin (h ▸ hq)
        have h0 := hzero q (List.mem_cons_of_mem _ hq) hqa
        rw [List.count_eq_zero] at h0
        exact h0 hSq
      rw [hfp, hz]
    · have hp2 : p ∈ l := by
        rcases List.mem_cons.mp hp with h | h
        · exact absurd h.symm hap
        · exact h
      have hza : (f a).count S = 0 := hzero a (List.mem_cons_self _ _) hap
      rw [hza]
      have hcl : l.count p = 1 := by
        rw [List.count_cons] at hone
        simpa [hap] using hone
      rw [ih p hp2 hcl hfp (fun q hq hqp => hzero q (List.mem_cons_of_mem _ hq) hqp)]

theorem count_tags_head (c : RdsCollector) (names vals : List String) (v : Value) :
    ([ ⟨exporterBuildInformationDesc, 1,
          [buildVersion, buildCommitSHA, buildDate, c.awsRegion]⟩,
       ⟨errorsDesc, c.counters.Errors, [c.awsRegion]⟩,
       ⟨upDesc, exporterUpStatusCode, [c.awsRegion]⟩ ] : List Sample).count
      ⟨⟨"rds_instance_tags", names⟩, v, vals⟩ = 0 := by
  simp [List.count_cons, exporterBuildInformationDesc, errorsDesc, upDesc]

theorem count_tags_cw (c : RdsCollector) (names vals : List String) (v : Value) :
    (cwSegment c).count ⟨⟨"rds_instance_tags", names⟩, v, vals⟩ = 0 := by
  rw [List.count_eq_zero]
  intro hmem
  have h := mem_cwSegment_name hmem
  simp [cwDescNames] at h

theorem count_tags_usage (c : RdsCollector) (names vals : List String) (v : Value) :
    (usageSegment c).count ⟨⟨"rds_instance_tags", names⟩, v, vals⟩ = 0 := by
  rw [List.count_eq_zero]
  intro hmem
  have h := mem_usageSegment_name hmem
  simp [usageSegmentNames] at h

theorem count_tags_ec2 (c : RdsCollector) (names vals : List String) (v : Value) :
    (ec2Segment c).count ⟨⟨"rds_instance_tags", names⟩, v, vals⟩ = 0 := by
  rw [List.count_eq_zero]
  intro hmem
  have h := mem_ec2Segment_name hmem
  simp [ec2SegmentNames] at h

theorem count_tags_quota (c : RdsCollector) (names vals : List String) (v : Value) :
    (quotaSegment c).count ⟨⟨"rds_instance_tags", names⟩, v, vals⟩ = 0 := by
  rw [List.count_eq_zero]
  intro hmem
  have h := mem_quotaSegment_name hmem
  simp [quotaSegmentNames] at h

theorem count_tags_rds {c : RdsCollector} {p : String × Rds.RdsInstanceMetrics}
    (htag : c.configuration.CollectInstanceTags = true)
    (hnd : (c.metrics.RDS.Instances.map Prod.fst).Nodup)
    (hp : p ∈ c.metrics.RDS.Instances) :
    (rdsSegment c).count
      ⟨⟨"rds_instance_tags", (getInstanceTagLabels c p.1 p.2).1⟩, 0,
        (getInstanceTagLabels c p.1 p.2).2⟩ = 1 := by
  have h2 : (c.metrics.RDS.Instances.flatMap (rdsInstanceSamples c)).count
      ⟨⟨"rds_instance_tags", (getInstanceTagLabels c p.1 p.2).1⟩, 0,
        (getInstanceTagLabels c p.1 p.2).2⟩ = 1 :=
    count_flatMap_one (rdsInstanceSamples c) _ c.metrics.RDS.Instances p hp
      (List.count_eq_one_of_mem (List.Nodup.of_map _ hnd) hp)
      (rdsInstanceSamples_tags_count htag)
      (fun q hq hqp =>
        rdsInstanceSamples_tags_count_zero
          (fun h1 => hqp (List.inj_on_of_nodup_map hnd hq hp h1)))
  unfold rdsSegment
  rw [List.count_cons, h2]
  simp [apiCallDesc]

theorem collect_tags_count {c : RdsCollector} {inp : ScrapeInputs} {r : Rds.Metrics}
    (hr : inp.rdsResult = .ok r)
    (htag : c.configuration.CollectInstanceTags = true)
    (hnd : (r.Instances.map Prod.fst).Nodup)
    {p : String × Rds.RdsInstanceMetrics} (hp : p ∈ r.Instances) :
    (Collect c inp).1.count
      ⟨⟨"rds_instance_tags", (getInstanceTagLabels c p.1 p.2).1⟩, 0,
        (getInstanceTagLabels c p.1 p.2).2⟩ = 1 := by
  have hgp : getInstanceTagLabels (fetchMetrics c inp).1 p.1 p.2
      = getInstanceTagLabels c p.1 p.2 :=
    getInstanceTagLabels_congr (fetchMetrics_awsAccountID c inp)
      (fetchMetrics_awsRegion c inp) p.1 p.2
  have htag2 : (fetchMetrics c inp).1.configuration.CollectInstanceTags = true := by
    rw [fetchMetrics_configuration]
    exact htag
  have hinst : (fetchMetrics c inp).1.metrics.RDS.Instances = r.Instances := by
    rw [fetchMetrics_RDS hr]
  have hrds : (rdsSegment (fetchMetrics c inp).1).count
      ⟨⟨"rds_instance_tags", (getInstanceTagLabels c p.1 p.2).1⟩, 0,
        (getInstanceTagLabels c p.1 p.2).2⟩ = 1 := by
    rw [← hgp]
    exact count_tags_rds htag2 (by rw [hinst]; exact hnd) (by rw [hinst]; exact hp)
  rw [collect_ok hr]
  simp only [List.count_append]
  rw [count_tags_head, count_tags_cw, count_tags_usage, count_tags_ec2,
    count_tags_quota, hrds]

end Exporter

/-! ## The claims -/

namespace Claims

open Cloudwatch Exporter

/-- C3: for every scrape in which the synchronous inventory fetch fails,
`Collect` emits `up = 0` for the region and returns, so the only samples
of that scrape are `rds_exporter_build_info`, `rds_exporter_errors_total`
and `up`; when the inventory fetch succeeds, `Collect` emits `up = 1`. -/
theorem claim_C3_inventory_failure_gates_scrape :
    ∀ (c : RdsCollector) (inp : ScrapeInputs),
      (∀ s, inp.rdsResult = Except.error s →
        (Collect c inp).1
          = [ ⟨exporterBuildInformationDesc, 1,
                [buildVersion, buildCommitSHA, buildDate, c.awsRegion]⟩,
              ⟨errorsDesc, c.counters.Errors, [c.awsRegion]⟩,
              ⟨upDesc, 0, [c.awsRegion]⟩ ]) ∧
      (∀ r, inp.rdsResult = Except.ok r →
        (⟨upDesc, 1, [c.awsRegion]⟩ : Sample) ∈ (Collect c inp).1) := by
  intro c inp
  constructor
  · intro s hs
    rw [collect_fail hs]
    rfl
  · intro r hr
    rw [collect_ok hr]
    simp [exporterUpStatusCode]

theorem claim_C3_witness :
    ((Collect ⟨{}, "a", "r", {}, {}⟩ { rdsResult := Except.error "x" }).1
        = [ ⟨exporterBuildInformationDesc, 1,
              [buildVersion, buildCommitSHA, buildDate, "r"]⟩,
            ⟨errorsDesc, 0, ["r"]⟩,
            ⟨upDesc, 0, ["r"]⟩ ]) ∧
    (⟨upDesc, 1, ["r"]⟩ : Sample) ∈ (Collect ⟨{}, "a", "r", {}, {}⟩ {}).1 :=
  ⟨(claim_C3_inventory_failure_gates_scrape ⟨{}, "a", "r", {}, {}⟩ _).1 "x" rfl,
    (claim_C3_inventory_failure_gates_scrape ⟨{}, "a", "r", {}, {}⟩ _).2 {} rfl⟩

/-- C10: for every `RdsMetrics` value, known field name `f` and value `v`,
`Update f v` sets exactly the field named `f` (to `v`) and leaves the
other 23 fields unchanged; for an unknown field name it returns the
`errUnknownMetric` error and modifies nothing (the Go receiver is written
only in the recognized cases). -/
theorem claim_C10_update_frame :
    ∀ (m : Cloudwatch.RdsMetrics) (f : String) (v : Value),
      (f ∈ getCloudWatchMetricsName →
        ∃ m', m.Update f v = .ok m' ∧ fieldValue f m' = some v ∧
          ∀ g ∈ getCloudWatchMetricsName, g ≠ f →
            fieldValue g m' = fieldValue g m) ∧
      (f ∉ getCloudWatchMetricsName →
        m.Update f v = .error (.unknownMetric f)) :=
  fun m f v =>
    ⟨fun hf => update_known f hf m v, fun hf => update_unknown hf m v⟩

theorem claim_C10_witness :
    (∃ m', ({} : Cloudwatch.RdsMetrics).Update "CPUUtilization" 1 = .ok m' ∧
      fieldValue "CPUUtilization" m' = some 1 ∧
      ∀ g ∈ getCloudWatchMetricsName, g ≠ "CPUUtilization" →
        fieldValue g m' = fieldValue g ({} : Cloudwatch.RdsMetrics)) ∧
    ({} : Cloudwatch.RdsMetrics).Update "Bogus" 1 = .error (.unknownMetric "Bogus") :=
  ⟨(claim_C10_update_frame {} "CPUUtilization" 1).1 (by decide),
    (claim_C10_update_frame {} "Bogus" 1).2 (by decide)⟩

/-- C8: an unknown metric name encountered during dispatch makes
`RdsMetrics.Update` return an error wrapping `errUnknownMetric`, and
`GetRDSInstanceMetrics` propagates it as a fetch failure (in Go, the
error together with the zero `CloudWatchMetrics{}`) instead of panicking;
every known name dispatches without error.  The third conjunct exercises
the whole fetcher: a response id absent from the request map reads the
zero request, whose empty metric name is unknown. -/
theorem claim_C8_unknown_metric_is_fetch_failure :
    (∀ (m : Cloudwatch.RdsMetrics) (f : String) (v : Value),
        f ∉ getCloudWatchMetricsName →
        m.Update f v = .error (.unknownMetric f)) ∧
    (∀ (m : Cloudwatch.RdsMetrics) (f : String) (v : Value),
        f ∈ getCloudWatchMetricsName → ∃ m', m.Update f v = .ok m') ∧
    (GetRDSInstanceMetrics
        (fun _ => .ok [{ Id := "bogus", Label := "", Values := some [1] }])
        ["db-a"]
        ((generateCloudWatchQueriesForInstances ["db-a"]).map Prod.fst)
      = .error (.updateError (.unknownMetric ""))) :=
  ⟨fun m f v hf => update_unknown hf m v,
    fun m f v hf =>
      ⟨(update_known f hf m v).choose, (update_known f hf m v).choose_spec.1⟩,
    by rfl⟩

theorem claim_C8_witness :
    (({} : Cloudwatch.RdsMetrics).Update "" 1 = .error (.unknownMetric "")) ∧
    (∃ m', ({} : Cloudwatch.RdsMetrics).Update "DBLoad" 1 = .ok m') :=
  ⟨claim_C8_unknown_metric_is_fetch_failure.1 {} "" 1 (by decide),
    claim_C8_unknown_metric_is_fetch_failure.2.1 {} "DBLoad" 1 (by decide)⟩

/-- C6: for every identifier list `D`, the generated query set contains
exactly one query per (identifier position, metric name) pair, keyed by
`"<lowercased-metric-name>_<index>"`; the keys are pairwise distinct, so
every query id is looked up to exactly one (identifier, metric) pair; and
a response for such an id stores the first returned value in the field
named by the metric. -/
theorem claim_C6_query_ids_and_dispatch :
    ∀ (D : List String) (i : Nat) (hi : i < D.length) (metric : String),
      metric ∈ getCloudWatchMetricsName →
      ((queryIdFor metric i,
          generateCloudWatchQueryForInstance (queryIdFor metric i) metric
            (D.get ⟨i, hi⟩))
        ∈ generateCloudWatchQueriesForInstances D) ∧
      alookup (queryIdFor metric i) (generateCloudWatchQueriesForInstances D)
        = some (generateCloudWatchQueryForInstance (queryIdFor metric i) metric
            (D.get ⟨i, hi⟩)) ∧
      ((generateCloudWatchQueriesForInstances D).map Prod.fst).Nodup ∧
      (generateCloudWatchQueriesForInstances D).length = 24 * D.length ∧
      ∀ (lbl : String) (v : Value) (vs : List Value),
        ∃ m', processResults (generateCloudWatchQueriesForInstances D) []
            [{ Id := queryIdFor metric i, Label := lbl, Values := some (v :: vs) }]
          = .ok [(D.get ⟨i, hi⟩, m')] ∧ fieldValue metric m' = some v := by
  intro D i hi metric hm
  refine ⟨mem_queries hi hm, queries_lookup hi hm, queries_keys_nodup D,
    queries_length D, ?_⟩
  intro lbl v vs
  obtain ⟨m', hrun, hset, _⟩ :=
    processResults_single (generateCloudWatchQueriesForInstances D)
      { Id := queryIdFor metric i, Label := lbl, Values := some (v :: vs) } v vs rfl
      (generateCloudWatchQueryForInstance (queryIdFor metric i) metric (D.get ⟨i, hi⟩))
      (queries_lookup hi hm) hm
  exact ⟨m', hrun, hset⟩

theorem claim_C6_witness :
    ((queryIdFor "CPUUtilization" 0,
        generateCloudWatchQueryForInstance (queryIdFor "CPUUtilization" 0)
          "CPUUtilization" "db-a")
      ∈ generateCloudWatchQueriesForInstances ["db-a"]) ∧
    alookup (queryIdFor "CPUUtilization" 0)
        (generateCloudWatchQueriesForInstances ["db-a"])
      = some (generateCloudWatchQueryForInstance (queryIdFor "CPUUtilization" 0)
          "CPUUtilization" "db-a") ∧
    ((generateCloudWatchQueriesForInstances ["db-a"]).map Prod.fst).Nodup ∧
    (generateCloudWatchQueriesForInstances ["db-a"]).length = 24 * 1 ∧
    ∀ (lbl : String) (v : Value) (vs : List Value),
      ∃ m', processResults (generateCloudWatchQueriesForInstances ["db-a"]) []
          [{ Id := queryIdFor "CPUUtilization" 0, Label := lbl,
             Values := some (v :: vs) }]
        = .ok [("db-a", m')] ∧ fieldValue "CPUUtilization" m' = some v :=
  claim_C6_query_ids_and_dispatch ["db-a"] 0 (by decide) "CPUUtilization" (by decide)

/-- C7: every upstream `GetMetricData` request carries at most 500
queries, the issued chunks concatenate (in issue order) exactly to the
enumerated key sequence — so each generated query is covered exactly
once, including a final partial chunk — and the number of requests is
`⌈24·|D| / 500⌉`. -/
theorem claim_C7_chunk_bound_and_cover :
    ∀ (D keys : List String) (client : Client)
      (m : CloudWatchMetrics) (st : Statistics) (calls : List (List String)),
      keys.Perm ((generateCloudWatchQueriesForInstances D).map Prod.fst) →
      GetRDSInstanceMetrics client D keys = .ok (m, st, calls) →
      (∀ ch ∈ calls, ch.length ≤ MaxQueriesPerCloudwatchRequest) ∧
      calls.flatten = keys ∧
      (∀ q ∈ (generateCloudWatchQueriesForInstances D).map Prod.fst,
        calls.flatten.count q = 1) ∧
      calls.length = (24 * D.length + 499) / 500 := by
  intro D keys client m st calls hperm h
  obtain ⟨hflat, hbound, hlen, _⟩ := getRDS_run_spec h
  have hklen : keys.length = 24 * D.length := by
    rw [hperm.length_eq, List.length_map, queries_length]
  refine ⟨fun ch hch => by
      simpa [MaxQueriesPerCloudwatchRequest] using hbound ch hch,
    hflat, ?_, by rw [hlen, hklen]⟩
  intro q hq
  rw [hflat]
  have hnd : keys.Nodup := (queries_keys_nodup D).perm hperm.symm
  exact List.count_eq_one_of_mem hnd (hperm.mem_iff.mpr hq)

theorem claim_C7_witness :
    (∀ ch ∈ [(generateCloudWatchQueriesForInstances ["a"]).map Prod.fst],
      ch.length ≤ MaxQueriesPerCloudwatchRequest) ∧
    ([(generateCloudWatchQueriesForInstances ["a"]).map Prod.fst].flatten
      = (generateCloudWatchQueriesForInstances ["a"]).map Prod.fst) ∧
    (∀ q ∈ (generateCloudWatchQueriesForInstances ["a"]).map Prod.fst,
      ([(generateCloudWatchQueriesForInstances ["a"]).map Prod.fst].flatten).count q = 1) ∧
    ([(generateCloudWatchQueriesForInstances ["a"]).map Prod.fst] :
        List (List String)).length = (24 * (["a"] : List String).length + 499) / 500 :=
  claim_C7_chunk_bound_and_cover ["a"]
    ((generateCloudWatchQueriesForInstances ["a"]).map Prod.fst) trivialClient
    { Instances := [] } { CloudWatchAPICall := 1 }
    [(generateCloudWatchQueriesForInstances ["a"]).map Prod.fst]
    (List.Perm.refl _) (by rfl)

/-- C1 — the claim is refuted by the code: across `|D| = 30` the fetcher
does issue `⌈(24·30)/500⌉ = 2` time-series API calls, but the exported
counter ends at 1, not 2: `statistics.CloudWatchAPICall` is incremented
only when the final partial chunk is flushed (the per-full-chunk local
`cloudWatchAPICalls` variable is dead code), and `Collect` then exposes
`rds_api_call_total{api="cloudwatch"} = 1`. -/
theorem claim_C1_api_call_counter :
    (∀ (D keys : List String),
      keys.Perm ((generateCloudWatchQueriesForInstances D).map Prod.fst) →
      D.length = 30 →
      ∃ m st calls,
        GetRDSInstanceMetrics trivialClient D keys = .ok (m, st, calls) ∧
        calls.length = 2 ∧ st.CloudWatchAPICall = 1) ∧
    (∀ (c : RdsCollector) (inp : ScrapeInputs) (r : Rds.Metrics),
      inp.rdsResult = .ok r →
      c.counters.CloudwatchAPICalls = 0 →
      c.configuration.CollectInstanceMetrics = true →
      inp.cwApiCalls = 1 →
      (⟨apiCallDesc, 1, [c.awsAccountID, c.awsRegion, "cloudwatch"]⟩ : Sample)
        ∈ (Collect c inp).1) := by
  constructor
  · intro D keys hperm hD
    obtain ⟨st, calls, h⟩ := getRDS_trivial_ok D keys
    obtain ⟨_, _, hlen, hst⟩ := getRDS_run_spec h
    have hklen : keys.length = 720 := by
      rw [hperm.length_eq, List.length_map, queries_length, hD]
    refine ⟨_, st, calls, h, by rw [hlen, hklen], ?_⟩
    rw [hst, hklen]
    norm_num
  · intro c inp r hr h0 hflag hapi
    rw [collect_ok hr]
    have hctr : (fetchMetrics c inp).1.counters.CloudwatchAPICalls = 1 := by
      rw [fetchMetrics_CWAPI_on hr hflag, h0, hapi]
      norm_num
    have hmem :
        (⟨apiCallDesc, 1, [c.awsAccountID, c.awsRegion, "cloudwatch"]⟩ : Sample)
          ∈ cwSegment (fetchMetrics c inp).1 := by
      unfold cwSegment
      rw [hctr, fetchMetrics_awsAccountID, fetchMetrics_awsRegion]
      exact List.mem_cons_self _ _
    simp [hmem]

theorem claim_C1_witness :
    ∃ m st calls,
      GetRDSInstanceMetrics trivialClient (List.replicate 30 "db")
          ((generateCloudWatchQueriesForInstances (List.replicate 30 "db")).map
            Prod.fst)
        = .ok (m, st, calls) ∧ calls.length = 2 ∧ st.CloudWatchAPICall = 1 :=
  claim_C1_api_call_counter.1 (List.replicate 30 "db")
    ((generateCloudWatchQueriesForInstances (List.replicate 30 "db")).map Prod.fst)
    (List.Perm.refl _) (by simp)

theorem mem_rdsInstanceSamples_describe {c : RdsCollector}
    {p : String × Rds.RdsInstanceMetrics} {s : Sample}
    (hs : s ∈ rdsInstanceSamples c p) :
    s.desc ∈ describeOutput ∨ s.desc.name = "rds_instance_tags" := by
  unfold rdsInstanceSamples at hs
  simp only [List.append_assoc, List.mem_append] at hs
  rcases hs with hs | hs | hs | hs | hs
  · fin_cases hs <;> exact Or.inl (by dsimp only; decide)
  · split at hs
    · have h := List.mem_singleton.mp hs
      subst h
      exact Or.inr rfl
    · cases hs
  · split at hs
    · have h := List.mem_singleton.mp hs
      subst h
      exact Or.inl (by dsimp only; decide)
    · cases hs
  · split at hs
    · have h := List.mem_singleton.mp hs
      subst h
      exact Or.inl (by dsimp only; decide)
    · cases hs
  · split at hs
    · have h := List.mem_singleton.mp hs
      subst h
      exact Or.inl (by dsimp only; decide)
    · cases hs

/-- C2, amended: the descriptor of every sample `Collect` can emit is
yielded by `Describe`, except for the dynamic `rds_instance_tags`
descriptor, which `Describe` never sends. -/
theorem claim_C2_describe_superset_amended :
    ∀ (c : RdsCollector) (inp : ScrapeInputs) (s : Sample),
      s ∈ (Collect c inp).1 → s.desc.name ≠ "rds_instance_tags" →
      s.desc ∈ describeOutput := by
  intro c inp s hs htag
  cases hr : inp.rdsResult with
  | error e =>
    rw [collect_fail hr] at hs
    fin_cases hs <;> (dsimp only; decide)
  | ok r =>
    rw [collect_ok hr] at hs
    simp only [List.append_assoc, List.mem_append] at hs
    rcases hs with hs | hs | hs | hs | hs | hs
    · fin_cases hs <;> (dsimp only; decide)
    · unfold rdsSegment at hs
      rcases List.mem_cons.mp hs with h | h
      · subst h
        dsimp only
        decide
      · rcases List.mem_flatMap.mp h with ⟨p, _, hp⟩
        rcases mem_rdsInstanceSamples_describe hp with h | h
        · exact h
        · exact absurd h htag
    · unfold cwSegment at hs
      rcases List.mem_cons.mp hs with h | h
      · subst h
        dsimp only
        decide
      · rcases List.mem_flatMap.mp h with ⟨p, _, hp⟩
        obtain ⟨fld, v, _, rfl⟩ := mem_cwInstanceSamples hp
        exact cwfield_desc_mem_describe fld
    · unfold usageSegment at hs
      split at hs
      · fin_cases hs <;> (dsimp only; decide)
      · cases hs
    · unfold ec2Segment at hs
      rcases List.mem_cons.mp hs with h | h
      · subst h
        dsimp only
        decide
      · rcases List.mem_flatMap.mp h with ⟨p, _, hp⟩
        fin_cases hp <;> (dsimp only; decide)
    · unfold quotaSegment at hs
      split at hs
      · fin_cases hs <;> (dsimp only; decide)
      · cases hs

/-- C2 counterexample: with `collect-instance-tags` enabled and one
instance in the inventory, `Collect` emits a `rds_instance_tags` sample
whose descriptor `Describe` never yields, so Describe's output is not a
superset of the descriptors emitted by Collect. -/
theorem claim_C2_counterexample :
    ¬ (∀ s ∈ (Collect ⟨{ CollectInstanceTags := true }, "a", "r", {}, {}⟩
          { rdsResult := Except.ok { Instances := [("db", {})] } }).1,
        s.desc ∈ describeOutput) := by
  decide

theorem claim_C2_witness :
    (⟨upDesc, 1, ["r"]⟩ : Sample).desc ∈ describeOutput :=
  claim_C2_describe_superset_amended ⟨{}, "a", "r", {}, {}⟩ {} ⟨upDesc, 1, ["r"]⟩
    (by decide) (by decide)

theorem cwfield_name_not_rds : ∀ f : CwField, f.desc.name ∉ rdsSegmentNames := by
  decide

theorem cwfield_name_not_api : ∀ f : CwField, f.desc.name ≠ "rds_api_call_total" := by
  decide

theorem cwfield_name_not_usage : ∀ f : CwField, f.desc.name ∉ usageSegmentNames := by
  decide

theorem cwfield_name_not_ec2 : ∀ f : CwField, f.desc.name ∉ ec2SegmentNames := by
  decide

theorem cwfield_name_not_quota : ∀ f : CwField, f.desc.name ∉ quotaSegmentNames := by
  decide

theorem pair_eq_of_mem_nodup {α : Type} {l : List (String × α)} {p q : String × α}
    (hnd : (l.map Prod.fst).Nodup) (hp : p ∈ l) (hq : q ∈ l) (hk : p.1 = q.1) :
    p = q := by
  have h1 : alookup p.1 l = some p.2 := alookup_eq_some_of_mem hnd hp
  have h2 : alookup q.1 l = some q.2 := alookup_eq_some_of_mem hnd hq
  rw [hk] at h1
  rw [h1] at h2
  exact Prod.ext hk (Option.some.inj h2)

/-- The time-series block of a successful scrape emits one sample per
(instance, field) pair exactly when the optional field is present, and
no other block of `Collect` can produce a sample carrying a time-series
descriptor. -/
theorem collect_cw_sample_iff {c : RdsCollector} {inp : ScrapeInputs}
    {r : Rds.Metrics} {cw : Cloudwatch.CloudWatchMetrics}
    (hr : inp.rdsResult = .ok r) (hcw : inp.cwResult = .ok cw)
    (hflag : c.configuration.CollectInstanceMetrics = true)
    (hnd : (cw.Instances.map Prod.fst).Nodup) :
    ∀ p ∈ cw.Instances, ∀ (fld : CwField) (v : Value),
      (⟨fld.desc, v, [c.awsAccountID, c.awsRegion, p.1]⟩ : Sample)
        ∈ (Collect c inp).1 ↔ fld.get p.2 = some v := by
  intro p hp fld v
  have hfa : (fetchMetrics c inp).1.awsAccountID = c.awsAccountID :=
    fetchMetrics_awsAccountID c inp
  have hfr : (fetchMetrics c inp).1.awsRegion = c.awsRegion :=
    fetchMetrics_awsRegion c inp
  have hfc : (fetchMetrics c inp).1.metrics.CloudwatchInstances = cw := by
    rw [fetchMetrics_CloudwatchInstances_on hr hflag, hcw]
  constructor
  · intro hmem
    rw [collect_ok hr] at hmem
    simp only [List.append_assoc, List.cons_append, List.nil_append, List.mem_cons,
      List.mem_append] at hmem
    rcases hmem with h | h | h | h | h | h | h | h
    · have hn : fld.desc.name = "rds_exporter_build_info" :=
        congrArg (fun s : Sample => s.desc.name) h
      have hmm := cwfield_desc_name_mem fld
      rw [hn] at hmm
      exact absurd hmm (by decide)
    · have hn : fld.desc.name = "rds_exporter_errors_total" :=
        congrArg (fun s : Sample => s.desc.name) h
      have hmm := cwfield_desc_name_mem fld
      rw [hn] at hmm
      exact absurd hmm (by decide)
    · have hn : fld.desc.name = "up" :=
        congrArg (fun s : Sample => s.desc.name) h
      have hmm := cwfield_desc_name_mem fld
      rw [hn] at hmm
      exact absurd hmm (by decide)
    · exact absurd (mem_rdsSegment_name h) (by dsimp only; exact cwfield_name_not_rds fld)
    · unfold cwSegment at h
      rcases List.mem_cons.mp h with h | h
      · have hn : fld.desc.name = "rds_api_call_total" :=
          congrArg (fun s : Sample => s.desc.name) h
        exact absurd hn (cwfield_name_not_api fld)
      · rcases List.mem_flatMap.mp h with ⟨q, hq, hsmp⟩
        obtain ⟨fld', v', hget', heq⟩ := mem_cwInstanceSamples hsmp
        rw [hfc] at hq
        have hdesc : fld.desc = fld'.desc := congrArg Sample.desc heq
        have hv : v = v' := congrArg Sample.value heq
        have hkey : p.1 = q.1 := by
          have h3 := congrArg Sample.labelValues heq
          rw [hfa, hfr] at h3
          simpa using h3
        have hfld : fld = fld' := cwfield_desc_inj fld fld' hdesc
        have hpq : p = q := pair_eq_of_mem_nodup hnd hp hq hkey
        rw [hfld, hpq, hv]
        exact hget'
    · exact absurd (mem_usageSegment_name h)
        (by dsimp only; exact cwfield_name_not_usage fld)
    · exact absurd (mem_ec2Segment_name h)
        (by dsimp only; exact cwfield_name_not_ec2 fld)
    · exact absurd (mem_quotaSegment_name h)
        (by dsimp only; exact cwfield_name_not_quota fld)
  · intro hget
    rw [collect_ok hr]
    have hmem : (⟨fld.desc, v,
        [(fetchMetrics c inp).1.awsAccountID, (fetchMetrics c inp).1.awsRegion, p.1]⟩
          : Sample) ∈ cwSegment (fetchMetrics c inp).1 := by
      unfold cwSegment
      refine List.mem_cons_of_mem _ (List.mem_flatMap.mpr ⟨p, ?_, ?_⟩)
      · rw [hfc]
        exact hp
      · exact cwInstanceSamples_mem hget
    rw [hfa, hfr] at hmem
    simp only [List.append_assoc, List.mem_append]
    exact Or.inr (Or.inr (Or.inl hmem))

/-- The RDS block of a successful scrape emits the three per-instance
optional gauges (age, certificate expiry, log-file size) exactly when the
optional field is present, and no other block can produce a sample with
one of these descriptors. -/
theorem collect_rds_optional_iff {c : RdsCollector} {inp : ScrapeInputs}
    {r : Rds.Metrics} (hr : inp.rdsResult = .ok r)
    (hnd : (r.Instances.map Prod.fst).Nodup) :
    ∀ p ∈ r.Instances,
      (∀ v : Value, (⟨ageDesc, v, [c.awsAccountID, c.awsRegion, p.1]⟩ : Sample)
          ∈ (Collect c inp).1 ↔ p.2.Age = some v) ∧
      (∀ v : Value,
        (⟨certificateValidTillDesc, v, [c.awsAccountID, c.awsRegion, p.1]⟩ : Sample)
          ∈ (Collect c inp).1
        ↔ ∃ t, p.2.CertificateValidTill = some t ∧ v = (t : Value)) ∧
      (∀ v : Value,
        (⟨logFilesSizeDesc, v, [c.awsAccountID, c.awsRegion, p.1]⟩ : Sample)
          ∈ (Collect c inp).1
        ↔ ∃ sz, p.2.LogFilesSize = some sz ∧ v = (sz : Value)) := by
  intro p hp
  have hfa : (fetchMetrics c inp).1.awsAccountID = c.awsAccountID :=
    fetchMetrics_awsAccountID c inp
  have hfr : (fetchMetrics c inp).1.awsRegion = c.awsRegion :=
    fetchMetrics_awsRegion c inp
  have hfm : (fetchMetrics c inp).1.metrics.RDS = r := fetchMetrics_RDS hr
  refine ⟨fun v => ⟨?_, ?_⟩, fun v => ⟨?_, ?_⟩, fun v => ⟨?_, ?_⟩⟩
  · intro hmem
    rw [collect_ok hr] at hmem
    simp only [List.append_assoc, List.cons_append, List.nil_append, List.mem_cons,
      List.mem_append] at hmem
    rcases hmem with h | h | h | h | h | h | h | h
    · exact absurd (congrArg (fun s : Sample => s.desc.name) h) (by dsimp only; decide)
    · exact absurd (congrArg (fun s : Sample => s.desc.name) h) (by dsimp only; decide)
    · exact absurd (congrArg (fun s : Sample => s.desc.name) h) (by dsimp only; decide)
    · unfold rdsSegment at h
      rcases List.mem_cons.mp h with h | h
      · exact absurd (congrArg (fun s : Sample => s.desc.name) h) (by dsimp only; decide)
      · rcases List.mem_flatMap.mp h with ⟨q, hq, hsmp⟩
        obtain ⟨hlab, hage⟩ := rdsInstanceSamples_age_inv hsmp
        rw [hfa, hfr] at hlab
        have hkey : p.1 = q.1 := by simpa using hlab
        rw [hfm] at hq
        rw [pair_eq_of_mem_nodup hnd hp hq hkey]
        exact hage
    · exact absurd (mem_cwSegment_name h) (by dsimp only; decide)
    · exact absurd (mem_usageSegment_name h) (by dsimp only; decide)
    · exact absurd (mem_ec2Segment_name h) (by dsimp only; decide)
    · exact absurd (mem_quotaSegment_name h) (by dsimp only; decide)
  · intro hage
    rw [collect_ok hr]
    have hmem := @rdsInstanceSamples_age_mem (fetchMetrics c inp).1 p _ hage
    rw [hfa, hfr] at hmem
    have hseg : (⟨ageDesc, v, [c.awsAccountID, c.awsRegion, p.1]⟩ : Sample)
        ∈ rdsSegment (fetchMetrics c inp).1 := by
      unfold rdsSegment
      refine List.mem_cons_of_mem _ (List.mem_flatMap.mpr ⟨p, ?_, hmem⟩)
      rw [hfm]
      exact hp
    simp only [List.append_assoc, List.mem_append]
    exact Or.inr (Or.inl hseg)
  · intro hmem
    rw [collect_ok hr] at hmem
    simp only [List.append_assoc, List.cons_append, List.nil_append, List.mem_cons,
      List.mem_append] at hmem
    rcases hmem with h | h | h | h | h | h | h | h
    · exact absurd (congrArg (fun s : Sample => s.desc.name) h) (by dsimp only; decide)
    · exact absurd (congrArg (fun s : Sample => s.desc.name) h) (by dsimp only; decide)
    · exact absurd (congrArg (fun s : Sample => s.desc.name) h) (by dsimp only; decide)
    · unfold rdsSegment at h
      rcases List.mem_cons.mp h with h | h
      · exact absurd (congrArg (fun s : Sample => s.desc.name) h) (by dsimp only; decide)
      · rcases List.mem_flatMap.mp h with ⟨q, hq, hsmp⟩
        obtain ⟨hlab, hcert⟩ := rdsInstanceSamples_cert_inv hsmp
        rw [hfa, hfr] at hlab
        have hkey : p.1 = q.1 := by simpa using hlab
        rw [hfm] at hq
        rw [pair_eq_of_mem_nodup hnd hp hq hkey]
        exact hcert
    · exact absurd (mem_cwSegment_name h) (by dsimp only; decide)
    · exact absurd (mem_usageSegment_name h) (by dsimp only; decide)
    · exact absurd (mem_ec2Segment_name h) (by dsimp only; decide)
    · exact absurd (mem_quotaSegment_name h) (by dsimp only; decide)
  · intro hcert
    obtain ⟨t, ht, rfl⟩ := hcert
    rw [collect_ok hr]
    have hmem := @rdsInstanceSamples_cert_mem (fetchMetrics c inp).1 p _ ht
    rw [hfa, hfr] at hmem
    have hseg : (⟨certificateValidTillDesc, (t : Value),
        [c.awsAccountID, c.awsRegion, p.1]⟩ : Sample)
        ∈ rdsSegment (fetchMetrics c inp).1 := by
      unfold rdsSegment
      refine List.mem_cons_of_mem _ (List.mem_flatMap.mpr ⟨p, ?_, hmem⟩)
      rw [hfm]
      exact hp
    simp only [List.append_assoc, List.mem_append]
    exact Or.inr (Or.inl hseg)
  · intro hmem
    rw [collect_ok hr] at hmem
    simp only [List.append_assoc, List.cons_append, List.nil_append, List.mem_cons,
      List.mem_append] at hmem
    rcases hmem with h | h | h | h | h | h | h | h
    · exact absurd (congrArg (fun s : Sample => s.desc.name) h) (by dsimp only; decide)
    · exact absurd (congrArg (fun s : Sample => s.desc.name) h) (by dsimp only; decide)
    · exact absurd (congrArg (fun s : Sample => s.desc.name) h) (by dsimp only; decide)
    · unfold rdsSegment at h
      rcases List.mem_cons.mp h with h | h
      · exact absurd (congrArg (fun s : Sample => s.desc.name) h) (by dsimp only; decide)
      · rcases List.mem_flatMap.mp h with ⟨q, hq, hsmp⟩
        obtain ⟨hlab, hlog⟩ := rdsInstanceSamples_log_inv hsmp
        rw [hfa, hfr] at hlab
        have hkey : p.1 = q.1 := by simpa using hlab
        rw [hfm] at hq
        rw [pair_eq_of_mem_nodup hnd hp hq hkey]
        exact hlog
    · exact absurd (mem_cwSegment_name h) (by dsimp only; decide)
    · exact absurd (mem_usageSegment_name h) (by dsimp only; decide)
    · exact absurd (mem_ec2Segment_name h) (by dsimp only; decide)
    · exact absurd (mem_quotaSegment_name h) (by dsimp only; decide)
  · intro hlog
    obtain ⟨sz, hsz, rfl⟩ := hlog
    rw [collect_ok hr]
    have hmem := @rdsInstanceSamples_log_mem (fetchMetrics c inp).1 p _ hsz
    rw [hfa, hfr] at hmem
    have hseg : (⟨logFilesSizeDesc, (sz : Value),
        [c.awsAccountID, c.awsRegion, p.1]⟩ : Sample)
        ∈ rdsSegment (fetchMetrics c inp).1 := by
      unfold rdsSegment
      refine List.mem_cons_of_mem _ (List.mem_flatMap.mpr ⟨p, ?_, hmem⟩)
      rw [hfm]
      exact hp
    simp only [List.append_assoc, List.mem_append]
    exact Or.inr (Or.inl hseg)

/-- C5: a per-instance sample is emitted for an optional field (any of
the 24 time-series fields, and the inventory age, certificate-expiry and
log-file-size fields) if and only if the optional value is present — no
sentinel zero is ever emitted for a missing measurement — and on the
fetcher side results whose series is nil or empty leave every field of
every instance unset. -/
theorem claim_C5_no_sentinel :
    (∀ (c : RdsCollector) (inp : ScrapeInputs) (r : Rds.Metrics)
        (cw : Cloudwatch.CloudWatchMetrics),
      inp.rdsResult = .ok r → inp.cwResult = .ok cw →
      c.configuration.CollectInstanceMetrics = true →
      (cw.Instances.map Prod.fst).Nodup →
      ∀ p ∈ cw.Instances, ∀ (fld : CwField) (v : Value),
        (⟨fld.desc, v, [c.awsAccountID, c.awsRegion, p.1]⟩ : Sample)
          ∈ (Collect c inp).1 ↔ fld.get p.2 = some v) ∧
    (∀ (c : RdsCollector) (inp : ScrapeInputs) (r : Rds.Metrics),
      inp.rdsResult = .ok r → (r.Instances.map Prod.fst).Nodup →
      ∀ p ∈ r.Instances,
        (∀ v : Value, (⟨ageDesc, v, [c.awsAccountID, c.awsRegion, p.1]⟩ : Sample)
            ∈ (Collect c inp).1 ↔ p.2.Age = some v) ∧
        (∀ v : Value,
          (⟨certificateValidTillDesc, v, [c.awsAccountID, c.awsRegion, p.1]⟩ : Sample)
            ∈ (Collect c inp).1
          ↔ ∃ t, p.2.CertificateValidTill = some t ∧ v = (t : Value)) ∧
        (∀ v : Value,
          (⟨logFilesSizeDesc, v, [c.awsAccountID, c.awsRegion, p.1]⟩ : Sample)
            ∈ (Collect c inp).1
          ↔ ∃ sz, p.2.LogFilesSize = some sz ∧ v = (sz : Value))) ∧
    (∀ (requests : List (String × CloudWatchMetricRequest))
        (results : List MetricDataResult) (ms : List (String × Cloudwatch.RdsMetrics)),
      (∀ x ∈ results, x.Values = none ∨ x.Values = some []) →
      ∃ ms', processResults requests ms results = .ok ms' ∧
        ∀ dbid f, fieldValue f ((alookup dbid ms').getD {})
          = fieldValue f ((alookup dbid ms).getD {})) :=
  ⟨fun _ _ _ _ hr hcw hflag hnd => collect_cw_sample_iff hr hcw hflag hnd,
    fun _ _ _ hr hnd => collect_rds_optional_iff hr hnd,
    fun requests results ms hall => processResults_no_values requests results ms hall⟩

theorem claim_C5_witness :
    (⟨CwField.cpuUtilization.desc, 1, ["a", "r", "db"]⟩ : Sample)
      ∈ (Collect ⟨{ CollectInstanceMetrics := true }, "a", "r", {}, {}⟩
          { cwResult :=
              Except.ok { Instances := [("db", { CPUUtilization := some 1 })] } }).1
      ↔ CwField.cpuUtilization.get { CPUUtilization := some 1 } = some 1 :=
  claim_C5_no_sentinel.1 ⟨{ CollectInstanceMetrics := true }, "a", "r", {}, {}⟩
    { cwResult := Except.ok { Instances := [("db", { CPUUtilization := some 1 })] } }
    {} { Instances := [("db", { CPUUtilization := some 1 })] }
    rfl rfl rfl (by decide) ("db", { CPUUtilization := some 1 })
    (List.mem_singleton.mpr rfl) CwField.cpuUtilization 1

theorem rdsSegment_fetch_eq {c : RdsCollector} {inp inp' : ScrapeInputs}
    {r : Rds.Metrics} (hr : inp.rdsResult = .ok r) (hr' : inp'.rdsResult = .ok r)
    (hapi : inp.rdsApiCalls = inp'.rdsApiCalls) :
    rdsSegment (fetchMetrics c inp).1 = rdsSegment (fetchMetrics c inp').1 := by
  apply rdsSegment_congr
  · rw [fetchMetrics_configuration, fetchMetrics_configuration]
  · rw [fetchMetrics_awsAccountID, fetchMetrics_awsAccountID]
  · rw [fetchMetrics_awsRegion, fetchMetrics_awsRegion]
  · rw [fetchMetrics_RDSAPIcalls hr, fetchMetrics_RDSAPIcalls hr', hapi]
  · rw [fetchMetrics_RDS hr, fetchMetrics_RDS hr']

theorem cwSegment_fetch_eq {c : RdsCollector} {inp inp' : ScrapeInputs}
    {r : Rds.Metrics} (hr : inp.rdsResult = .ok r) (hr' : inp'.rdsResult = .ok r)
    (hres : inp.cwResult = inp'.cwResult) (hapi : inp.cwApiCalls = inp'.cwApiCalls) :
    cwSegment (fetchMetrics c inp).1 = cwSegment (fetchMetrics c inp').1 := by
  apply cwSegment_congr
  · rw [fetchMetrics_awsAccountID, fetchMetrics_awsAccountID]
  · rw [fetchMetrics_awsRegion, fetchMetrics_awsRegion]
  · cases hm : c.configuration.CollectInstanceMetrics with
    | false => rw [fetchMetrics_CWAPI_off hr hm, fetchMetrics_CWAPI_off hr' hm]
    | true => rw [fetchMetrics_CWAPI_on hr hm, fetchMetrics_CWAPI_on hr' hm, hapi]
  · cases hm : c.configuration.CollectInstanceMetrics with
    | false =>
      rw [fetchMetrics_CloudwatchInstances_off hr hm,
        fetchMetrics_CloudwatchInstances_off hr' hm]
    | true =>
      rw [fetchMetrics_CloudwatchInstances_on hr hm,
        fetchMetrics_CloudwatchInstances_on hr' hm, hres]

theorem usageSegment_fetch_eq {c : RdsCollector} {inp inp' : ScrapeInputs}
    (hres : inp.usageResult = inp'.usageResult)
    (hapi : inp.usageApiCalls = inp'.usageApiCalls) :
    usageSegment (fetchMetrics c inp).1 = usageSegment (fetchMetrics c inp').1 := by
  apply usageSegment_congr
  · rw [fetchMetrics_configuration, fetchMetrics_configuration]
  · rw [fetchMetrics_awsAccountID, fetchMetrics_awsAccountID]
  · rw [fetchMetrics_awsRegion, fetchMetrics_awsRegion]
  · cases hu : c.configuration.CollectUsages with
    | false => rw [fetchMetrics_UsageAPI_off inp hu, fetchMetrics_UsageAPI_off inp' hu]
    | true =>
      rw [fetchMetrics_UsageAPI_on inp hu, fetchMetrics_UsageAPI_on inp' hu, hapi]
  · cases hu : c.configuration.CollectUsages with
    | false =>
      rw [fetchMetrics_CloudWatchUsage_off inp hu,
        fetchMetrics_CloudWatchUsage_off inp' hu]
    | true =>
      rw [fetchMetrics_CloudWatchUsage_on inp hu,
        fetchMetrics_CloudWatchUsage_on inp' hu, hres]

theorem ec2Segment_fetch_eq {c : RdsCollector} {inp inp' : ScrapeInputs}
    {r : Rds.Metrics} (hr : inp.rdsResult = .ok r) (hr' : inp'.rdsResult = .ok r)
    (hres : inp.ec2Result = inp'.ec2Result) (hapi : inp.ec2ApiCalls = inp'.ec2ApiCalls) :
    ec2Segment (fetchMetrics c inp).1 = ec2Segment (fetchMetrics c inp').1 := by
  apply ec2Segment_congr
  · rw [fetchMetrics_awsAccountID, fetchMetrics_awsAccountID]
  · rw [fetchMetrics_awsRegion, fetchMetrics_awsRegion]
  · cases ht : c.configuration.CollectInstanceTypes with
    | false => rw [fetchMetrics_EC2API_off_flag hr ht, fetchMetrics_EC2API_off_flag hr' ht]
    | true =>
      cases hne : (getUniqTypeAndIdentifiers r.Instances).2.isEmpty with
      | true =>
        rw [fetchMetrics_EC2API_off_empty hr hne, fetchMetrics_EC2API_off_empty hr' hne]
      | false =>
        rw [fetchMetrics_EC2API_on hr ht hne, fetchMetrics_EC2API_on hr' ht hne, hapi]
  · cases ht : c.configuration.CollectInstanceTypes with
    | false => rw [fetchMetrics_EC2_off_flag hr ht, fetchMetrics_EC2_off_flag hr' ht]
    | true =>
      cases hne : (getUniqTypeAndIdentifiers r.Instances).2.isEmpty with
      | true =>
        rw [fetchMetrics_EC2_off_empty hr hne, fetchMetrics_EC2_off_empty hr' hne]
      | false =>
        rw [fetchMetrics_EC2_on hr ht hne, fetchMetrics_EC2_on hr' ht hne, hres]

theorem quotaSegment_fetch_eq {c : RdsCollector} {inp inp' : ScrapeInputs}
    (hres : inp.quotasResult = inp'.quotasResult)
    (hapi : inp.quotasApiCalls = inp'.quotasApiCalls) :
    quotaSegment (fetchMetrics c inp).1 = quotaSegment (fetchMetrics c inp').1 := by
  apply quotaSegment_congr
  · rw [fetchMetrics_configuration, fetchMetrics_configuration]
  · rw [fetchMetrics_awsAccountID, fetchMetrics_awsAccountID]
  · rw [fetchMetrics_awsRegion, fetchMetrics_awsRegion]
  · cases hq : c.configuration.CollectQuotas with
    | false => rw [fetchMetrics_SQAPI_off inp hq, fetchMetrics_SQAPI_off inp' hq]
    | true => rw [fetchMetrics_SQAPI_on inp hq, fetchMetrics_SQAPI_on inp' hq, hapi]
  · cases hq : c.configuration.CollectQuotas with
    | false =>
      rw [fetchMetrics_ServiceQuota_off inp hq, fetchMetrics_ServiceQuota_off inp' hq]
    | true =>
      rw [fetchMetrics_ServiceQuota_on inp hq, fetchMetrics_ServiceQuota_on inp' hq, hres]

/-- C4: a failure of exactly one non-inventory fetcher (quota, usage,
instance-type, or time-series) does not abort the scrape (`up = 1` is
still emitted), increments the error counter by exactly one (replacing
the failure by a success leaves the counter unchanged), and leaves the
samples produced from the other fetchers' blocks exactly as they would
be had that fetcher succeeded. -/
theorem claim_C4_failure_isolation :
    (∀ (c : RdsCollector) (inp : ScrapeInputs) (r : Rds.Metrics) (e : String)
        (q : ServiceQuotas.Metrics),
      inp.rdsResult = .ok r →
      c.configuration.CollectQuotas = true →
      inp.quotasResult = .error e →
      (∃ u, inp.usageResult = .ok u) → (∃ w, inp.ec2Result = .ok w) →
      (∃ x, inp.cwResult = .ok x) →
      ((⟨upDesc, 1, [c.awsRegion]⟩ : Sample) ∈ (Collect c inp).1) ∧
      (fetchMetrics c inp).1.counters.Errors = c.counters.Errors + 1 ∧
      (fetchMetrics c { inp with quotasResult := .ok q }).1.counters.Errors
        = c.counters.Errors ∧
      rdsSegment (fetchMetrics c inp).1
        = rdsSegment (fetchMetrics c { inp with quotasResult := .ok q }).1 ∧
      cwSegment (fetchMetrics c inp).1
        = cwSegment (fetchMetrics c { inp with quotasResult := .ok q }).1 ∧
      usageSegment (fetchMetrics c inp).1
        = usageSegment (fetchMetrics c { inp with quotasResult := .ok q }).1 ∧
      ec2Segment (fetchMetrics c inp).1
        = ec2Segment (fetchMetrics c { inp with quotasResult := .ok q }).1) ∧
    (∀ (c : RdsCollector) (inp : ScrapeInputs) (r : Rds.Metrics) (e : String)
        (u : Cloudwatch.UsageMetrics),
      inp.rdsResult = .ok r →
      c.configuration.CollectUsages = true →
      inp.usageResult = .error e →
      (∃ qv, inp.quotasResult = .ok qv) → (∃ w, inp.ec2Result = .ok w) →
      (∃ x, inp.cwResult = .ok x) →
      ((⟨upDesc, 1, [c.awsRegion]⟩ : Sample) ∈ (Collect c inp).1) ∧
      (fetchMetrics c inp).1.counters.Errors = c.counters.Errors + 1 ∧
      (fetchMetrics c { inp with usageResult := .ok u }).1.counters.Errors
        = c.counters.Errors ∧
      rdsSegment (fetchMetrics c inp).1
        = rdsSegment (fetchMetrics c { inp with usageResult := .ok u }).1 ∧
      cwSegment (fetchMetrics c inp).1
        = cwSegment (fetchMetrics c { inp with usageResult := .ok u }).1 ∧
      ec2Segment (fetchMetrics c inp).1
        = ec2Segment (fetchMetrics c { inp with usageResult := .ok u }).1 ∧
      quotaSegment (fetchMetrics c inp).1
        = quotaSegment (fetchMetrics c { inp with usageResult := .ok u }).1) ∧
    (∀ (c : RdsCollector) (inp : ScrapeInputs) (r : Rds.Metrics) (e : String)
        (w : Ec2.Metrics),
      inp.rdsResult = .ok r →
      c.configuration.CollectInstanceTypes = true →
      (getUniqTypeAndIdentifiers r.Instances).2.isEmpty = false →
      inp.ec2Result = .error e →
      (∃ qv, inp.quotasResult = .ok qv) → (∃ u, inp.usageResult = .ok u) →
      (∃ x, inp.cwResult = .ok x) →
      ((⟨upDesc, 1, [c.awsRegion]⟩ : Sample) ∈ (Collect c inp).1) ∧
      (fetchMetrics c inp).1.counters.Errors = c.counters.Errors + 1 ∧
      (fetchMetrics c { inp with ec2Result := .ok w }).1.counters.Errors
        = c.counters.Errors ∧
      rdsSegment (fetchMetrics c inp).1
        = rdsSegment (fetchMetrics c { inp with ec2Result := .ok w }).1 ∧
      cwSegment (fetchMetrics c inp).1
        = cwSegment (fetchMetrics c { inp with ec2Result := .ok w }).1 ∧
      usageSegment (fetchMetrics c inp).1
        = usageSegment (fetchMetrics c { inp with ec2Result := .ok w }).1 ∧
      quotaSegment (fetchMetrics c inp).1
        = quotaSegment (fetchMetrics c { inp with ec2Result := .ok w }).1) ∧
    (∀ (c : RdsCollector) (inp : ScrapeInputs) (r : Rds.Metrics) (e : String)
        (x : Cloudwatch.CloudWatchMetrics),
      inp.rdsResult = .ok r →
      c.configuration.CollectInstanceMetrics = true →
      inp.cwResult = .error e →
      (∃ qv, inp.quotasResult = .ok qv) → (∃ u, inp.usageResult = .ok u) →
      (∃ w, inp.ec2Result = .ok w) →
      ((⟨upDesc, 1, [c.awsRegion]⟩ : Sample) ∈ (Collect c inp).1) ∧
      (fetchMetrics c inp).1.counters.Errors = c.counters.Errors + 1 ∧
      (fetchMetrics c { inp with cwResult := .ok x }).1.counters.Errors
        = c.counters.Errors ∧
      rdsSegment (fetchMetrics c inp).1
        = rdsSegment (fetchMetrics c { inp with cwResult := .ok x }).1 ∧
      usageSegment (fetchMetrics c inp).1
        = usageSegment (fetchMetrics c { inp with cwResult := .ok x }).1 ∧
      ec2Segment (fetchMetrics c inp).1
        = ec2Segment (fetchMetrics c { inp with cwResult := .ok x }).1 ∧
      quotaSegment (fetchMetrics c inp).1
        = quotaSegment (fetchMetrics c { inp with cwResult := .ok x }).1) := by
  refine ⟨?_, ?_, ?_, ?_⟩
  · rintro c inp r e q hr hq hqe ⟨u, hu⟩ ⟨w, hw⟩ ⟨x, hx⟩
    refine ⟨?_, ?_, ?_, ?_, ?_, ?_, ?_⟩
    · rw [collect_ok hr]
      simp [exporterUpStatusCode]
    · rw [fetchMetrics_Errors hr]
      simp [hq, hqe, hu, hw, hx]
    · rw [@fetchMetrics_Errors c { inp with quotasResult := .ok q } r hr]
      simp [hq, hu, hw, hx]
    · exact rdsSegment_fetch_eq hr hr rfl
    · exact cwSegment_fetch_eq hr hr rfl rfl
    · exact usageSegment_fetch_eq rfl rfl
    · exact ec2Segment_fetch_eq hr hr rfl rfl
  · rintro c inp r e u hr hfl hue ⟨qv, hq⟩ ⟨w, hw⟩ ⟨x, hx⟩
    refine ⟨?_, ?_, ?_, ?_, ?_, ?_, ?_⟩
    · rw [collect_ok hr]
      simp [exporterUpStatusCode]
    · rw [fetchMetrics_Errors hr]
      simp [hfl, hue, hq, hw, hx]
    · rw [@fetchMetrics_Errors c { inp with usageResult := .ok u } r hr]
      simp [hfl, hq, hw, hx]
    · exact rdsSegment_fetch_eq hr hr rfl
    · exact cwSegment_fetch_eq hr hr rfl rfl
    · exact ec2Segment_fetch_eq hr hr rfl rfl
    · exact quotaSegment_fetch_eq rfl rfl
  · rintro c inp r e w hr hfl hne hee ⟨qv, hq⟩ ⟨u, hu⟩ ⟨x, hx⟩
    refine ⟨?_, ?_, ?_, ?_, ?_, ?_, ?_⟩
    · rw [collect_ok hr]
      simp [exporterUpStatusCode]
    · rw [fetchMetrics_Errors hr]
      simp [hfl, hne, hee, hq, hu, hx]
    · rw [@fetchMetrics_Errors c { inp with ec2Result := .ok w } r hr]
      simp [hfl, hne, hq, hu, hx]
    · exact rdsSegment_fetch_eq hr hr rfl
    · exact cwSegment_fetch_eq hr hr rfl rfl
    · exact usageSegment_fetch_eq rfl rfl
    · exact quotaSegment_fetch_eq rfl rfl
  · rintro c inp r e x hr hfl hxe ⟨qv, hq⟩ ⟨u, hu⟩ ⟨w, hw⟩
    refine ⟨?_, ?_, ?_, ?_, ?_, ?_, ?_⟩
    · rw [collect_ok hr]
      simp [exporterUpStatusCode]
    · rw [fetchMetrics_Errors hr]
      simp [hfl, hxe, hq, hu, hw]
    · rw [@fetchMetrics_Errors c { inp with cwResult := .ok x } r hr]
      simp [hfl, hq, hu, hw]
    · exact rdsSegment_fetch_eq hr hr rfl
    · exact usageSegment_fetch_eq rfl rfl
    · exact ec2Segment_fetch_eq hr hr rfl rfl
    · exact quotaSegment_fetch_eq rfl rfl

theorem claim_C4_witness :
    ((⟨upDesc, 1, ["r"]⟩ : Sample)
      ∈ (Collect ⟨{ CollectQuotas := true }, "a", "r", {}, {}⟩
          { quotasResult := Except.error "boom" }).1) ∧
    (fetchMetrics ⟨{ CollectQuotas := true }, "a", "r", {}, {}⟩
        { quotasResult := Except.error "boom" }).1.counters.Errors = 0 + 1 ∧
    (fetchMetrics ⟨{ CollectQuotas := true }, "a", "r", {}, {}⟩
        ({ quotasResult := Except.ok {} } : ScrapeInputs)).1.counters.Errors
      = 0 ∧
    rdsSegment (fetchMetrics ⟨{ CollectQuotas := true }, "a", "r", {}, {}⟩
        { quotasResult := Except.error "boom" }).1
      = rdsSegment (fetchMetrics ⟨{ CollectQuotas := true }, "a", "r", {}, {}⟩
        ({ quotasResult := Except.ok {} } : ScrapeInputs)).1 ∧
    cwSegment (fetchMetrics ⟨{ CollectQuotas := true }, "a", "r", {}, {}⟩
        { quotasResult := Except.error "boom" }).1
      = cwSegment (fetchMetrics ⟨{ CollectQuotas := true }, "a", "r", {}, {}⟩
        ({ quotasResult := Except.ok {} } : ScrapeInputs)).1 ∧
    usageSegment (fetchMetrics ⟨{ CollectQuotas := true }, "a", "r", {}, {}⟩
        { quotasResult := Except.error "boom" }).1
      = usageSegment (fetchMetrics ⟨{ CollectQuotas := true }, "a", "r", {}, {}⟩
        ({ quotasResult := Except.ok {} } : ScrapeInputs)).1 ∧
    ec2Segment (fetchMetrics ⟨{ CollectQuotas := true }, "a", "r", {}, {}⟩
        { quotasResult := Except.error "boom" }).1
      = ec2Segment (fetchMetrics ⟨{ CollectQuotas := true }, "a", "r", {}, {}⟩
        ({ quotasResult := Except.ok {} } : ScrapeInputs)).1 :=
  claim_C4_failure_isolation.1 ⟨{ CollectQuotas := true }, "a", "r", {}, {}⟩
    { quotasResult := Except.error "boom" } {} "boom" {} rfl rfl rfl
    ⟨{}, rfl⟩ ⟨{}, rfl⟩ ⟨{}, rfl⟩


/-- C9 (amended): when `collect-instance-tags` is enabled and the inventory
identifiers are distinct, `Collect` emits for every inventory instance
exactly one `rds_instance_tags` gauge sample of value 0; its label names
are the three fixed labels followed by one `tag_`-prefixed entry, and every
tag key contributes its sanitized `tag_`-label (each character outside
`[A-Za-z0-9_]` replaced by `_`); for every NONEMPTY tag key the emitted
label name matches `^tag_[A-Za-z0-9_]+$`; and a `tag_`-prefixed label never
collides with a fixed label.  The amendment: the spec claims the match for
every tag key, but the empty tag key is sanitized to the bare label
`tag_`, which the anchored pattern rejects (see the counterexample). -/
theorem claim_C9_tag_labels_amended (c : RdsCollector) (inp : ScrapeInputs)
    (r : Rds.Metrics) (hr : inp.rdsResult = Except.ok r)
    (htag : c.configuration.CollectInstanceTags = true)
    (hnd : (r.Instances.map Prod.fst).Nodup)
    (p : String × Rds.RdsInstanceMetrics) (hp : p ∈ r.Instances) :
    ((Collect c inp).1.count
        ⟨⟨"rds_instance_tags", (getInstanceTagLabels c p.1 p.2).1⟩, 0,
          (getInstanceTagLabels c p.1 p.2).2⟩ = 1) ∧
    (∃ extra : List (String × String),
      (getInstanceTagLabels c p.1 p.2).1
        = "aws_account_id" :: "aws_region" :: "dbidentifier" :: extra.map Prod.fst ∧
      (getInstanceTagLabels c p.1 p.2).2
        = c.awsAccountID :: c.awsRegion :: p.1 :: extra.map Prod.snd ∧
      (∀ kv ∈ extra, ∃ x, kv.1 = "tag_" ++ x) ∧
      (∀ q ∈ p.2.Tags, ("tag_" ++ ClearPrometheusLabel q.1) ∈ extra.map Prod.fst)) ∧
    (∀ q ∈ p.2.Tags, q.1 ≠ "" →
      matchesTagLabel ("tag_" ++ ClearPrometheusLabel q.1) = true) ∧
    (∀ x : String,
      "tag_" ++ x ∉ (["aws_account_id", "aws_region", "dbidentifier"] : List String)) := by
  refine ⟨collect_tags_count hr htag hnd hp, getInstanceTagLabels_spec c p.1 p.2, ?_, ?_⟩
  · intro q _ hq
    exact matchesTagLabel_clear hq
  · intro x hx
    simp only [List.mem_cons, List.not_mem_nil, or_false] at hx
    rcases hx with h | h | h
    · exact (tag_append_ne_fixed x).1 h
    · exact (tag_append_ne_fixed x).2.1 h
    · exact (tag_append_ne_fixed x).2.2 h

/-- C9 counterexample: an instance carrying the empty tag key.  Its key is
sanitized to the bare label `tag_`, which `Collect` emits on the
`rds_instance_tags` sample although it does not match
`^tag_[A-Za-z0-9_]+$` — refuting the claim as stated for arbitrary tag
keys. -/
theorem claim_C9_counterexample :
    ("tag_" ∈ (getInstanceTagLabels ⟨{ CollectInstanceTags := true }, "a", "r", {}, {}⟩
        "db" { Tags := [("", "v")] }).1) ∧
    matchesTagLabel "tag_" = false ∧
    ((⟨⟨"rds_instance_tags",
        (getInstanceTagLabels ⟨{ CollectInstanceTags := true }, "a", "r", {}, {}⟩
          "db" { Tags := [("", "v")] }).1⟩, 0,
        (getInstanceTagLabels ⟨{ CollectInstanceTags := true }, "a", "r", {}, {}⟩
          "db" { Tags := [("", "v")] }).2⟩ : Sample)
      ∈ (Collect ⟨{ CollectInstanceTags := true }, "a", "r", {}, {}⟩
          { rdsResult := Except.ok { Instances := [("db", { Tags := [("", "v")] })] } }).1) := by
  decide

theorem claim_C9_witness :
    ((Collect ⟨{ CollectInstanceTags := true }, "a", "r", {}, {}⟩
        { rdsResult := Except.ok
            { Instances := [("db", { Tags := [("team", "core")] })] } }).1.count
        ⟨⟨"rds_instance_tags",
          (getInstanceTagLabels ⟨{ CollectInstanceTags := true }, "a", "r", {}, {}⟩
            "db" { Tags := [("team", "core")] }).1⟩, 0,
          (getInstanceTagLabels ⟨{ CollectInstanceTags := true }, "a", "r", {}, {}⟩
            "db" { Tags := [("team", "core")] }).2⟩ = 1) ∧
    (∃ extra : List (String × String),
      (getInstanceTagLabels ⟨{ CollectInstanceTags := true }, "a", "r", {}, {}⟩
          "db" { Tags := [("team", "core")] }).1
        = "aws_account_id" :: "aws_region" :: "dbidentifier" :: extra.map Prod.fst ∧
      (getInstanceTagLabels ⟨{ CollectInstanceTags := true }, "a", "r", {}, {}⟩
          "db" { Tags := [("team", "core")] }).2
        = "a" :: "r" :: "db" :: extra.map Prod.snd ∧
      (∀ kv ∈ extra, ∃ x, kv.1 = "tag_" ++ x) ∧
      (∀ q ∈ ([("team", "core")] : List (String × String)),
        ("tag_" ++ ClearPrometheusLabel q.1) ∈ extra.map Prod.fst)) ∧
    (∀ q ∈ ([("team", "core")] : List (String × String)), q.1 ≠ "" →
      matchesTagLabel ("tag_" ++ ClearPrometheusLabel q.1) = true) ∧
    (∀ x : String,
      "tag_" ++ x ∉ (["aws_account_id", "aws_region", "dbidentifier"] : List String)) :=
  claim_C9_tag_labels_amended ⟨{ CollectInstanceTags := true }, "a", "r", {}, {}⟩
    { rdsResult := Except.ok { Instances := [("db", { Tags := [("team", "core")] })] } }
    { Instances := [("db", { Tags := [("team", "core")] })] } rfl rfl (by decide)
    ("db", { Tags := [("team", "core")] }) (by decide)

end Claims

end RdsExporter
